import Mathlib

/-!
# The shardkv apply loop

A shallow embedding of `src/shardkv/server.go` and `src/shardkv/common.go`:
the sharded key/value state machine (`KVStateMachine.get/put/append`), the
duplicate table (`hasCache`), one iteration of `applier` on a command or
snapshot message (client `Op`s, `ShardOp`s, `setSnapshot`), the configuration
poller's `checkConfig`, the `ShardMigrationHandler`, the migration puller's
worker and the entries of `PutAppend` and `Get`; and of the apply loop of
`src/kvraft/server.go`. The properties proved of them follow the definitions.

Conventions of the embedding.

* A Go `map[K]V` is a finite map `GoMap K V` (an association list without
  duplicate keys). `m[k] = v` is `AList.insert`, `delete(m, k)` is
  `AList.erase`, the two-valued read `v, ok := m[k]` is `AList.lookup`, and
  `for k, v := range m` is a fold over the entries. Maps are never nil.
* Go `int` and `int64` are `Int`; the embedded code compares and copies them,
  and its one addition, `oldConfig.Num+1`, is the wrapping `addInt`.
* The string-typed enumerations (`Err`, `OpType`, `ShardOpType`,
  `ShardState`) stay strings, so a value outside the named constants is
  representable exactly as in Go.
* `KVData` holds `*ShardData`; a write through the pointer is a re-insertion
  of the updated `ShardData` under the same shard.
* What `applier` asks of Raft during one iteration (`GetState`,
  `RaftStateSize`, `CondInstallSnapshot`) is passed in as a `Raft` record;
  what it hands to Raft (`Snapshot`, `Start`) is returned.
* A wait channel is its buffer: the replies sent on it and not yet received,
  oldest first. `getWaitCh` makes it with room for one reply, so a send on a
  channel that holds a reply blocks; an iteration of `applier` that blocks
  there is returned as `blocked`, with the state it has reached, and the loop
  stops.
* The `labgob` codec is a parameter, `Labgob`.
-/

namespace shardkv

/-- A Go map: finitely many keys, each bound once. -/
abbrev GoMap (K V : Type) := AList (fun _ : K => V)

/-- Two Go maps are equal when they have the same entries. -/
instance (priority := 2000) goMapDecEq {K V : Type} [DecidableEq K] [DecidableEq V] :
    DecidableEq (GoMap K V) := fun a b =>
  decidable_of_iff (a.entries = b.entries) ⟨AList.ext, fun h => congrArg _ h⟩

/-! ## common.go -/

/-- `type Err string` -/
abbrev Err := String

abbrev OK : Err := "OK"
abbrev ErrNoKey : Err := "ErrNoKey"
abbrev ErrWrongGroup : Err := "ErrWrongGroup"
abbrev ErrWrongLeader : Err := "ErrWrongLeader"
abbrev ErrTimeout : Err := "ErrTimeout"
abbrev ErrNotReady : Err := "ErrNotReady"

/-! ## server.go: types -/

/-- `type OpType string` -/
abbrev OpType := String

abbrev GET : OpType := "Get"
abbrev PUT : OpType := "Put"
abbrev APPEND : OpType := "Append"

/-- `type ShardOpType string` -/
abbrev ShardOpType := String

abbrev UPDATE_CONFIG : ShardOpType := "UpdateConfig"
abbrev UPDATE_SHARD_STATE : ShardOpType := "UpdateShardState"
abbrev UPDATE_SHARD_DB : ShardOpType := "UpdateShardDB"

/-- `type ShardState string` -/
abbrev ShardState := String

abbrev READY : ShardState := "Ready"
abbrev WAITING : ShardState := "Waiting"
/-- `type Op struct` (the field `Type` is spelled `Type_`). -/
structure Op where
  Key : String
  Value : String
  Shard : Int
  Type_ : OpType
  ClientId : Int
  CommandId : Int
deriving DecidableEq, Repr

/-- Modelled from the spec: `shardctrler.Config`, declared in the shardctrler
package. `{ num, shards: [GroupId; NShards], groups: Map<GroupId → [ServerAddress]> }`;
`Shards` is the array of `NShards` group ids. -/
structure Config where
  Num : Int
  Shards : List Int
  Groups : GoMap Int (List String)
deriving DecidableEq

/-- `type ShardOp struct` (the field `Type` is spelled `Type_`). -/
structure ShardOp where
  Type_ : ShardOpType
  NewConfig : Config
  Shard : Int
  NewState : ShardState
  TargetGid : Int
  Groups : List String
  DB : GoMap String String
  CacheMap : GoMap Int Int
deriving DecidableEq

/-- `type ShardData struct` -/
structure ShardData where
  State : ShardState
  DB : GoMap String String
deriving DecidableEq

/-- `type KVStateMachine struct`: shard -> ShardData. -/
structure KVStateMachine where
  KVData : GoMap Int ShardData
deriving DecidableEq

/-- `type CommandReply struct`; `CommandReply{}` is `⟨"", ""⟩`. -/
structure CommandReply where
  Value : String
  Err : Err
deriving DecidableEq, Repr

/-- `type ShardKV struct`: the fields the embedded code reads or writes. A
wait channel (`chan CommandReply`) is its buffer: the replies sent on it and
not yet received, oldest first. -/
structure ShardKV where
  me : Int
  gid : Int
  maxraftstate : Int
  config : Config
  stateMachine : KVStateMachine
  waitChMap : GoMap Int (List CommandReply)
  cacheMap : GoMap Int Int
  pullGid : GoMap Int Int
  pullGroups : GoMap Int (List String)
  lastApplied : Int
  lastSnapshot : Int
deriving DecidableEq

/-- The state `StartServer` builds before it restores a snapshot
(server.go 650-670). `shardctrler.Config{}` is the zero configuration:
`Num = 0`, every one of the ten shards assigned to group 0, no groups. -/
def ShardKV.start (me maxraftstate gid : Int) : ShardKV :=
  { me := me
    gid := gid
    maxraftstate := maxraftstate
    config := { Num := 0, Shards := List.replicate 10 0, Groups := ∅ }
    stateMachine := { KVData := ∅ }
    waitChMap := ∅
    cacheMap := ∅
    pullGid := ∅
    pullGroups := ∅
    lastApplied := 0
    lastSnapshot := 0 }

/-! ## server.go: the key/value state machine -/

/-- `KVStateMachine.get` (server.go 101-115). -/
def KVStateMachine.get (stateMachine : KVStateMachine) (shard : Int) (key : String) :
    Err × String :=
  match stateMachine.KVData.lookup shard with
  | none => (ErrNoKey, "")
  | some shardData =>
    if shardData.State = WAITING then (ErrNotReady, "")
    else
      match shardData.DB.lookup key with
      | some value => (OK, value)
      | none => (ErrNoKey, "")

/-- The allocation that opens `put`, `append` and `updateShardState`
(server.go 117-122, 130-135, 452-457): when the shard is not held, bind it to
a fresh `ShardData{State: READY, DB: make(map[string]string)}`. Returns the
state machine afterwards together with the `ShardData` that `KVData[shard]`
then points to. -/
def KVStateMachine.allocate (stateMachine : KVStateMachine) (shard : Int) :
    KVStateMachine × ShardData :=
  match stateMachine.KVData.lookup shard with
  | some shardData => (stateMachine, shardData)
  | none =>
    ({ KVData := stateMachine.KVData.insert shard { State := READY, DB := ∅ } },
     { State := READY, DB := ∅ })

/-- `KVStateMachine.put` (server.go 116-128). -/
def KVStateMachine.put (stateMachine : KVStateMachine) (shard : Int) (key value : String) :
    KVStateMachine × Err :=
  let a := stateMachine.allocate shard
  if a.2.State = WAITING then (a.1, ErrNotReady)
  else
    ({ KVData := a.1.KVData.insert shard { a.2 with DB := a.2.DB.insert key value } }, OK)

/-- `KVStateMachine.append` (server.go 129-141); `DB[key] += value` reads the
empty string for an absent key. -/
def KVStateMachine.append (stateMachine : KVStateMachine) (shard : Int) (key value : String) :
    KVStateMachine × Err :=
  let a := stateMachine.allocate shard
  if a.2.State = WAITING then (a.1, ErrNotReady)
  else
    ({ KVData := a.1.KVData.insert shard
        { a.2 with DB := a.2.DB.insert key ((a.2.DB.lookup key).getD "" ++ value) } }, OK)

/-- `applyToStateMachine` (server.go 147-166). -/
def ShardKV.applyToStateMachine (kv : ShardKV) (command : Op) : ShardKV × CommandReply :=
  if command.Type_ = GET then
    let r := kv.stateMachine.get command.Shard command.Key
    (kv, { Err := r.1, Value := r.2 })
  else if command.Type_ = PUT then
    let r := kv.stateMachine.put command.Shard command.Key command.Value
    ({ kv with stateMachine := r.1 }, { Err := r.2, Value := "" })
  else if command.Type_ = APPEND then
    let r := kv.stateMachine.append command.Shard command.Key command.Value
    ({ kv with stateMachine := r.1 }, { Err := r.2, Value := "" })
  else (kv, { Err := "", Value := "" })

/-- `getWaitCh` (server.go 168-175): the channel for `index`, made when
missing; `make(chan CommandReply,1)` is an empty buffer with room for one
reply. -/
def ShardKV.getWaitCh (kv : ShardKV) (index : Int) : ShardKV × List CommandReply :=
  match kv.waitChMap.lookup index with
  | some ch => (kv, ch)
  | none => ({ kv with waitChMap := kv.waitChMap.insert index [] }, [])

/-- `hasCache` (server.go 184-191). -/
def ShardKV.hasCache (kv : ShardKV) (clientId commandId : Int) : Bool :=
  match kv.cacheMap.lookup clientId with
  | some item => decide (item ≥ commandId)
  | none => false

/-! ## server.go: snapshots sent from the apply loop -/

/-- What `kv.rf` answers during one iteration of `applier`: `GetState()`,
`RaftStateSize()` and, for a snapshot message, `CondInstallSnapshot(...)`. -/
structure Raft where
  currentTerm : Int
  isLeader : Bool
  RaftStateSize : Int
  CondInstallSnapshot : Bool
deriving DecidableEq

/-- `isNeedSnapshot` (server.go 283-290). -/
def ShardKV.isNeedSnapshot (kv : ShardKV) (rf : Raft) : Bool :=
  if kv.maxraftstate ≠ -1 ∧ rf.RaftStateSize > kv.maxraftstate then true else false

/-- The five values `sendSnapshot` hands to the encoder, in the order it
encodes them (server.go 295-299). -/
structure SnapshotFields where
  stateMachine : KVStateMachine
  cacheMap : GoMap Int Int
  pullGid : GoMap Int Int
  pullGroups : GoMap Int (List String)
  config : Config
deriving DecidableEq

/-- `sendSnapshot` (server.go 292-304): the state afterwards and the call
`kv.rf.Snapshot(index, bytes)`, given by `index` and the fields encoded. -/
def ShardKV.sendSnapshot (kv : ShardKV) (index : Int) : ShardKV × (Int × SnapshotFields) :=
  ({ kv with lastSnapshot := kv.lastApplied },
   (index, { stateMachine := kv.stateMachine
             cacheMap := kv.cacheMap
             pullGid := kv.pullGid
             pullGroups := kv.pullGroups
             config := kv.config }))

/-- Modelled from the spec: the `labgob` encoder and decoder, declared in the
labgob package (the "serialization primitives" of the spec, which turn the
five fields into one opaque byte blob in a fixed field order). Each `Encode`
appends the bytes of one value to the buffer; each `Decode` reads one value
off the front of the buffer, answering the value and the bytes left, or fails.
`int` and `int64` have one wire type, so `map[int64]int64` and `map[int]int`
share a codec. -/
structure Labgob where
  encStateMachine : KVStateMachine → List Nat
  decStateMachine : List Nat → Option (KVStateMachine × List Nat)
  encMapIntInt : GoMap Int Int → List Nat
  decMapIntInt : List Nat → Option (GoMap Int Int × List Nat)
  encMapIntStrings : GoMap Int (List String) → List Nat
  decMapIntStrings : List Nat → Option (GoMap Int (List String) × List Nat)
  encConfig : Config → List Nat
  decConfig : List Nat → Option (Config × List Nat)

/-- The codec round-trips: a value that was encoded is decoded off the front
of the buffer, leaving the rest; and an encoded state machine takes at least
one byte. -/
structure Labgob.Lawful (gob : Labgob) : Prop where
  stateMachine : ∀ v rest, gob.decStateMachine (gob.encStateMachine v ++ rest) = some (v, rest)
  mapIntInt : ∀ v rest, gob.decMapIntInt (gob.encMapIntInt v ++ rest) = some (v, rest)
  mapIntStrings : ∀ v rest,
    gob.decMapIntStrings (gob.encMapIntStrings v ++ rest) = some (v, rest)
  config : ∀ v rest, gob.decConfig (gob.encConfig v ++ rest) = some (v, rest)
  nonempty : ∀ v, gob.encStateMachine v ≠ []

/-- The bytes `w.Bytes()` that `sendSnapshot` passes to `kv.rf.Snapshot`
after its five `Encode` calls (server.go 293-302). -/
def Labgob.encode (gob : Labgob) (fields : SnapshotFields) : List Nat :=
  gob.encStateMachine fields.stateMachine ++ (gob.encMapIntInt fields.cacheMap ++
    (gob.encMapIntInt fields.pullGid ++ (gob.encMapIntStrings fields.pullGroups ++
      gob.encConfig fields.config)))

/-- `setSnapshot` (server.go 306-331): nothing for an empty snapshot; else the
five `Decode` calls in order, and the five assignments when all succeed. -/
def ShardKV.setSnapshot (gob : Labgob) (kv : ShardKV) (snapshot : List Nat) : ShardKV :=
  if snapshot.length < 1 then kv
  else
    match gob.decStateMachine snapshot with
    | none => kv
    | some (stateMachine, r1) =>
      match gob.decMapIntInt r1 with
      | none => kv
      | some (cacheMap, r2) =>
        match gob.decMapIntInt r2 with
        | none => kv
        | some (pullGid, r3) =>
          match gob.decMapIntStrings r3 with
          | none => kv
          | some (pullGroups, r4) =>
            match gob.decConfig r4 with
            | none => kv
            | some (config, _) =>
              { kv with stateMachine := stateMachine
                        cacheMap := cacheMap
                        pullGid := pullGid
                        pullGroups := pullGroups
                        config := config }

/-! ## server.go: shard operations -/

/-- `updateShardState` (server.go 451-464). -/
def ShardKV.updateShardState (kv : ShardKV) (shard : Int) (newState : ShardState)
    (targetGid : Int) (groups : List String) : ShardKV :=
  let a := kv.stateMachine.allocate shard
  let kv1 : ShardKV :=
    { kv with stateMachine := { KVData := a.1.KVData.insert shard { a.2 with State := newState } } }
  if newState = WAITING then
    { kv1 with pullGid := kv1.pullGid.insert shard targetGid
               pullGroups := kv1.pullGroups.insert targetGid groups }
  else kv1

/-- `max` (server.go 609-611). -/
def max (a b : Int) : Int := if a ≥ b then a else b

/-- The loop `for k,v := range shardDB { shardData.DB[k]=v }` (server.go 475-477). -/
def mergeDB (DB shardDB : GoMap String String) : GoMap String String :=
  AList.foldl (fun db k v => db.insert k v) DB shardDB

/-- The loop `for k,v := range cache { kv.cacheMap[k] = max(kv.cacheMap[k],v) }`
(server.go 480-482); `kv.cacheMap[k]` reads 0 for an absent client. -/
def mergeCache (cacheMap cache : GoMap Int Int) : GoMap Int Int :=
  AList.foldl (fun cm k v => cm.insert k (max ((cm.lookup k).getD 0) v)) cacheMap cache

/-- `updateShardDBAndCacheMap` (server.go 466-486). -/
def ShardKV.updateShardDBAndCacheMap (kv : ShardKV) (shard : Int) (shardDB : GoMap String String)
    (cache : GoMap Int Int) (targetGid : Int) : ShardKV :=
  let KVData :=
    match kv.stateMachine.KVData.lookup shard with
    | none => kv.stateMachine.KVData.insert shard { State := READY, DB := shardDB }
    | some shardData =>
      kv.stateMachine.KVData.insert shard { State := READY, DB := mergeDB shardData.DB shardDB }
  { kv with stateMachine := { KVData := KVData }
            cacheMap := mergeCache kv.cacheMap cache
            pullGid := kv.pullGid.erase shard
            pullGroups := kv.pullGroups.erase targetGid }

/-! ## server.go: the apply loop -/

/-- The dynamic type of `msg.Command`: the two assertions `msg.Command.(Op)`
and `msg.Command.(ShardOp)` of `applier`, and anything else. -/
inductive Command where
  | op (command : Op)
  | shardOp (command : ShardOp)
  | other
deriving DecidableEq

/-- Modelled from the spec: `raft.ApplyMsg`, declared in the raft package.
Command messages carry `(index, term, Command)`, snapshot messages
`(snapshot_term, snapshot_index, snapshot_bytes)`. -/
structure ApplyMsg where
  CommandValid : Bool
  Command : Command
  CommandIndex : Int
  CommandTerm : Int
  SnapshotValid : Bool
  Snapshot : List Nat
  SnapshotTerm : Int
  SnapshotIndex : Int
deriving DecidableEq

/-- The client-`Op` block of `applier` (server.go 412-422): the duplicate
recheck, `applyToStateMachine`, and the duplicate-table update. Returns the
state afterwards and `commandReply`. -/
def ShardKV.applyOp (kv : ShardKV) (command : Op) : ShardKV × CommandReply :=
  if command.Type_ ≠ GET ∧ kv.hasCache command.ClientId command.CommandId = true then
    (kv, { Err := OK, Value := "" })
  else
    let r := kv.applyToStateMachine command
    if command.Type_ ≠ GET ∧ r.2.Err = OK then
      ({ r.1 with cacheMap := r.1.cacheMap.insert command.ClientId command.CommandId }, r.2)
    else r

/-- The delivery block of `applier` (server.go 424-428): `commandReply` is
sent on the wait channel of `msg.CommandIndex` when this server is leader in
the message's term. The channel has room for one reply (server.go 171): the
send `ch<-commandReply` puts the reply in an empty buffer, and blocks on a
buffer that holds a reply. Returns the state afterwards and whether the send
blocks; when it does, nothing was sent. -/
def ShardKV.deliver (kv : ShardKV) (rf : Raft) (msg : ApplyMsg) (commandReply : CommandReply) :
    ShardKV × Bool :=
  if rf.isLeader = true ∧ rf.currentTerm = msg.CommandTerm then
    let c := kv.getWaitCh msg.CommandIndex
    if c.2.length < 1 then
      ({ c.1 with waitChMap := c.1.waitChMap.insert msg.CommandIndex (c.2 ++ [commandReply]) },
       false)
    else (c.1, true)
  else (kv, false)

/-- The `ShardOp` block of `applier` (server.go 430-439). -/
def ShardKV.applyShardOp (kv : ShardKV) (command : ShardOp) : ShardKV :=
  if command.Type_ = UPDATE_CONFIG then
    { kv with config := command.NewConfig }
  else if command.Type_ = UPDATE_SHARD_STATE then
    kv.updateShardState command.Shard command.NewState command.TargetGid command.Groups
  else if command.Type_ = UPDATE_SHARD_DB then
    kv.updateShardDBAndCacheMap command.Shard command.DB command.CacheMap command.TargetGid
  else kv

/-- What one iteration of `applier` leaves behind: the server state, the
`commandReply` computed when the message carried a client `Op` that was
applied, the call to `kv.rf.Snapshot` when one was made, and whether the
iteration is blocked in the send `ch<-commandReply` (server.go 427), holding
`kv.mu`; `kv` is then the state it has reached there. -/
structure Applied where
  kv : ShardKV
  commandReply : Option CommandReply
  snapshot : Option (Int × SnapshotFields)
  blocked : Bool
deriving DecidableEq

/-- The dispatch on `msg.Command` (server.go 411-440), after `lastApplied`
was advanced: the state afterwards, the `commandReply` computed, and whether
the send of the reply blocks. -/
def ShardKV.dispatch (kv : ShardKV) (rf : Raft) (msg : ApplyMsg) :
    ShardKV × Option CommandReply × Bool :=
  match msg.Command with
  | .op command =>
    let r := kv.applyOp command
    let s := r.1.deliver rf msg r.2
    (s.1, some r.2, s.2)
  | .shardOp command => (kv.applyShardOp command, none, false)
  | .other => (kv, none, false)

/-- The snapshot trigger that ends the iteration (server.go 442-444). -/
def ShardKV.trigger (kv : ShardKV) (rf : Raft) : ShardKV × Option (Int × SnapshotFields) :=
  if kv.isNeedSnapshot rf = true ∧ kv.lastApplied > kv.lastSnapshot then
    let s := kv.sendSnapshot kv.lastApplied
    (s.1, some s.2)
  else (kv, none)

/-- One iteration of `applier` on a command message, the branch
`else if msg.CommandValid` (server.go 399-446). An iteration whose send
blocks does not reach the snapshot trigger. -/
def ShardKV.applierCommand (kv : ShardKV) (rf : Raft) (msg : ApplyMsg) : Applied :=
  if msg.CommandIndex ≤ kv.lastApplied then
    { kv := kv, commandReply := none, snapshot := none, blocked := false }
  else
    let d := ShardKV.dispatch { kv with lastApplied := msg.CommandIndex } rf msg
    if d.2.2 = true then
      { kv := d.1, commandReply := d.2.1, snapshot := none, blocked := true }
    else
      let t := d.1.trigger rf
      { kv := t.1, commandReply := d.2.1, snapshot := t.2, blocked := false }

/-- The apply loop over a stream of command messages, each with what Raft
answers while it is processed: the state the loop has reached when the stream
is used up, or when an iteration blocks, after which no message is
processed. -/
def ShardKV.applierRun : ShardKV → List (Raft × ApplyMsg) → ShardKV
  | kv, [] => kv
  | kv, m :: rest =>
    if (kv.applierCommand m.1 m.2).blocked = true then (kv.applierCommand m.1 m.2).kv
    else ShardKV.applierRun (kv.applierCommand m.1 m.2).kv rest

/-- One iteration of `applier` (server.go 389-447): a snapshot message is
installed when Raft agrees, a command message goes to `applierCommand`, and a
message that is neither is dropped. -/
def ShardKV.applier (gob : Labgob) (kv : ShardKV) (rf : Raft) (msg : ApplyMsg) : Applied :=
  if msg.SnapshotValid = true then
    if rf.CondInstallSnapshot = true then
      { kv := { kv.setSnapshot gob msg.Snapshot with lastApplied := msg.SnapshotIndex }
        commandReply := none
        snapshot := none
        blocked := false }
    else { kv := kv, commandReply := none, snapshot := none, blocked := false }
  else if msg.CommandValid = true then kv.applierCommand rf msg
  else { kv := kv, commandReply := none, snapshot := none, blocked := false }

/-- A snapshot message. -/
def ApplyMsg.ofSnapshot (index term : Int) (snapshot : List Nat) : ApplyMsg :=
  { CommandValid := false, Command := .other, CommandIndex := 0, CommandTerm := 0
    SnapshotValid := true, Snapshot := snapshot, SnapshotTerm := term, SnapshotIndex := index }

/-- A command message carrying a client `Op`. -/
def ApplyMsg.ofOp (index term : Int) (command : Op) : ApplyMsg :=
  { CommandValid := true, Command := .op command, CommandIndex := index, CommandTerm := term
    SnapshotValid := false, Snapshot := [], SnapshotTerm := 0, SnapshotIndex := 0 }

/-- A command message carrying a `ShardOp`. -/
def ApplyMsg.ofShardOp (index term : Int) (command : ShardOp) : ApplyMsg :=
  { CommandValid := true, Command := .shardOp command, CommandIndex := index, CommandTerm := term
    SnapshotValid := false, Snapshot := [], SnapshotTerm := 0, SnapshotIndex := 0 }

/-! ## server.go: the migration handler -/

/-- `type ShardMigrationArgs struct` (common.go 53-56). -/
structure ShardMigrationArgs where
  Shard : Int
  ConfigNum : Int
deriving DecidableEq

/-- `type ShardMigrationReply struct` (common.go 58-64). -/
structure ShardMigrationReply where
  Err : Err
  Shard : Int
  ConfigNum : Int
  CacheMap : GoMap Int Int
  Data : GoMap String String
deriving DecidableEq

/-- `deepCopyShardDataAndCacheMap` (server.go 370-382): both copies are built
entry by entry into a fresh map. -/
def ShardKV.deepCopyShardDataAndCacheMap (kv : ShardKV) (shard : Int) :
    GoMap String String × GoMap Int Int :=
  let copyCache := AList.foldl (fun c k v => c.insert k v) (∅ : GoMap Int Int) kv.cacheMap
  let copyDB :=
    match kv.stateMachine.KVData.lookup shard with
    | some shardData =>
      AList.foldl (fun c k v => c.insert k v) (∅ : GoMap String String) shardData.DB
    | none => ∅
  (copyDB, copyCache)

/-- `ShardMigrationHandler` (server.go 346-366); `reply` comes in as the RPC
layer made it and goes out with the fields the handler set. -/
def ShardKV.ShardMigrationHandler (kv : ShardKV) (rf : Raft) (args : ShardMigrationArgs)
    (reply : ShardMigrationReply) : ShardKV × ShardMigrationReply :=
  if ¬ rf.isLeader = true then (kv, { reply with Err := ErrWrongLeader })
  else if args.ConfigNum > kv.config.Num then (kv, { reply with Err := ErrNotReady })
  else
    let c := kv.deepCopyShardDataAndCacheMap args.Shard
    (kv, { Err := OK, Shard := args.Shard, ConfigNum := kv.config.Num
           CacheMap := c.2, Data := c.1 })

/-- `ShardMigrationReply{}`. -/
def ShardMigrationReply.zero : ShardMigrationReply :=
  { Err := "", Shard := 0, ConfigNum := 0, CacheMap := ∅, Data := ∅ }

/-! ## server.go: the configuration poller -/

/-- Go `int` addition: the sum wrapped into the 64-bit range. -/
def addInt (a b : Int) : Int :=
  (a + b + 9223372036854775808) % 18446744073709551616 - 9223372036854775808

/-- `shardctrler.Config{}`: number 0, every shard with group 0, no groups. -/
def Config.zero : Config := { Num := 0, Shards := List.replicate 10 0, Groups := ∅ }

/-- `checkConfig` (server.go 560-599): the state afterwards and the commands
handed to `kv.rf.Start`, in order. `Shards` is an array, so both
configurations have the same number of shards; a missing entry of
`oldConfig.Groups` reads as the nil slice. -/
def ShardKV.checkConfig (kv : ShardKV) (newConfig : Config) : ShardKV × List ShardOp :=
  let oldConfig := kv.config
  if newConfig.Num ≠ addInt oldConfig.Num 1 then (kv, [])
  else
    let updateConfig : ShardOp :=
      { Type_ := UPDATE_CONFIG, NewConfig := newConfig, Shard := 0, NewState := ""
        TargetGid := 0, Groups := [], DB := ∅, CacheMap := ∅ }
    if oldConfig.Num = 0 then (kv, [updateConfig])
    else
      (kv, updateConfig :: (List.range newConfig.Shards.length).filterMap (fun index =>
        if newConfig.Shards.getD index 0 = kv.gid ∧ oldConfig.Shards.getD index 0 ≠ kv.gid then
          some { Type_ := UPDATE_SHARD_STATE, NewConfig := Config.zero, Shard := index
                 NewState := WAITING, TargetGid := oldConfig.Shards.getD index 0
                 Groups := (oldConfig.Groups.lookup (oldConfig.Shards.getD index 0)).getD []
                 DB := ∅, CacheMap := ∅ }
        else none))

/-! ## server.go: the PutAppend handler -/

/-- `type PutAppendArgs struct` (common.go 24-34). -/
structure PutAppendArgs where
  Key : String
  Value : String
  Op : String
  ClientId : Int
  CommandId : Int
deriving DecidableEq

/-- `type PutAppendReply struct` (common.go 36-38). -/
structure PutAppendReply where
  Err : Err
deriving DecidableEq

/-- `checkKey` (server.go 603-607). `key2shard` is declared outside the given
sources and is a parameter: the spec's `shard_of`, a pure function of the key
yielding a shard in `[0, NShards)`. -/
def ShardKV.checkKey (key2shard : String → Nat) (kv : ShardKV) (key : String) :
    Int × Int × Bool :=
  (key2shard key, kv.config.Shards.getD (key2shard key) 0,
    decide (kv.config.Shards.getD (key2shard key) 0 = kv.gid))

/-- What `kv.rf.Start(command)` answers. -/
structure Started where
  index : Int
  term : Int
  isLeader : Bool
deriving DecidableEq

/-- Where `PutAppend` stands when it has returned or reached its wait
(server.go 264): the commands it handed to `kv.rf.Start`, the reply as set so
far, and the log index whose wait channel it goes on to read (`none` when it
has returned). -/
structure Entered where
  proposed : List Op
  reply : PutAppendReply
  waiting : Option Int
deriving DecidableEq

/-- `PutAppend` up to its wait (server.go 232-264): the ownership check, the
duplicate check, the proposal and the leader check. -/
def ShardKV.PutAppend (key2shard : String → Nat) (kv : ShardKV) (start : Started)
    (args : PutAppendArgs) (reply : PutAppendReply) : ShardKV × Entered :=
  let c := kv.checkKey key2shard args.Key
  if ¬ c.2.2 = true then
    (kv, { proposed := [], reply := { reply with Err := ErrWrongGroup }, waiting := none })
  else if kv.hasCache args.ClientId args.CommandId = true then
    (kv, { proposed := [], reply := { reply with Err := OK }, waiting := none })
  else
    let command : Op :=
      { Key := args.Key, Value := args.Value, Shard := c.1, Type_ := args.Op
        ClientId := args.ClientId, CommandId := args.CommandId }
    if ¬ start.isLeader = true then
      (kv, { proposed := [command], reply := { reply with Err := ErrWrongLeader }
             waiting := none })
    else (kv, { proposed := [command], reply := reply, waiting := some start.index })

/-! ## server.go: the Get handler -/

/-- `type GetArgs struct` (common.go 40-45). -/
structure GetArgs where
  Key : String
  ClientId : Int
  CommandId : Int
deriving DecidableEq

/-- `type GetReply struct` (common.go 47-50). -/
structure GetReply where
  Err : Err
  Value : String
deriving DecidableEq

/-- Where `Get` stands when it has returned or reached its wait (server.go
217): the commands it handed to `kv.rf.Start`, the reply as set so far, and
the log index whose wait channel it goes on to read (`none` when it has
returned). -/
structure GetEntered where
  proposed : List Op
  reply : GetReply
  waiting : Option Int
deriving DecidableEq

/-- `Get` up to its wait (server.go 193-217): the ownership check, the
proposal and the leader check; the `Op` literal sets no `Value`. -/
def ShardKV.Get (key2shard : String → Nat) (kv : ShardKV) (start : Started)
    (args : GetArgs) (reply : GetReply) : ShardKV × GetEntered :=
  let c := kv.checkKey key2shard args.Key
  if ¬ c.2.2 = true then
    (kv, { proposed := [], reply := { reply with Err := ErrWrongGroup }, waiting := none })
  else
    let command : Op :=
      { Key := args.Key, Value := "", Shard := c.1, Type_ := GET
        ClientId := args.ClientId, CommandId := args.CommandId }
    if ¬ start.isLeader = true then
      (kv, { proposed := [command], reply := { reply with Err := ErrWrongLeader }
             waiting := none })
    else (kv, { proposed := [command], reply := reply, waiting := some start.index })

/-! ## server.go: the migration puller -/

/-- The worker `updateShardData` starts for one Waiting shard (server.go
522-541). `call server args` is the reply that
`srv.Call("ShardKV.ShardMigrationHandler", &args, &reply)` filled when it
answered true, `none` when it answered false. Returns the commands handed to
`kv.rf.Start`, in order; the worker does not use its `targetGid`. -/
def pullShard (shard configNum _targetGid : Int) (servers : List String)
    (call : String → ShardMigrationArgs → Option ShardMigrationReply) : List ShardOp :=
  servers.filterMap (fun server =>
    match call server { Shard := shard, ConfigNum := configNum } with
    | some reply =>
      if reply.Err = OK then
        some { Type_ := UPDATE_SHARD_DB, NewConfig := Config.zero, Shard := reply.Shard
               NewState := "", TargetGid := 0, Groups := [], DB := reply.Data
               CacheMap := reply.CacheMap }
      else none
    | none => none)

/-- The workers one pass of `updateShardData` starts on a leader (server.go
515-521, 541): one per shard held in state Waiting, with arguments
`(shard, kv.config.Num, targetGid, servers)`; a missing `pullGid` entry reads
as 0 and a missing `pullGroups` entry as the nil slice. -/
def ShardKV.pullTasks (kv : ShardKV) : List (Int × Int × Int × List String) :=
  kv.stateMachine.KVData.entries.filterMap (fun e =>
    if e.2.State = WAITING then
      some (e.1, kv.config.Num, (kv.pullGid.lookup e.1).getD 0,
        (kv.pullGroups.lookup ((kv.pullGid.lookup e.1).getD 0)).getD [])
    else none)

/-! ## A concrete codec -/

instance charEncodable : Encodable Char :=
  Encodable.ofLeftInverse Char.toNat Char.ofNat (fun c => Char.ofNat_toNat c)

instance stringEncodable : Encodable String :=
  Encodable.ofLeftInverse String.data String.mk (fun _ => rfl)

instance goMapEncodable {K V : Type} [DecidableEq K] [Encodable K] [Encodable V] :
    Encodable (GoMap K V) :=
  Encodable.ofLeftInjection (fun m => m.entries)
    (fun l => if h : l.keys.Nodup then some ⟨l, h⟩ else none)
    (fun m => dif_pos m.nodupKeys)

instance shardDataEncodable : Encodable ShardData :=
  Encodable.ofLeftInverse (fun d => (d.State, d.DB)) (fun p => ⟨p.1, p.2⟩) (fun _ => rfl)

instance stateMachineEncodable : Encodable KVStateMachine :=
  Encodable.ofLeftInverse (fun m => m.KVData) (fun d => ⟨d⟩) (fun _ => rfl)

instance configEncodable : Encodable Config :=
  Encodable.ofLeftInverse (fun c => (c.Num, c.Shards, c.Groups)) (fun p => ⟨p.1, p.2.1, p.2.2⟩)
    (fun _ => rfl)

/-- Reads one value off the front of a buffer that holds one number per
value. -/
def decodeHead {T : Type} [Encodable T] : List Nat → Option (T × List Nat)
  | [] => none
  | n :: rest => (Encodable.decode n).map (fun v => (v, rest))

/-- A codec that writes each value as one number. -/
def natGob : Labgob :=
  { encStateMachine := fun v => [Encodable.encode v]
    decStateMachine := decodeHead
    encMapIntInt := fun v => [Encodable.encode v]
    decMapIntInt := decodeHead
    encMapIntStrings := fun v => [Encodable.encode v]
    decMapIntStrings := decodeHead
    encConfig := fun v => [Encodable.encode v]
    decConfig := decodeHead }

/-- The db of a shard as the state machine holds it, `none` when the shard is
not held. -/
def ShardKV.db (kv : ShardKV) (shard : Int) : Option (GoMap String String) :=
  (kv.stateMachine.KVData.lookup shard).map (fun shardData => shardData.DB)

/-- The state of a shard, `none` when the shard is not held. -/
def ShardKV.shardState (kv : ShardKV) (shard : Int) : Option ShardState :=
  (kv.stateMachine.KVData.lookup shard).map (fun shardData => shardData.State)

/-- What a shard binds to a key, `none` when the shard is not held or does not
bind the key. -/
def ShardKV.read (kv : ShardKV) (shard : Int) (key : String) : Option String :=
  (kv.stateMachine.KVData.lookup shard).bind (fun shardData => shardData.DB.lookup key)

/-! ## The pending-pull invariant -/

/-- Every shard in state Waiting has an entry in `pullGid`. -/
def ShardKV.HasPullGid (kv : ShardKV) : Prop :=
  ∀ shard, kv.shardState shard = some WAITING → ∃ gid, kv.pullGid.lookup shard = some gid

/-- Every shard in state Waiting has an entry in `pullGid`, and `pullGroups`
has an entry for that group. -/
def ShardKV.PendingPulls (kv : ShardKV) : Prop :=
  ∀ shard, kv.shardState shard = some WAITING →
    ∃ gid, kv.pullGid.lookup shard = some gid ∧
      ∃ servers, kv.pullGroups.lookup gid = some servers

/-- The message is not an `UpdateShardDB` whose `TargetGid` is the pull group
of another shard that is still Waiting. -/
def ShardKV.keepsPulls (kv : ShardKV) (msg : ApplyMsg) : Prop :=
  ∀ command, msg.Command = .shardOp command → command.Type_ = UPDATE_SHARD_DB →
    ∀ shard, shard ≠ command.Shard → kv.shardState shard = some WAITING →
      kv.pullGid.lookup shard ≠ some command.TargetGid

/-- Every message of the stream that the loop applies keeps the pulls of the
state it is applied to. A message the loop discards as stale, and a message
that follows a blocked iteration and so is never processed, is not
constrained. -/
def ShardKV.keepsPullsRun : ShardKV → List (Raft × ApplyMsg) → Prop
  | _, [] => True
  | kv, m :: rest =>
    (kv.lastApplied < m.2.CommandIndex → kv.keepsPulls m.2) ∧
    ((kv.applierCommand m.1 m.2).blocked = false →
      ShardKV.keepsPullsRun (kv.applierCommand m.1 m.2).kv rest)

/-! ## The wait table -/

/-- A server of group 100 holding shard 3 (`Ready`, with `"s" = "hello"`) and
shard 4 (`Waiting`), on which client 1 has been recorded up to command 7. -/
def sampleKV : ShardKV :=
  { ShardKV.start 0 (-1) 100 with
    stateMachine :=
      { KVData := ((∅ : GoMap Int ShardData).insert 3
          { State := READY, DB := (∅ : GoMap String String).insert "s" "hello" }).insert 4
          { State := WAITING, DB := ∅ } }
    cacheMap := (∅ : GoMap Int Int).insert 1 7 }

/-- Raft answering as leader in term 1, with an empty log. -/
def sampleRaft : Raft :=
  { currentTerm := 1, isLeader := true, RaftStateSize := 0, CondInstallSnapshot := true }

/-- `Append("s","hello")` on shard 3 from the given client with the given
command id. -/
def sampleAppend (clientId commandId : Int) : Op :=
  { Key := "s", Value := "hello", Shard := 3, Type_ := APPEND,
    ClientId := clientId, CommandId := commandId }

/-- `UpdateConfig` carrying a configuration numbered `num` that assigns every
shard to group 100. -/
def sampleUpdateConfig (num : Int) : ShardOp :=
  { Type_ := UPDATE_CONFIG
    NewConfig :=
      { Num := num, Shards := List.replicate 10 100
        Groups := (∅ : GoMap Int (List String)).insert 100 ["server-100-0"] }
    Shard := 0
    NewState := ""
    TargetGid := 0
    Groups := []
    DB := ∅
    CacheMap := ∅ }

/-- `UpdateShardState(shard, newState, 200, ["server-200-0"])`. -/
def sampleUpdateShardState (shard : Int) (newState : ShardState) : ShardOp :=
  { Type_ := UPDATE_SHARD_STATE
    NewConfig := Config.zero
    Shard := shard
    NewState := newState
    TargetGid := 200
    Groups := ["server-200-0"]
    DB := ∅
    CacheMap := ∅ }

/-- `UpdateShardDB(shard, {"s": "bye", "t": "new"}, cache, 200)`. -/
def sampleUpdateShardDB (shard : Int) (cache : GoMap Int Int) : ShardOp :=
  { Type_ := UPDATE_SHARD_DB
    NewConfig := Config.zero
    Shard := shard
    NewState := ""
    TargetGid := 200
    Groups := []
    DB := ((∅ : GoMap String String).insert "s" "bye").insert "t" "new"
    CacheMap := cache }

/-- The sample server under a configuration numbered 2 in which every group
has left: all ten shards are unassigned (group 0) and there are no groups. -/
def sampleUnassigned : ShardKV :=
  { sampleKV with config := { Num := 2, Shards := List.replicate 10 0, Groups := ∅ } }

/-- `UpdateShardState(shard, Waiting, 0, nil)` as `checkConfig` builds it for a
shard whose previous group is 0. -/
def waitOnNobody (shard : Int) : ShardOp :=
  { Type_ := UPDATE_SHARD_STATE
    NewConfig := Config.zero
    Shard := shard
    NewState := WAITING
    TargetGid := 0
    Groups := []
    DB := ∅
    CacheMap := ∅ }

/-- The sample server after `UpdateShardState(4, Waiting, 200, ["server-200-0"])`:
shard 4 is Waiting on group 200. -/
def samplePulling : ShardKV :=
  (sampleKV.applierCommand sampleRaft
    (ApplyMsg.ofShardOp 1 1 (sampleUpdateShardState 4 WAITING))).kv

/-- A peer whose leader answers every `ShardMigration` call as the sample
server's handler does. -/
def sampleCall (_server : String) (args : ShardMigrationArgs) : Option ShardMigrationReply :=
  some (sampleKV.ShardMigrationHandler sampleRaft args ShardMigrationReply.zero).2

/-- `key2shard` of the lab: the first byte of the key modulo ten. -/
def sampleKey2shard (key : String) : Nat :=
  (key.data.headD (Char.ofNat 0)).toNat % 10

/-- `UpdateShardDB(shard, {}, {}, targetGid)`. -/
def sampleDelivery (shard targetGid : Int) : ShardOp :=
  { Type_ := UPDATE_SHARD_DB
    NewConfig := Config.zero
    Shard := shard
    NewState := ""
    TargetGid := targetGid
    Groups := []
    DB := ∅
    CacheMap := ∅ }

/-- `Get(key)` on shard 3 from the given client with the given command id. -/
def sampleGet (key : String) (clientId commandId : Int) : Op :=
  { Key := key, Value := "", Shard := 3, Type_ := GET, ClientId := clientId
    CommandId := commandId }

/-- A fresh server with size limit `maxraftstate` on which the loop, as leader
in term 1, applied `Append("s","hello")` at index 2, so that the reply went
into the wait channel of index 2, where no handler received it, and then
installed a snapshot message with index 1 and no bytes, to which Raft agreed:
`lastApplied` is back at 1 and the channel of index 2 still holds the reply. -/
def sampleRewound (maxraftstate : Int) : ShardKV :=
  (ShardKV.applier natGob
    ((ShardKV.start 0 maxraftstate 100).applier natGob sampleRaft
      (ApplyMsg.ofOp 2 1 (sampleAppend 2 1))).kv
    sampleRaft (ApplyMsg.ofSnapshot 1 1 [])).kv

/-- Configuration 1 of the sample history: no group has joined yet, every
shard is unassigned (group 0). -/
def sampleConfig1 : Config :=
  { Num := 1, Shards := List.replicate 10 0, Groups := ∅ }

/-- Configuration 2 of the sample history: groups 100 and 200 have joined;
shards 0 to 4 belong to group 100 and shards 5 to 9 to group 200. -/
def sampleConfig2 : Config :=
  { Num := 2
    Shards := [100, 100, 100, 100, 100, 200, 200, 200, 200, 200]
    Groups :=
      AList.insert 200 ["server-200-0"]
        ((∅ : GoMap Int (List String)).insert 100 ["server-100-0"] : GoMap Int (List String)) }

/-- Configuration 3 of the sample history: group 200 has left and every shard
belongs to group 100. -/
def sampleConfig3 : Config :=
  { Num := 3, Shards := List.replicate 10 100
    Groups := (∅ : GoMap Int (List String)).insert 100 ["server-100-0"] }

/-- The messages Raft delivers for commands a leader handed to `Start`: they
commit in order at the indices from `index` on, in term 1. -/
def committed (index : Int) (commands : List ShardOp) : List (Raft × ApplyMsg) :=
  commands.enum.map (fun c => (sampleRaft, ApplyMsg.ofShardOp (index + c.1) 1 c.2))

/-- The apply loop after the given commands were handed to `Start`, committed
at the next indices and applied. -/
def ShardKV.propose (kv : ShardKV) (commands : List ShardOp) : ShardKV :=
  kv.applierRun (committed (kv.lastApplied + 1) commands)

/-- A leader of group 200 at configuration 3 that holds shard 5 with
`"k" = "v"`. -/
def samplePeer : ShardKV :=
  { ShardKV.start 0 (-1) 200 with
    config := sampleConfig3
    stateMachine :=
      { KVData := (∅ : GoMap Int ShardData).insert 5
          { State := READY, DB := (∅ : GoMap String String).insert "k" "v" } } }

/-- A peer group whose leader, `samplePeer`, answers every `ShardMigration`
call. -/
def samplePeerCall (_server : String) (args : ShardMigrationArgs) :
    Option ShardMigrationReply :=
  some (samplePeer.ShardMigrationHandler sampleRaft args ShardMigrationReply.zero).2

/-- The sample history on a fresh server of group 100, after `checkConfig`
fetched configuration 1 and what it proposed was applied. -/
def sampleStage1 : ShardKV :=
  (ShardKV.start 0 (-1) 100).propose ((ShardKV.start 0 (-1) 100).checkConfig sampleConfig1).2

/-- The sample history after `checkConfig` fetched configuration 2 and what it
proposed was applied. -/
def sampleStage2 : ShardKV :=
  sampleStage1.propose (sampleStage1.checkConfig sampleConfig2).2

/-- The sample history after `checkConfig` fetched configuration 3 and what it
proposed was applied. -/
def sampleJoined : ShardKV :=
  sampleStage2.propose (sampleStage2.checkConfig sampleConfig3).2

/-- The sample history after the puller's worker for shard 5 called group 200
and the command it proposed was applied. -/
def sampleOrphaned : ShardKV :=
  sampleJoined.propose (pullShard 5 3 200 ["server-200-0"] samplePeerCall)

/-- The commands of the sample history in the order they were handed to Raft:
the proposals of `checkConfig` for configurations 1, 2 and 3, then the
proposal of the puller's worker for shard 5. -/
def sampleLog : List ShardOp :=
  ((ShardKV.start 0 (-1) 100).checkConfig sampleConfig1).2 ++
    ((sampleStage1.checkConfig sampleConfig2).2 ++
      ((sampleStage2.checkConfig sampleConfig3).2 ++
        pullShard 5 3 200 ["server-200-0"] samplePeerCall))

/-- The apply logic of the loop over a sequence of client Ops: the state at
the end and the replies in order. -/
def ShardKV.applyOps : ShardKV → List Op → ShardKV × List CommandReply
  | kv, [] => (kv, [])
  | kv, command :: rest =>
    ((ShardKV.applyOps (kv.applyOp command).1 rest).1,
     (kv.applyOp command).2 :: (ShardKV.applyOps (kv.applyOp command).1 rest).2)

end shardkv

/-! ## kvraft/server.go: the unsharded server -/

namespace kvraft

/-- `type OpType string` (kvraft/server.go 25-31). -/
abbrev OpType := String

abbrev GET : OpType := "Get"
abbrev PUT : OpType := "Put"
abbrev APPEND : OpType := "Append"

/-- Modelled from the spec: `Err` and its constants of kvraft/common.go, which
is not among the sources; the wire-visible strings `OK` and `ErrNoKey` of the
error taxonomy. -/
abbrev Err := String

abbrev OK : Err := "OK"
abbrev ErrNoKey : Err := "ErrNoKey"

/-- Modelled from the spec: `CommandReply` of kvraft/common.go, a reply
carrying `Err` and `Value`; the same record as in shardkv. -/
abbrev CommandReply := shardkv.CommandReply

/-- `type Op struct` (kvraft/server.go 33-41; the field `Type` is spelled
`Type_`). -/
structure Op where
  Key : String
  Value : String
  Type_ : OpType
  ClientId : Int
  CommandId : Int
deriving DecidableEq, Repr

/-- `type KVStateMachine struct` (kvraft/server.go 45-47). -/
structure KVStateMachine where
  KVData : shardkv.GoMap String String
deriving DecidableEq

/-- `KVStateMachine.Get` (kvraft/server.go 49-56). -/
def KVStateMachine.Get (stateMachine : KVStateMachine) (key : String) : Err × String :=
  match stateMachine.KVData.lookup key with
  | some value => (OK, value)
  | none => (ErrNoKey, "")

/-- `KVStateMachine.Put` (kvraft/server.go 58-61). -/
def KVStateMachine.Put (stateMachine : KVStateMachine) (key value : String) :
    KVStateMachine × Err :=
  ({ KVData := stateMachine.KVData.insert key value }, OK)

/-- `KVStateMachine.Append` (kvraft/server.go 63-66). -/
def KVStateMachine.Append (stateMachine : KVStateMachine) (key value : String) :
    KVStateMachine × Err :=
  ({ KVData := stateMachine.KVData.insert key
      ((stateMachine.KVData.lookup key).getD "" ++ value) }, OK)

/-- `type KVServer struct` (kvraft/server.go 69-85): the fields the embedded
code reads or writes; a wait channel is its buffer, the replies sent on it
and not yet received. -/
structure KVServer where
  me : Int
  maxraftstate : Int
  stateMachine : KVStateMachine
  waitChMap : shardkv.GoMap Int (List CommandReply)
  cacheMap : shardkv.GoMap Int Int
  lastApplied : Int
  lastSnapshot : Int
deriving DecidableEq

/-- `applyToStateMachine` (kvraft/server.go 87-106). -/
def KVServer.applyToStateMachine (kv : KVServer) (command : Op) : KVServer × CommandReply :=
  if command.Type_ = GET then
    let r := kv.stateMachine.Get command.Key
    (kv, { Err := r.1, Value := r.2 })
  else if command.Type_ = PUT then
    let r := kv.stateMachine.Put command.Key command.Value
    ({ kv with stateMachine := r.1 }, { Err := r.2, Value := "" })
  else if command.Type_ = APPEND then
    let r := kv.stateMachine.Append command.Key command.Value
    ({ kv with stateMachine := r.1 }, { Err := r.2, Value := "" })
  else (kv, { Err := "", Value := "" })

/-- `getWaitCh` (kvraft/server.go 151-158); `make(chan CommandReply,1)` is an
empty buffer with room for one reply. -/
def KVServer.getWaitCh (kv : KVServer) (index : Int) : KVServer × List CommandReply :=
  match kv.waitChMap.lookup index with
  | some ch => (kv, ch)
  | none => ({ kv with waitChMap := kv.waitChMap.insert index [] }, [])

/-- `hasCache` (kvraft/server.go 168-175). -/
def KVServer.hasCache (kv : KVServer) (clientId commandId : Int) : Bool :=
  match kv.cacheMap.lookup clientId with
  | some item => decide (item ≥ commandId)
  | none => false

/-- `isNeedSnapshot` (kvraft/server.go 177-184). -/
def KVServer.isNeedSnapshot (kv : KVServer) (rf : shardkv.Raft) : Bool :=
  if kv.maxraftstate ≠ -1 ∧ rf.RaftStateSize > kv.maxraftstate then true else false

/-- `sendSnapshot` (kvraft/server.go 201-210): the state afterwards and the
call `kv.rf.Snapshot(index, bytes)`, given by `index` and the two values
encoded, in order. -/
def KVServer.sendSnapshot (kv : KVServer) (index : Int) :
    KVServer × (Int × (KVStateMachine × shardkv.GoMap Int Int)) :=
  ({ kv with lastSnapshot := kv.lastApplied }, (index, (kv.stateMachine, kv.cacheMap)))

/-- Modelled from the spec: `raft.ApplyMsg` as the kvraft apply loop reads it.
`Command` is `none` when the dynamic type of `msg.Command` is not `Op`. -/
structure ApplyMsg where
  CommandValid : Bool
  Command : Option Op
  CommandIndex : Int
  CommandTerm : Int
  SnapshotValid : Bool
  Snapshot : List Nat
  SnapshotTerm : Int
  SnapshotIndex : Int
deriving DecidableEq

/-- What one iteration of the kvraft `applier` leaves behind; `blocked` when
it is blocked in the send `ch<-commandReply` (kvraft/server.go 275), with
`kv` the state it has reached there. -/
structure Applied where
  kv : KVServer
  commandReply : Option CommandReply
  snapshot : Option (Int × (KVStateMachine × shardkv.GoMap Int Int))
  blocked : Bool
deriving DecidableEq

/-- The duplicate recheck, `applyToStateMachine` and the duplicate-table
update of `applier` (kvraft/server.go 257-268); a write is recorded whatever
the state machine answered. -/
def KVServer.applyOp (kv : KVServer) (command : Op) : KVServer × CommandReply :=
  if command.Type_ ≠ GET ∧ kv.hasCache command.ClientId command.CommandId = true then
    (kv, { Err := OK, Value := "" })
  else
    let r := kv.applyToStateMachine command
    if command.Type_ ≠ GET then
      ({ r.1 with cacheMap := r.1.cacheMap.insert command.ClientId command.CommandId }, r.2)
    else r

/-- The delivery block of `applier` (kvraft/server.go 270-276): the state
afterwards and whether the send blocks, which it does on a channel whose
one-reply buffer is full. -/
def KVServer.deliver (kv : KVServer) (rf : shardkv.Raft) (msg : ApplyMsg)
    (commandReply : CommandReply) : KVServer × Bool :=
  if rf.isLeader = true ∧ rf.currentTerm = msg.CommandTerm then
    let c := kv.getWaitCh msg.CommandIndex
    if c.2.length < 1 then
      ({ c.1 with waitChMap := c.1.waitChMap.insert msg.CommandIndex (c.2 ++ [commandReply]) },
       false)
    else (c.1, true)
  else (kv, false)

/-- The snapshot trigger of `applier` (kvraft/server.go 278-280). -/
def KVServer.trigger (kv : KVServer) (rf : shardkv.Raft) :
    KVServer × Option (Int × (KVStateMachine × shardkv.GoMap Int Int)) :=
  if kv.isNeedSnapshot rf = true ∧ kv.lastApplied > kv.lastSnapshot then
    let s := kv.sendSnapshot kv.lastApplied
    (s.1, some s.2)
  else (kv, none)

/-- One iteration of the kvraft `applier` on a command message
(kvraft/server.go 244-283). The answer is `none` when the type assertion
`msg.Command.(Op)` panics. An iteration whose send blocks does not reach the
snapshot trigger. -/
def KVServer.applierCommand (kv : KVServer) (rf : shardkv.Raft) (msg : ApplyMsg) :
    Option Applied :=
  if msg.CommandIndex ≤ kv.lastApplied then
    some { kv := kv, commandReply := none, snapshot := none, blocked := false }
  else
    match msg.Command with
    | none => none
    | some command =>
      let r := KVServer.applyOp { kv with lastApplied := msg.CommandIndex } command
      let s := r.1.deliver rf msg r.2
      if s.2 = true then
        some { kv := s.1, commandReply := some r.2, snapshot := none, blocked := true }
      else
        let t := s.1.trigger rf
        some { kv := t.1, commandReply := some r.2, snapshot := t.2, blocked := false }

/-- The apply logic of the kvraft loop over a sequence of Ops: the state at
the end and the replies in order. -/
def KVServer.applyOps : KVServer → List Op → KVServer × List CommandReply
  | kv, [] => (kv, [])
  | kv, command :: rest =>
    ((KVServer.applyOps (kv.applyOp command).1 rest).1,
     (kv.applyOp command).2 :: (KVServer.applyOps (kv.applyOp command).1 rest).2)

end kvraft

namespace shardkv

/-- The kvraft `Op` a shardkv `Op` is without its shard. -/
def Op.unsharded (command : Op) : kvraft.Op :=
  { Key := command.Key, Value := command.Value, Type_ := command.Type_
    ClientId := command.ClientId, CommandId := command.CommandId }

/-- The kvraft server that corresponds to one shard: its key/value map is the
db of the shard, empty when the shard is not held, and its duplicate table is
the server's. -/
def ShardKV.unsharded (kv : ShardKV) (shard : Int) : kvraft.KVServer :=
  { me := kv.me
    maxraftstate := kv.maxraftstate
    stateMachine := { KVData := (kv.db shard).getD ∅ }
    waitChMap := kv.waitChMap
    cacheMap := kv.cacheMap
    lastApplied := kv.lastApplied
    lastSnapshot := kv.lastSnapshot }

/-! ## Frame lemmas -/

section frame

variable (kv : ShardKV) (rf : Raft) (msg : ApplyMsg) (command : Op)

theorem hasCache_iff (clientId commandId : Int) :
    kv.hasCache clientId commandId = true ↔
      ∃ item, kv.cacheMap.lookup clientId = some item ∧ commandId ≤ item := by
  unfold ShardKV.hasCache
  cases h : kv.cacheMap.lookup clientId <;> simp

theorem applyToStateMachine_cacheMap :
    (kv.applyToStateMachine command).1.cacheMap = kv.cacheMap := by
  unfold ShardKV.applyToStateMachine
  split_ifs <;> rfl

theorem applyToStateMachine_congr (kv2 : ShardKV) (hs : kv2.stateMachine = kv.stateMachine) :
    (kv2.applyToStateMachine command).2 = (kv.applyToStateMachine command).2 ∧
    (kv2.applyToStateMachine command).1.stateMachine =
      (kv.applyToStateMachine command).1.stateMachine := by
  unfold ShardKV.applyToStateMachine
  rw [hs]
  split_ifs <;> simp [hs]

theorem applyToStateMachine_rest :
    (kv.applyToStateMachine command).1.config = kv.config ∧
    (kv.applyToStateMachine command).1.gid = kv.gid ∧
    (kv.applyToStateMachine command).1.me = kv.me ∧
    (kv.applyToStateMachine command).1.maxraftstate = kv.maxraftstate ∧
    (kv.applyToStateMachine command).1.waitChMap = kv.waitChMap ∧
    (kv.applyToStateMachine command).1.pullGid = kv.pullGid ∧
    (kv.applyToStateMachine command).1.pullGroups = kv.pullGroups ∧
    (kv.applyToStateMachine command).1.lastApplied = kv.lastApplied ∧
    (kv.applyToStateMachine command).1.lastSnapshot = kv.lastSnapshot := by
  unfold ShardKV.applyToStateMachine
  split_ifs <;> simp

/-- The reply of `applyOp` and the state machine and duplicate table it leaves
depend on the state machine and the duplicate table only. -/
theorem applyOp_congr (kv2 : ShardKV) (hs : kv2.stateMachine = kv.stateMachine)
    (hc : kv2.cacheMap = kv.cacheMap) :
    (kv2.applyOp command).2 = (kv.applyOp command).2 ∧
    (kv2.applyOp command).1.stateMachine = (kv.applyOp command).1.stateMachine ∧
    (kv2.applyOp command).1.cacheMap = (kv.applyOp command).1.cacheMap := by
  obtain ⟨h1, h2⟩ := applyToStateMachine_congr kv command kv2 hs
  have h3 := applyToStateMachine_cacheMap kv command
  have h4 := applyToStateMachine_cacheMap kv2 command
  unfold ShardKV.applyOp ShardKV.hasCache
  simp only [hc, h1]
  split_ifs <;> simp [hs, hc, h1, h2, h3, h4]

/-- Apart from the state machine and the duplicate table, `applyOp` changes
no field. -/
theorem applyOp_rest :
    (kv.applyOp command).1.config = kv.config ∧
    (kv.applyOp command).1.gid = kv.gid ∧
    (kv.applyOp command).1.me = kv.me ∧
    (kv.applyOp command).1.maxraftstate = kv.maxraftstate ∧
    (kv.applyOp command).1.waitChMap = kv.waitChMap ∧
    (kv.applyOp command).1.pullGid = kv.pullGid ∧
    (kv.applyOp command).1.pullGroups = kv.pullGroups ∧
    (kv.applyOp command).1.lastApplied = kv.lastApplied ∧
    (kv.applyOp command).1.lastSnapshot = kv.lastSnapshot := by
  have h := applyToStateMachine_rest kv command
  unfold ShardKV.applyOp
  dsimp only
  split_ifs
  · simp
  · exact h
  · exact h

theorem deliver_stateMachine (commandReply : CommandReply) :
    (kv.deliver rf msg commandReply).1.stateMachine = kv.stateMachine := by
  unfold ShardKV.deliver ShardKV.getWaitCh
  cases kv.waitChMap.lookup msg.CommandIndex <;> dsimp only <;> split_ifs <;> rfl

theorem deliver_cacheMap (commandReply : CommandReply) :
    (kv.deliver rf msg commandReply).1.cacheMap = kv.cacheMap := by
  unfold ShardKV.deliver ShardKV.getWaitCh
  cases kv.waitChMap.lookup msg.CommandIndex <;> dsimp only <;> split_ifs <;> rfl

theorem deliver_config (commandReply : CommandReply) :
    (kv.deliver rf msg commandReply).1.config = kv.config := by
  unfold ShardKV.deliver ShardKV.getWaitCh
  cases kv.waitChMap.lookup msg.CommandIndex <;> dsimp only <;> split_ifs <;> rfl

theorem trigger_stateMachine : (kv.trigger rf).1.stateMachine = kv.stateMachine := by
  unfold ShardKV.trigger ShardKV.sendSnapshot
  split_ifs <;> rfl

theorem trigger_cacheMap : (kv.trigger rf).1.cacheMap = kv.cacheMap := by
  unfold ShardKV.trigger ShardKV.sendSnapshot
  split_ifs <;> rfl

theorem trigger_config : (kv.trigger rf).1.config = kv.config := by
  unfold ShardKV.trigger ShardKV.sendSnapshot
  split_ifs <;> rfl

/-- An applied command message: what the iteration leaves is the dispatch,
passed through the snapshot trigger unless the send of the reply blocks. -/
theorem applierCommand_fresh (hidx : kv.lastApplied < msg.CommandIndex) :
    kv.applierCommand rf msg =
      if (ShardKV.dispatch { kv with lastApplied := msg.CommandIndex } rf msg).2.2 = true then
        { kv := (ShardKV.dispatch { kv with lastApplied := msg.CommandIndex } rf msg).1
          commandReply := (ShardKV.dispatch { kv with lastApplied := msg.CommandIndex } rf msg).2.1
          snapshot := none
          blocked := true }
      else
        { kv := ((ShardKV.dispatch { kv with lastApplied := msg.CommandIndex } rf msg).1.trigger
            rf).1
          commandReply := (ShardKV.dispatch { kv with lastApplied := msg.CommandIndex } rf msg).2.1
          snapshot := ((ShardKV.dispatch { kv with lastApplied := msg.CommandIndex } rf
            msg).1.trigger rf).2
          blocked := false } := by
  unfold ShardKV.applierCommand
  rw [if_neg (not_le.mpr hidx)]

/-- The dispatch of a client `Op`. -/
theorem dispatch_op (hmsg : msg.Command = .op command) :
    kv.dispatch rf msg =
      (((kv.applyOp command).1.deliver rf msg (kv.applyOp command).2).1,
       some (kv.applyOp command).2,
       ((kv.applyOp command).1.deliver rf msg (kv.applyOp command).2).2) := by
  unfold ShardKV.dispatch
  rw [hmsg]

/-- The dispatch of a `ShardOp`, which sends no reply. -/
theorem dispatch_shardOp (sop : ShardOp) (hmsg : msg.Command = .shardOp sop) :
    kv.dispatch rf msg = (kv.applyShardOp sop, none, false) := by
  unfold ShardKV.dispatch
  rw [hmsg]

/-- The dispatch of a command that is neither an `Op` nor a `ShardOp`. -/
theorem dispatch_other (hmsg : msg.Command = .other) :
    kv.dispatch rf msg = (kv, none, false) := by
  unfold ShardKV.dispatch
  rw [hmsg]

/-- An applied command message carrying a client `Op`: the reply is that of
`applyOp`, and so are the state machine and the duplicate table. -/
theorem applierCommand_op (hmsg : msg.Command = .op command)
    (hidx : kv.lastApplied < msg.CommandIndex) :
    (kv.applierCommand rf msg).commandReply = some (kv.applyOp command).2 ∧
    (kv.applierCommand rf msg).kv.stateMachine = (kv.applyOp command).1.stateMachine ∧
    (kv.applierCommand rf msg).kv.cacheMap = (kv.applyOp command).1.cacheMap ∧
    (kv.applierCommand rf msg).kv.config = kv.config := by
  have hc := applyOp_congr kv command { kv with lastApplied := msg.CommandIndex } rfl rfl
  have hr := applyOp_rest { kv with lastApplied := msg.CommandIndex } command
  rw [applierCommand_fresh kv rf msg hidx, dispatch_op _ rf msg command hmsg]
  split_ifs <;>
  · simp only [trigger_stateMachine, trigger_cacheMap, trigger_config,
      deliver_stateMachine, deliver_cacheMap, deliver_config]
    exact ⟨by rw [hc.1], hc.2.1, hc.2.2, hr.1⟩

/-- An applied command message carrying a `ShardOp`: no reply is computed, and
the state machine, duplicate table and config are those of `applyShardOp`. -/
theorem applierCommand_shardOp (sop : ShardOp) (hmsg : msg.Command = .shardOp sop)
    (hidx : kv.lastApplied < msg.CommandIndex) :
    (kv.applierCommand rf msg).commandReply = none ∧
    (kv.applierCommand rf msg).kv.stateMachine = (kv.applyShardOp sop).stateMachine ∧
    (kv.applierCommand rf msg).kv.cacheMap = (kv.applyShardOp sop).cacheMap ∧
    (kv.applierCommand rf msg).kv.config = (kv.applyShardOp sop).config := by
  rw [applierCommand_fresh kv rf msg hidx, dispatch_shardOp _ rf msg sop hmsg]
  simp only [Bool.false_eq_true, if_false, trigger_stateMachine, trigger_cacheMap,
    trigger_config]
  unfold ShardKV.applyShardOp ShardKV.updateShardState ShardKV.updateShardDBAndCacheMap
  split_ifs <;> simp

end frame

/-! ## The state machine, case by case -/

section cases

variable (stateMachine : KVStateMachine) (shard : Int) (key value : String)

theorem allocate_held (shardData : ShardData)
    (h : stateMachine.KVData.lookup shard = some shardData) :
    stateMachine.allocate shard = (stateMachine, shardData) := by
  unfold KVStateMachine.allocate
  rw [h]

theorem allocate_absent (h : stateMachine.KVData.lookup shard = none) :
    stateMachine.allocate shard =
      ({ KVData := stateMachine.KVData.insert shard { State := READY, DB := ∅ } },
       { State := READY, DB := ∅ }) := by
  unfold KVStateMachine.allocate
  rw [h]

theorem get_absent (h : stateMachine.KVData.lookup shard = none) :
    stateMachine.get shard key = (ErrNoKey, "") := by
  unfold KVStateMachine.get
  rw [h]

theorem get_waiting (shardData : ShardData)
    (h : stateMachine.KVData.lookup shard = some shardData) (hw : shardData.State = WAITING) :
    stateMachine.get shard key = (ErrNotReady, "") := by
  unfold KVStateMachine.get
  rw [h]
  simp [hw]

theorem get_serving (shardData : ShardData)
    (h : stateMachine.KVData.lookup shard = some shardData) (hw : shardData.State ≠ WAITING) :
    stateMachine.get shard key =
      match shardData.DB.lookup key with
      | some value => (OK, value)
      | none => (ErrNoKey, "") := by
  unfold KVStateMachine.get
  rw [h]
  simp [hw]

theorem put_waiting (shardData : ShardData)
    (h : stateMachine.KVData.lookup shard = some shardData) (hw : shardData.State = WAITING) :
    stateMachine.put shard key value = (stateMachine, ErrNotReady) := by
  unfold KVStateMachine.put
  rw [allocate_held stateMachine shard shardData h]
  simp [hw]

theorem put_serving (shardData : ShardData)
    (h : stateMachine.KVData.lookup shard = some shardData) (hw : shardData.State ≠ WAITING) :
    stateMachine.put shard key value =
      ({ KVData := stateMachine.KVData.insert shard
          { shardData with DB := shardData.DB.insert key value } }, OK) := by
  unfold KVStateMachine.put
  rw [allocate_held stateMachine shard shardData h]
  simp [hw]

theorem put_absent (h : stateMachine.KVData.lookup shard = none) :
    stateMachine.put shard key value =
      ({ KVData := stateMachine.KVData.insert shard
          { State := READY, DB := (∅ : GoMap String String).insert key value } }, OK) := by
  have hrw : ¬ (READY = WAITING) := by decide
  unfold KVStateMachine.put
  rw [allocate_absent stateMachine shard h]
  simp [hrw]

theorem append_waiting (shardData : ShardData)
    (h : stateMachine.KVData.lookup shard = some shardData) (hw : shardData.State = WAITING) :
    stateMachine.append shard key value = (stateMachine, ErrNotReady) := by
  unfold KVStateMachine.append
  rw [allocate_held stateMachine shard shardData h]
  simp [hw]

theorem append_serving (shardData : ShardData)
    (h : stateMachine.KVData.lookup shard = some shardData) (hw : shardData.State ≠ WAITING) :
    stateMachine.append shard key value =
      ({ KVData := stateMachine.KVData.insert shard
          { shardData with
            DB := shardData.DB.insert key ((shardData.DB.lookup key).getD "" ++ value) } },
       OK) := by
  unfold KVStateMachine.append
  rw [allocate_held stateMachine shard shardData h]
  simp [hw]

theorem append_absent (h : stateMachine.KVData.lookup shard = none) :
    stateMachine.append shard key value =
      ({ KVData := stateMachine.KVData.insert shard
          { State := READY, DB := (∅ : GoMap String String).insert key value } }, OK) := by
  have hrw : ¬ (READY = WAITING) := by decide
  unfold KVStateMachine.append
  rw [allocate_absent stateMachine shard h]
  simp [hrw]

end cases

section applyOpCases

variable (kv : ShardKV) (command : Op)

theorem applyToStateMachine_get (h : command.Type_ = GET) :
    kv.applyToStateMachine command =
      (kv, { Err := (kv.stateMachine.get command.Shard command.Key).1
             Value := (kv.stateMachine.get command.Shard command.Key).2 }) := by
  unfold ShardKV.applyToStateMachine
  simp [h]

theorem applyToStateMachine_put (h : command.Type_ = PUT) :
    kv.applyToStateMachine command =
      ({ kv with stateMachine :=
          (kv.stateMachine.put command.Shard command.Key command.Value).1 },
       { Err := (kv.stateMachine.put command.Shard command.Key command.Value).2, Value := "" }) := by
  have hne : ¬ (PUT = GET) := by decide
  unfold ShardKV.applyToStateMachine
  simp [h, hne]

theorem applyToStateMachine_append (h : command.Type_ = APPEND) :
    kv.applyToStateMachine command =
      ({ kv with stateMachine :=
          (kv.stateMachine.append command.Shard command.Key command.Value).1 },
       { Err := (kv.stateMachine.append command.Shard command.Key command.Value).2
         Value := "" }) := by
  have hne : ¬ (APPEND = GET) := by decide
  have hne2 : ¬ (APPEND = PUT) := by decide
  unfold ShardKV.applyToStateMachine
  simp [h, hne, hne2]

/-- A cached duplicate write is answered `OK` from the duplicate table. -/
theorem applyOp_duplicate (hne : command.Type_ ≠ GET)
    (hdup : kv.hasCache command.ClientId command.CommandId = true) :
    kv.applyOp command = (kv, { Err := OK, Value := "" }) := by
  unfold ShardKV.applyOp
  rw [if_pos ⟨hne, hdup⟩]

/-- A `Get` goes to the state machine and is not recorded. -/
theorem applyOp_get (h : command.Type_ = GET) :
    kv.applyOp command = kv.applyToStateMachine command := by
  unfold ShardKV.applyOp
  simp [h]

/-- A write that is not a cached duplicate goes to the state machine and is
recorded when the state machine answers `OK`. -/
theorem applyOp_fresh (hne : command.Type_ ≠ GET)
    (hdup : kv.hasCache command.ClientId command.CommandId = false) :
    kv.applyOp command =
      if (kv.applyToStateMachine command).2.Err = OK then
        ({ (kv.applyToStateMachine command).1 with
            cacheMap := (kv.applyToStateMachine command).1.cacheMap.insert
              command.ClientId command.CommandId },
         (kv.applyToStateMachine command).2)
      else kv.applyToStateMachine command := by
  unfold ShardKV.applyOp
  simp [hne, hdup]

end applyOpCases

section writes

variable (kv : ShardKV) (command : Op)

theorem read_eq (shard : Int) (key : String) :
    kv.read shard key = ((kv.db shard).getD ∅).lookup key := by
  unfold ShardKV.read ShardKV.db
  cases kv.stateMachine.KVData.lookup shard <;> simp

/-- A shard that is `Ready` or not held: the state machine sees it as a
`Ready` shard with db `(kv.db shard).getD ∅`. -/
theorem serving_cases (shard : Int)
    (hstate : kv.shardState shard = none ∨ kv.shardState shard = some READY) :
    kv.stateMachine.KVData.lookup shard = none ∧ (kv.db shard).getD ∅ = ∅ ∨
    ∃ shardData, kv.stateMachine.KVData.lookup shard = some shardData ∧
      shardData.State = READY ∧ (kv.db shard).getD ∅ = shardData.DB := by
  unfold ShardKV.shardState ShardKV.db at *
  cases h : kv.stateMachine.KVData.lookup shard with
  | none => exact Or.inl ⟨rfl, rfl⟩
  | some shardData =>
    rw [h] at hstate
    rcases hstate with h2 | h2
    · simp at h2
    · exact Or.inr ⟨shardData, rfl, by simpa using h2, rfl⟩

/-- The state machine's `put` on a shard that is `Ready` or not held. -/
theorem put_on_serving
    (hstate : kv.shardState command.Shard = none ∨ kv.shardState command.Shard = some READY) :
    kv.stateMachine.put command.Shard command.Key command.Value =
      ({ KVData := kv.stateMachine.KVData.insert command.Shard
          { State := READY
            DB := ((kv.db command.Shard).getD ∅).insert command.Key command.Value } }, OK) := by
  have hrw : READY ≠ WAITING := by decide
  rcases serving_cases kv command.Shard hstate with ⟨h, hdb⟩ | ⟨shardData, h, hst, hdb⟩
  · rw [put_absent _ _ _ _ h, hdb]
  · rw [put_serving _ _ _ _ shardData h (by rw [hst]; exact hrw), hdb, ← hst]

/-- The state machine's `append` on a shard that is `Ready` or not held. -/
theorem append_on_serving
    (hstate : kv.shardState command.Shard = none ∨ kv.shardState command.Shard = some READY) :
    kv.stateMachine.append command.Shard command.Key command.Value =
      ({ KVData := kv.stateMachine.KVData.insert command.Shard
          { State := READY
            DB := ((kv.db command.Shard).getD ∅).insert command.Key
              ((kv.read command.Shard command.Key).getD "" ++ command.Value) } }, OK) := by
  have hrw : READY ≠ WAITING := by decide
  rw [read_eq]
  rcases serving_cases kv command.Shard hstate with ⟨h, hdb⟩ | ⟨shardData, h, hst, hdb⟩
  · rw [append_absent _ _ _ _ h, hdb]
    simp
  · rw [append_serving _ _ _ _ shardData h (by rw [hst]; exact hrw), hdb, ← hst]

/-- A Put that is not a cached duplicate, on a shard that is `Ready` or not
held: reply, state machine and duplicate table afterwards. -/
theorem applyOp_put_serving (hput : command.Type_ = PUT)
    (hdup : kv.hasCache command.ClientId command.CommandId = false)
    (hstate : kv.shardState command.Shard = none ∨ kv.shardState command.Shard = some READY) :
    (kv.applyOp command).2 = { Err := OK, Value := "" } ∧
    (kv.applyOp command).1.stateMachine =
      { KVData := kv.stateMachine.KVData.insert command.Shard
          { State := READY
            DB := ((kv.db command.Shard).getD ∅).insert command.Key command.Value } } ∧
    (kv.applyOp command).1.cacheMap =
      kv.cacheMap.insert command.ClientId command.CommandId := by
  have hne : command.Type_ ≠ GET := by rw [hput]; decide
  rw [applyOp_fresh kv command hne hdup, applyToStateMachine_put kv command hput,
    put_on_serving kv command hstate]
  simp

/-- An Append that is not a cached duplicate, on a shard that is `Ready` or
not held: reply, state machine and duplicate table afterwards. -/
theorem applyOp_append_serving (happ : command.Type_ = APPEND)
    (hdup : kv.hasCache command.ClientId command.CommandId = false)
    (hstate : kv.shardState command.Shard = none ∨ kv.shardState command.Shard = some READY) :
    (kv.applyOp command).2 = { Err := OK, Value := "" } ∧
    (kv.applyOp command).1.stateMachine =
      { KVData := kv.stateMachine.KVData.insert command.Shard
          { State := READY
            DB := ((kv.db command.Shard).getD ∅).insert command.Key
              ((kv.read command.Shard command.Key).getD "" ++ command.Value) } } ∧
    (kv.applyOp command).1.cacheMap =
      kv.cacheMap.insert command.ClientId command.CommandId := by
  have hne : command.Type_ ≠ GET := by rw [happ]; decide
  rw [applyOp_fresh kv command hne hdup, applyToStateMachine_append kv command happ,
    append_on_serving kv command hstate]
  simp

end writes

section progress

variable (kv : ShardKV) (rf : Raft) (msg : ApplyMsg)

theorem deliver_lastApplied (commandReply : CommandReply) :
    (kv.deliver rf msg commandReply).1.lastApplied = kv.lastApplied := by
  unfold ShardKV.deliver ShardKV.getWaitCh
  cases kv.waitChMap.lookup msg.CommandIndex <;> dsimp only <;> split_ifs <;> rfl

theorem trigger_lastApplied : (kv.trigger rf).1.lastApplied = kv.lastApplied := by
  unfold ShardKV.trigger ShardKV.sendSnapshot
  split_ifs <;> rfl

theorem applyShardOp_lastApplied (command : ShardOp) :
    (kv.applyShardOp command).lastApplied = kv.lastApplied := by
  unfold ShardKV.applyShardOp ShardKV.updateShardState ShardKV.updateShardDBAndCacheMap
  dsimp only
  split_ifs <;> rfl

/-- A message at or below `lastApplied` is discarded. -/
theorem applierCommand_stale (h : msg.CommandIndex ≤ kv.lastApplied) :
    kv.applierCommand rf msg
      = { kv := kv, commandReply := none, snapshot := none, blocked := false } := by
  unfold ShardKV.applierCommand
  rw [if_pos h]

theorem dispatch_lastApplied : (kv.dispatch rf msg).1.lastApplied = kv.lastApplied := by
  unfold ShardKV.dispatch
  cases msg.Command with
  | op command =>
    dsimp only
    rw [deliver_lastApplied, (applyOp_rest _ command).2.2.2.2.2.2.2.1]
  | shardOp command =>
    dsimp only
    rw [applyShardOp_lastApplied]
  | other => rfl

/-- A message above `lastApplied` moves `lastApplied` to its index. -/
theorem applierCommand_lastApplied (h : kv.lastApplied < msg.CommandIndex) :
    (kv.applierCommand rf msg).kv.lastApplied = msg.CommandIndex := by
  rw [applierCommand_fresh kv rf msg h]
  split_ifs
  · exact dispatch_lastApplied _ rf msg
  · dsimp only
    rw [trigger_lastApplied]
    exact dispatch_lastApplied _ rf msg

end progress

/-! ## The duplicate table only grows -/

section monotone

theorem max_ge_left (a b : Int) : a ≤ max a b := by
  unfold max
  split_ifs <;> omega

/-- Folding delivered entries into the duplicate table keeps every client
that had an entry, with an entry at least as large. -/
theorem mergeCache_entries_ge (entries : List (Sigma fun _ : Int => Int)) :
    ∀ (cacheMap : GoMap Int Int) (clientId item : Int),
      cacheMap.lookup clientId = some item →
      ∃ item2,
        (entries.foldl (fun cm e => cm.insert e.1 (max ((cm.lookup e.1).getD 0) e.2))
          cacheMap).lookup clientId = some item2 ∧ item ≤ item2 := by
  induction entries with
  | nil =>
    intro cacheMap clientId item h
    exact ⟨item, h, le_refl _⟩
  | cons e rest ih =>
    intro cacheMap clientId item h
    rw [List.foldl_cons]
    by_cases hc : clientId = e.1
    · have hl : (cacheMap.insert e.1 (max ((cacheMap.lookup e.1).getD 0) e.2)).lookup clientId
          = some (max item e.2) := by
        rw [hc] at h ⊢
        rw [AList.lookup_insert, h]
        rfl
      obtain ⟨item2, h2, hle⟩ := ih _ clientId _ hl
      exact ⟨item2, h2, le_trans (max_ge_left item e.2) hle⟩
    · have hl : (cacheMap.insert e.1 (max ((cacheMap.lookup e.1).getD 0) e.2)).lookup clientId
          = some item := by
        rw [AList.lookup_insert_ne hc, h]
      exact ih _ clientId _ hl

theorem mergeCache_ge (cacheMap cache : GoMap Int Int) (clientId item : Int)
    (h : cacheMap.lookup clientId = some item) :
    ∃ item2, (mergeCache cacheMap cache).lookup clientId = some item2 ∧ item ≤ item2 :=
  mergeCache_entries_ge cache.entries cacheMap clientId item h

variable (kv : ShardKV)

theorem applyOp_keeps_cache (command : Op) (clientId commandId : Int)
    (h : kv.hasCache clientId commandId = true) :
    (kv.applyOp command).1.hasCache clientId commandId = true := by
  rw [hasCache_iff] at h ⊢
  obtain ⟨item, hitem, hle⟩ := h
  have hcm := applyToStateMachine_cacheMap kv command
  by_cases hdup : command.Type_ ≠ GET ∧ kv.hasCache command.ClientId command.CommandId = true
  · rw [applyOp_duplicate kv command hdup.1 hdup.2]
    exact ⟨item, hitem, hle⟩
  · by_cases hget : command.Type_ = GET
    · rw [applyOp_get kv command hget, hcm]
      exact ⟨item, hitem, hle⟩
    · have hfalse : kv.hasCache command.ClientId command.CommandId = false := by
        cases hc : kv.hasCache command.ClientId command.CommandId
        · rfl
        · exact absurd ⟨hget, hc⟩ hdup
      rw [applyOp_fresh kv command hget hfalse]
      split_ifs
      · show ∃ item2, AList.lookup clientId (AList.insert command.ClientId command.CommandId
            (kv.applyToStateMachine command).1.cacheMap) = some item2 ∧ commandId ≤ item2
        by_cases hc : clientId = command.ClientId
        · refine ⟨command.CommandId, by rw [hc, AList.lookup_insert], ?_⟩
          have hlt : ¬ (command.CommandId ≤ item) := by
            intro hle2
            have : kv.hasCache command.ClientId command.CommandId = true :=
              (hasCache_iff kv _ _).mpr ⟨item, hc ▸ hitem, hle2⟩
            rw [hfalse] at this
            exact Bool.noConfusion this
          omega
        · rw [AList.lookup_insert_ne hc, hcm]
          exact ⟨item, hitem, hle⟩
      · rw [hcm]
        exact ⟨item, hitem, hle⟩

theorem applyShardOp_keeps_cache (command : ShardOp) (clientId commandId : Int)
    (h : kv.hasCache clientId commandId = true) :
    (kv.applyShardOp command).hasCache clientId commandId = true := by
  rw [hasCache_iff] at h ⊢
  obtain ⟨item, hitem, hle⟩ := h
  unfold ShardKV.applyShardOp ShardKV.updateShardState ShardKV.updateShardDBAndCacheMap
  dsimp only
  split_ifs
  · exact ⟨item, hitem, hle⟩
  · exact ⟨item, hitem, hle⟩
  · exact ⟨item, hitem, hle⟩
  · obtain ⟨item2, h2, hle2⟩ := mergeCache_ge kv.cacheMap command.CacheMap clientId item hitem
    exact ⟨item2, h2, le_trans hle hle2⟩
  · exact ⟨item, hitem, hle⟩

/-- Once `hasCache clientId commandId` holds it holds after every further
command message, applied or discarded. -/
theorem applierCommand_keeps_cache (rf : Raft) (msg : ApplyMsg) (clientId commandId : Int)
    (h : kv.hasCache clientId commandId = true) :
    (kv.applierCommand rf msg).kv.hasCache clientId commandId = true := by
  by_cases hidx : msg.CommandIndex ≤ kv.lastApplied
  · rw [applierCommand_stale kv rf msg hidx]
    exact h
  · have hlt : kv.lastApplied < msg.CommandIndex := not_le.mp hidx
    cases hcmd : msg.Command with
    | op command =>
      have hc := (applierCommand_op kv rf msg command hcmd hlt).2.2.1
      have h2 := applyOp_keeps_cache kv command clientId commandId h
      unfold ShardKV.hasCache at h2 ⊢
      rw [hc]
      exact h2
    | shardOp command =>
      have hc := (applierCommand_shardOp kv rf msg command hcmd hlt).2.2.1
      have h2 := applyShardOp_keeps_cache kv command clientId commandId h
      unfold ShardKV.hasCache at h2 ⊢
      rw [hc]
      exact h2
    | other =>
      have hc : (kv.applierCommand rf msg).kv.cacheMap = kv.cacheMap := by
        rw [applierCommand_fresh kv rf msg hlt, dispatch_other _ rf msg hcmd]
        simp only [Bool.false_eq_true, if_false, trigger_cacheMap]
      unfold ShardKV.hasCache at h ⊢
      rw [hc]
      exact h

theorem applierRun_keeps_cache (msgs : List (Raft × ApplyMsg)) :
    ∀ (kv : ShardKV) (clientId commandId : Int),
      kv.hasCache clientId commandId = true →
      (kv.applierRun msgs).hasCache clientId commandId = true := by
  induction msgs with
  | nil =>
    intro kv clientId commandId h
    exact h
  | cons m rest ih =>
    intro kv clientId commandId h
    have hstep := applierCommand_keeps_cache kv m.1 m.2 clientId commandId h
    unfold ShardKV.applierRun
    split_ifs
    · exact hstep
    · exact ih _ clientId commandId hstep

end monotone

section retries

variable (kv : ShardKV) (command : Op)

/-- A write answered `OK` by `applyOp` is in the duplicate table afterwards. -/
theorem applyOp_ok_caches (hne : command.Type_ ≠ GET) (hok : (kv.applyOp command).2.Err = OK) :
    (kv.applyOp command).1.hasCache command.ClientId command.CommandId = true := by
  cases hdup : kv.hasCache command.ClientId command.CommandId with
  | true =>
    rw [applyOp_duplicate kv command hne hdup]
    exact hdup
  | false =>
    rw [applyOp_fresh kv command hne hdup] at hok ⊢
    split_ifs at hok ⊢ with h
    · rw [hasCache_iff]
      exact ⟨command.CommandId, AList.lookup_insert _, le_refl _⟩
    · exact absurd hok h

/-- An Op whose ids are in the duplicate table leaves the state machine as it
was, whatever its type; a write is answered `OK`. -/
theorem applyOp_cached (hdup : kv.hasCache command.ClientId command.CommandId = true) :
    (kv.applyOp command).1.stateMachine = kv.stateMachine ∧
    (command.Type_ ≠ GET → (kv.applyOp command).2 = { Err := OK, Value := "" }) := by
  refine ⟨?_, fun hne => by rw [applyOp_duplicate kv command hne hdup]⟩
  by_cases hget : command.Type_ = GET
  · rw [applyOp_get kv command hget, applyToStateMachine_get kv command hget]
  · rw [applyOp_duplicate kv command hget hdup]

end retries

section errors

variable (kv : ShardKV) (command : Op)

theorem get_err (stateMachine : KVStateMachine) (shard : Int) (key : String) :
    (stateMachine.get shard key).1 = OK ∨ (stateMachine.get shard key).1 = ErrNoKey ∨
      (stateMachine.get shard key).1 = ErrNotReady := by
  unfold KVStateMachine.get
  cases stateMachine.KVData.lookup shard with
  | none => exact Or.inr (Or.inl rfl)
  | some shardData =>
    dsimp only
    split_ifs
    · exact Or.inr (Or.inr rfl)
    · cases shardData.DB.lookup key with
      | none => exact Or.inr (Or.inl rfl)
      | some value => exact Or.inl rfl

theorem put_err (stateMachine : KVStateMachine) (shard : Int) (key value : String) :
    (stateMachine.put shard key value).2 = OK ∨
      (stateMachine.put shard key value).2 = ErrNotReady := by
  unfold KVStateMachine.put
  dsimp only
  split_ifs
  · exact Or.inr rfl
  · exact Or.inl rfl

theorem append_err (stateMachine : KVStateMachine) (shard : Int) (key value : String) :
    (stateMachine.append shard key value).2 = OK ∨
      (stateMachine.append shard key value).2 = ErrNotReady := by
  unfold KVStateMachine.append
  dsimp only
  split_ifs
  · exact Or.inr rfl
  · exact Or.inl rfl

/-- The only errors the apply loop computes for a client Op: `OK`, `ErrNoKey`,
`ErrNotReady`, and the zero value for an Op of unknown type. -/
theorem applyOp_err :
    (kv.applyOp command).2.Err = OK ∨ (kv.applyOp command).2.Err = ErrNoKey ∨
      (kv.applyOp command).2.Err = ErrNotReady ∨ (kv.applyOp command).2.Err = "" := by
  have hts : (kv.applyToStateMachine command).2.Err = OK ∨
      (kv.applyToStateMachine command).2.Err = ErrNoKey ∨
      (kv.applyToStateMachine command).2.Err = ErrNotReady ∨
      (kv.applyToStateMachine command).2.Err = "" := by
    unfold ShardKV.applyToStateMachine
    split_ifs
    · rcases get_err kv.stateMachine command.Shard command.Key with h | h | h
      · exact Or.inl h
      · exact Or.inr (Or.inl h)
      · exact Or.inr (Or.inr (Or.inl h))
    · rcases put_err kv.stateMachine command.Shard command.Key command.Value with h | h
      · exact Or.inl h
      · exact Or.inr (Or.inr (Or.inl h))
    · rcases append_err kv.stateMachine command.Shard command.Key command.Value with h | h
      · exact Or.inl h
      · exact Or.inr (Or.inr (Or.inl h))
    · exact Or.inr (Or.inr (Or.inr rfl))
  unfold ShardKV.applyOp
  dsimp only
  split_ifs
  · exact Or.inl rfl
  · exact hts
  · exact hts

/-- For a Get, Put or Append the apply loop computes `OK`, `ErrNoKey` or
`ErrNotReady`. -/
theorem applyOp_err_typed
    (htype : command.Type_ = GET ∨ command.Type_ = PUT ∨ command.Type_ = APPEND) :
    (kv.applyOp command).2.Err = OK ∨ (kv.applyOp command).2.Err = ErrNoKey ∨
      (kv.applyOp command).2.Err = ErrNotReady := by
  have hts : (kv.applyToStateMachine command).2.Err = OK ∨
      (kv.applyToStateMachine command).2.Err = ErrNoKey ∨
      (kv.applyToStateMachine command).2.Err = ErrNotReady := by
    rcases htype with h | h | h
    · rw [applyToStateMachine_get kv command h]
      exact get_err kv.stateMachine command.Shard command.Key
    · rw [applyToStateMachine_put kv command h]
      rcases put_err kv.stateMachine command.Shard command.Key command.Value with h2 | h2
      · exact Or.inl h2
      · exact Or.inr (Or.inr h2)
    · rw [applyToStateMachine_append kv command h]
      rcases append_err kv.stateMachine command.Shard command.Key command.Value with h2 | h2
      · exact Or.inl h2
      · exact Or.inr (Or.inr h2)
  unfold ShardKV.applyOp
  dsimp only
  split_ifs
  · exact Or.inl rfl
  · exact hts
  · exact hts

end errors

/-! ## Properties of the apply loop -/

/-- C1: a Put or Append Op whose client has a duplicate-table entry at or above
the Op's CommandId is answered `OK` by the apply loop, and the state machine
(every shard's state and db) and the duplicate table are left as they were. -/
theorem duplicate_write_is_noop (kv : ShardKV) (rf : Raft) (msg : ApplyMsg) (command : Op)
    (item : Int) (hmsg : msg.Command = .op command) (hidx : kv.lastApplied < msg.CommandIndex)
    (htype : command.Type_ = PUT ∨ command.Type_ = APPEND)
    (hitem : kv.cacheMap.lookup command.ClientId = some item)
    (hge : item ≥ command.CommandId) :
    (kv.applierCommand rf msg).commandReply = some { Err := OK, Value := "" } ∧
    (kv.applierCommand rf msg).kv.stateMachine = kv.stateMachine ∧
    (kv.applierCommand rf msg).kv.cacheMap = kv.cacheMap := by
  have hne : command.Type_ ≠ GET := by
    rcases htype with h | h <;> rw [h] <;> decide
  have hdup : kv.hasCache command.ClientId command.CommandId = true :=
    (hasCache_iff kv _ _).mpr ⟨item, hitem, hge⟩
  obtain ⟨h1, h2, h3, _⟩ := applierCommand_op kv rf msg command hmsg hidx
  rw [applyOp_duplicate kv command hne hdup] at h1 h2 h3
  exact ⟨h1, h2, h3⟩

theorem duplicate_write_is_noop_witness :
    (sampleKV.cacheMap.lookup 1 = some 7 ∧ (7 : Int) ≥ (sampleAppend 1 7).CommandId) ∧
    (sampleKV.applierCommand sampleRaft (ApplyMsg.ofOp 1 1 (sampleAppend 1 7))).commandReply
      = some { Err := OK, Value := "" } ∧
    (sampleKV.applierCommand sampleRaft (ApplyMsg.ofOp 1 1 (sampleAppend 1 7))).kv.stateMachine
      = sampleKV.stateMachine ∧
    (sampleKV.applierCommand sampleRaft (ApplyMsg.ofOp 1 1 (sampleAppend 1 7))).kv.cacheMap
      = sampleKV.cacheMap :=
  ⟨⟨by decide, by decide⟩,
   duplicate_write_is_noop sampleKV sampleRaft (ApplyMsg.ofOp 1 1 (sampleAppend 1 7))
    (sampleAppend 1 7) 7 rfl (by decide) (Or.inr rfl) (by decide) (by decide)⟩

/-- C3: when shard `s` is held in state Waiting, applying a Get, Put or Append
Op addressed to `s` leaves the whole state machine (so the shard's db) as it
was and replies with an empty Value; and unless the Op is a cached duplicate
write, the reply is `ErrNotReady` and the duplicate table is unchanged. -/
theorem waiting_shard_is_untouched (kv : ShardKV) (rf : Raft) (msg : ApplyMsg) (command : Op)
    (shardData : ShardData) (hmsg : msg.Command = .op command)
    (hidx : kv.lastApplied < msg.CommandIndex)
    (htype : command.Type_ = GET ∨ command.Type_ = PUT ∨ command.Type_ = APPEND)
    (hheld : kv.stateMachine.KVData.lookup command.Shard = some shardData)
    (hw : shardData.State = WAITING) :
    (kv.applierCommand rf msg).kv.stateMachine = kv.stateMachine ∧
    (kv.applierCommand rf msg).kv.db command.Shard = some shardData.DB ∧
    ∃ reply, (kv.applierCommand rf msg).commandReply = some reply ∧ reply.Value = "" ∧
      (¬ (command.Type_ ≠ GET ∧ kv.hasCache command.ClientId command.CommandId = true) →
        reply.Err = ErrNotReady ∧ (kv.applierCommand rf msg).kv.cacheMap = kv.cacheMap) := by
  obtain ⟨h1, h2, h3, _⟩ := applierCommand_op kv rf msg command hmsg hidx
  have hnr : ¬ (ErrNotReady = OK) := by decide
  have key : (kv.applyOp command).1.stateMachine = kv.stateMachine ∧
      (kv.applyOp command).2.Value = "" ∧
      (¬ (command.Type_ ≠ GET ∧ kv.hasCache command.ClientId command.CommandId = true) →
        (kv.applyOp command).2.Err = ErrNotReady ∧ (kv.applyOp command).1.cacheMap = kv.cacheMap) := by
    by_cases hdup : command.Type_ ≠ GET ∧ kv.hasCache command.ClientId command.CommandId = true
    · rw [applyOp_duplicate kv command hdup.1 hdup.2]
      exact ⟨rfl, rfl, fun h => absurd hdup h⟩
    · by_cases hget : command.Type_ = GET
      · rw [applyOp_get kv command hget, applyToStateMachine_get kv command hget,
          get_waiting _ _ _ shardData hheld hw]
        exact ⟨rfl, rfl, fun _ => ⟨rfl, rfl⟩⟩
      · have hfalse : kv.hasCache command.ClientId command.CommandId = false := by
          cases hc : kv.hasCache command.ClientId command.CommandId
          · rfl
          · exact absurd ⟨hget, hc⟩ hdup
        rw [applyOp_fresh kv command hget hfalse]
        rcases htype with h | h | h
        · exact absurd h hget
        · rw [applyToStateMachine_put kv command h, put_waiting _ _ _ _ shardData hheld hw]
          simp [hnr]
        · rw [applyToStateMachine_append kv command h, append_waiting _ _ _ _ shardData hheld hw]
          simp [hnr]
  refine ⟨h2.trans key.1, ?_, (kv.applyOp command).2, h1, key.2.1, fun hnd => ?_⟩
  · unfold ShardKV.db
    rw [h2.trans key.1, hheld]
    rfl
  · exact ⟨(key.2.2 hnd).1, h3.trans (key.2.2 hnd).2⟩

theorem waiting_shard_is_untouched_witness :
    (sampleKV.applierCommand sampleRaft
      (ApplyMsg.ofOp 1 1 { sampleAppend 2 1 with Shard := 4 })).kv.stateMachine
      = sampleKV.stateMachine ∧
    (sampleKV.applierCommand sampleRaft
      (ApplyMsg.ofOp 1 1 { sampleAppend 2 1 with Shard := 4 })).kv.db 4 = some ∅ ∧
    ∃ reply, (sampleKV.applierCommand sampleRaft
        (ApplyMsg.ofOp 1 1 { sampleAppend 2 1 with Shard := 4 })).commandReply = some reply ∧
      reply.Value = "" ∧
      (¬ (APPEND ≠ GET ∧ sampleKV.hasCache 2 1 = true) →
        reply.Err = ErrNotReady ∧
        (sampleKV.applierCommand sampleRaft
          (ApplyMsg.ofOp 1 1 { sampleAppend 2 1 with Shard := 4 })).kv.cacheMap
          = sampleKV.cacheMap) :=
  waiting_shard_is_untouched sampleKV sampleRaft
    (ApplyMsg.ofOp 1 1 { sampleAppend 2 1 with Shard := 4 }) { sampleAppend 2 1 with Shard := 4 }
    { State := WAITING, DB := ∅ } rfl (by decide) (Or.inr (Or.inr rfl)) (by decide) rfl

/-- C4: when the apply loop applies a Put or Append Op that is not a cached
duplicate, then if the state machine answers `OK` the duplicate table
afterwards binds the Op's ClientId to its CommandId and every other client's
entry is as before, and if the state machine answers anything else the
duplicate table is unchanged; applying a Get never changes the duplicate
table. -/
theorem duplicate_table_records_ok_writes (kv : ShardKV) (rf : Raft) (msg : ApplyMsg)
    (command : Op) (hmsg : msg.Command = .op command)
    (hidx : kv.lastApplied < msg.CommandIndex) :
    (command.Type_ = PUT ∨ command.Type_ = APPEND →
      kv.hasCache command.ClientId command.CommandId = false →
      ((kv.applyToStateMachine command).2.Err = OK →
        (kv.applierCommand rf msg).kv.cacheMap.lookup command.ClientId
          = some command.CommandId ∧
        ∀ clientId, clientId ≠ command.ClientId →
          (kv.applierCommand rf msg).kv.cacheMap.lookup clientId
            = kv.cacheMap.lookup clientId) ∧
      ((kv.applyToStateMachine command).2.Err ≠ OK →
        (kv.applierCommand rf msg).kv.cacheMap = kv.cacheMap)) ∧
    (command.Type_ = GET → (kv.applierCommand rf msg).kv.cacheMap = kv.cacheMap) := by
  obtain ⟨_, _, h3, _⟩ := applierCommand_op kv rf msg command hmsg hidx
  have hcm := applyToStateMachine_cacheMap kv command
  rw [h3]
  refine ⟨fun htype hdup => ?_, fun hget => ?_⟩
  · have hne : command.Type_ ≠ GET := by
      rcases htype with h | h <;> rw [h] <;> decide
    rw [applyOp_fresh kv command hne hdup]
    refine ⟨fun hok => ?_, fun hnok => ?_⟩
    · rw [if_pos hok]
      refine ⟨?_, fun clientId hc => ?_⟩
      · exact AList.lookup_insert _
      · show AList.lookup clientId (AList.insert _ _ _) = _
        rw [AList.lookup_insert_ne hc, hcm]
    · rw [if_neg hnok, hcm]
  · rw [applyOp_get kv command hget, hcm]

theorem duplicate_table_records_ok_writes_witness :
    (sampleKV.applierCommand sampleRaft (ApplyMsg.ofOp 1 1 (sampleAppend 2 5))).kv.cacheMap.lookup 2
      = some 5 ∧
    (sampleKV.applierCommand sampleRaft (ApplyMsg.ofOp 1 1 (sampleAppend 2 5))).kv.cacheMap.lookup 1
      = some 7 :=
  ⟨(((duplicate_table_records_ok_writes sampleKV sampleRaft
      (ApplyMsg.ofOp 1 1 (sampleAppend 2 5)) (sampleAppend 2 5) rfl (by decide)).1
      (Or.inr rfl) (by decide)).1 (by decide)).1,
   ((((duplicate_table_records_ok_writes sampleKV sampleRaft
      (ApplyMsg.ofOp 1 1 (sampleAppend 2 5)) (sampleAppend 2 5) rfl (by decide)).1
      (Or.inr rfl) (by decide)).1 (by decide)).2 1 (by decide)).trans (by decide)⟩

/-- C5: applying a Get Op for key `k`: on a shard that is held and not Waiting
the reply is `(OK, db[k])` when `k` is bound and `(ErrNoKey, "")` when it is
not; on a shard that is not held the reply is `(ErrNoKey, "")`; and the state
machine is left unchanged in every case, so a Get allocates no shard. -/
theorem get_reads_without_writing (kv : ShardKV) (rf : Raft) (msg : ApplyMsg) (command : Op)
    (hmsg : msg.Command = .op command) (hidx : kv.lastApplied < msg.CommandIndex)
    (hget : command.Type_ = GET) :
    (kv.applierCommand rf msg).kv.stateMachine = kv.stateMachine ∧
    (∀ shardData, kv.stateMachine.KVData.lookup command.Shard = some shardData →
      shardData.State ≠ WAITING →
      (∀ value, shardData.DB.lookup command.Key = some value →
        (kv.applierCommand rf msg).commandReply = some { Err := OK, Value := value }) ∧
      (shardData.DB.lookup command.Key = none →
        (kv.applierCommand rf msg).commandReply = some { Err := ErrNoKey, Value := "" })) ∧
    (kv.stateMachine.KVData.lookup command.Shard = none →
      (kv.applierCommand rf msg).commandReply = some { Err := ErrNoKey, Value := "" }) := by
  obtain ⟨h1, h2, _, _⟩ := applierCommand_op kv rf msg command hmsg hidx
  rw [applyOp_get kv command hget, applyToStateMachine_get kv command hget] at h1 h2
  refine ⟨h2, fun shardData hheld hw => ⟨fun value hv => ?_, fun hv => ?_⟩, fun habs => ?_⟩
  · rw [h1, get_serving _ _ _ shardData hheld hw, hv]
  · rw [h1, get_serving _ _ _ shardData hheld hw, hv]
  · rw [h1, get_absent _ _ _ habs]

theorem get_reads_without_writing_witness :
    (sampleKV.applierCommand sampleRaft
      (ApplyMsg.ofOp 1 1 { sampleAppend 2 1 with Type_ := GET })).kv.stateMachine
      = sampleKV.stateMachine ∧
    (sampleKV.applierCommand sampleRaft
      (ApplyMsg.ofOp 1 1 { sampleAppend 2 1 with Type_ := GET })).commandReply
      = some { Err := OK, Value := "hello" } :=
  ⟨(get_reads_without_writing sampleKV sampleRaft
      (ApplyMsg.ofOp 1 1 { sampleAppend 2 1 with Type_ := GET })
      { sampleAppend 2 1 with Type_ := GET } rfl (by decide) rfl).1,
   ((get_reads_without_writing sampleKV sampleRaft
      (ApplyMsg.ofOp 1 1 { sampleAppend 2 1 with Type_ := GET })
      { sampleAppend 2 1 with Type_ := GET } rfl (by decide) rfl).2.1
      { State := READY, DB := (∅ : GoMap String String).insert "s" "hello" }
      (by decide) (by decide)).1 "hello" (by decide)⟩

/-- C6: applying a Put Op (shard `s`, key `k`, value `v`) that is not a cached
duplicate, when `s` is Ready or not yet held, replies `OK`; afterwards shard
`s` binds `k` to `v`, every other key of `s` keeps its previous binding, every
other shard is unchanged, and `s` is held in state Ready (so a shard that was
not held has been created Ready). -/
theorem put_binds_key (kv : ShardKV) (rf : Raft) (msg : ApplyMsg) (command : Op)
    (hmsg : msg.Command = .op command) (hidx : kv.lastApplied < msg.CommandIndex)
    (hput : command.Type_ = PUT)
    (hdup : kv.hasCache command.ClientId command.CommandId = false)
    (hstate : kv.shardState command.Shard = none ∨ kv.shardState command.Shard = some READY) :
    (kv.applierCommand rf msg).commandReply = some { Err := OK, Value := "" } ∧
    (kv.applierCommand rf msg).kv.read command.Shard command.Key = some command.Value ∧
    (∀ key, key ≠ command.Key →
      (kv.applierCommand rf msg).kv.read command.Shard key = kv.read command.Shard key) ∧
    (∀ shard, shard ≠ command.Shard →
      (kv.applierCommand rf msg).kv.stateMachine.KVData.lookup shard
        = kv.stateMachine.KVData.lookup shard) ∧
    (kv.applierCommand rf msg).kv.shardState command.Shard = some READY := by
  obtain ⟨h1, h2, _, _⟩ := applierCommand_op kv rf msg command hmsg hidx
  obtain ⟨r1, r2, _⟩ := applyOp_put_serving kv command hput hdup hstate
  rw [r1] at h1
  rw [r2] at h2
  refine ⟨h1, ?_, fun key hk => ?_, fun shard hs => ?_, ?_⟩
  · unfold ShardKV.read
    rw [h2]
    simp [AList.lookup_insert]
  · rw [read_eq kv]
    unfold ShardKV.read
    rw [h2]
    simp [AList.lookup_insert, AList.lookup_insert_ne hk]
  · rw [h2]
    exact AList.lookup_insert_ne hs
  · unfold ShardKV.shardState
    rw [h2]
    simp [AList.lookup_insert]

theorem put_binds_key_witness :
    (sampleKV.applierCommand sampleRaft
      (ApplyMsg.ofOp 1 1 { sampleAppend 2 1 with Type_ := PUT, Shard := 5 })).commandReply
      = some { Err := OK, Value := "" } ∧
    (sampleKV.applierCommand sampleRaft
      (ApplyMsg.ofOp 1 1 { sampleAppend 2 1 with Type_ := PUT, Shard := 5 })).kv.read 5 "s"
      = some "hello" ∧
    (sampleKV.applierCommand sampleRaft
      (ApplyMsg.ofOp 1 1 { sampleAppend 2 1 with Type_ := PUT, Shard := 5 })).kv.shardState 5
      = some READY :=
  have h := put_binds_key sampleKV sampleRaft
    (ApplyMsg.ofOp 1 1 { sampleAppend 2 1 with Type_ := PUT, Shard := 5 })
    { sampleAppend 2 1 with Type_ := PUT, Shard := 5 } rfl (by decide) rfl (by decide)
    (Or.inl (by decide))
  ⟨h.1, h.2.1, h.2.2.2.2⟩

/-- C7: applying an Append Op (shard `s`, key `k`, value `v`) that is not a
cached duplicate, when `s` is Ready or not yet held, replies `OK`; afterwards
shard `s` binds `k` to `old ++ v`, where `old` is the previous value of `k` or
the empty string when `k` was not bound; every other key of `s` and every
other shard is unchanged. -/
theorem append_extends_key (kv : ShardKV) (rf : Raft) (msg : ApplyMsg) (command : Op)
    (hmsg : msg.Command = .op command) (hidx : kv.lastApplied < msg.CommandIndex)
    (happ : command.Type_ = APPEND)
    (hdup : kv.hasCache command.ClientId command.CommandId = false)
    (hstate : kv.shardState command.Shard = none ∨ kv.shardState command.Shard = some READY) :
    (kv.applierCommand rf msg).commandReply = some { Err := OK, Value := "" } ∧
    (kv.applierCommand rf msg).kv.read command.Shard command.Key
      = some ((kv.read command.Shard command.Key).getD "" ++ command.Value) ∧
    (∀ key, key ≠ command.Key →
      (kv.applierCommand rf msg).kv.read command.Shard key = kv.read command.Shard key) ∧
    (∀ shard, shard ≠ command.Shard →
      (kv.applierCommand rf msg).kv.stateMachine.KVData.lookup shard
        = kv.stateMachine.KVData.lookup shard) := by
  obtain ⟨h1, h2, _, _⟩ := applierCommand_op kv rf msg command hmsg hidx
  obtain ⟨r1, r2, _⟩ := applyOp_append_serving kv command happ hdup hstate
  rw [r1] at h1
  rw [r2] at h2
  refine ⟨h1, ?_, fun key hk => ?_, fun shard hs => ?_⟩
  · unfold ShardKV.read
    rw [h2]
    simp [AList.lookup_insert, ShardKV.read]
  · rw [read_eq kv]
    unfold ShardKV.read
    rw [h2]
    simp [AList.lookup_insert, AList.lookup_insert_ne hk]
  · rw [h2]
    exact AList.lookup_insert_ne hs

theorem append_extends_key_witness :
    (sampleKV.applierCommand sampleRaft (ApplyMsg.ofOp 1 1 (sampleAppend 2 1))).commandReply
      = some { Err := OK, Value := "" } ∧
    (sampleKV.applierCommand sampleRaft (ApplyMsg.ofOp 1 1 (sampleAppend 2 1))).kv.read 3 "s"
      = some "hellohello" :=
  have h := append_extends_key sampleKV sampleRaft (ApplyMsg.ofOp 1 1 (sampleAppend 2 1))
    (sampleAppend 2 1) rfl (by decide) rfl (by decide) (Or.inr (by decide))
  ⟨h.1, h.2.1⟩

/-- C2, as stated, fails for a Get: on a fresh server `Append("s","hello")`
with ids `(1, 7)` is applied and answered `OK`; a Get of key `"t"` of the same
shard that carries the same ids `(1, 7)` is then applied and answered
`ErrNoKey`, not `OK`. -/
theorem exactly_once_counterexample :
    ((ShardKV.start 0 (-1) 100).applierCommand sampleRaft
      (ApplyMsg.ofOp 1 1 (sampleAppend 1 7))).commandReply = some { Err := OK, Value := "" } ∧
    (sampleGet "t" 1 7).ClientId = (sampleAppend 1 7).ClientId ∧
    (sampleGet "t" 1 7).CommandId = (sampleAppend 1 7).CommandId ∧
    (((ShardKV.start 0 (-1) 100).applierCommand sampleRaft
        (ApplyMsg.ofOp 1 1 (sampleAppend 1 7))).kv.applierCommand sampleRaft
      (ApplyMsg.ofOp 2 1 (sampleGet "t" 1 7))).commandReply
      = some { Err := ErrNoKey, Value := "" } := by
  decide

/-- C2, amended: exactly-once. If the apply loop answered `OK` to a Put or
Append Op with ids `(clientId, commandId)`, then after any further command
messages (client Ops and ShardOps, applied or discarded as stale), applying an
Op with the same `(clientId, commandId)` leaves the state machine, hence every
shard db, unchanged; an Op that is not a Get is answered `OK`, and a Get is
answered with what the state machine reads for its key, whatever ids it
carries. Applying `Append("s","hello")` with commandId 7 three times from the
initial state leaves `"s"` bound to `"hello"`. -/
theorem exactly_once_writes (kv : ShardKV) (rf1 : Raft) (msg1 : ApplyMsg) (command1 : Op)
    (later : List (Raft × ApplyMsg)) (rf2 : Raft) (msg2 : ApplyMsg) (command2 : Op)
    (hmsg1 : msg1.Command = .op command1)
    (htype1 : command1.Type_ = PUT ∨ command1.Type_ = APPEND)
    (hok : ∃ reply, (kv.applierCommand rf1 msg1).commandReply = some reply ∧ reply.Err = OK)
    (hmsg2 : msg2.Command = .op command2)
    (hclient : command2.ClientId = command1.ClientId)
    (hid : command2.CommandId = command1.CommandId)
    (hidx2 : ((kv.applierCommand rf1 msg1).kv.applierRun later).lastApplied
      < msg2.CommandIndex) :
    ((((kv.applierCommand rf1 msg1).kv.applierRun later).applierCommand rf2 msg2).kv.stateMachine
      = ((kv.applierCommand rf1 msg1).kv.applierRun later).stateMachine ∧
     (command2.Type_ ≠ GET →
      (((kv.applierCommand rf1 msg1).kv.applierRun later).applierCommand rf2 msg2).commandReply
        = some { Err := OK, Value := "" }) ∧
     (command2.Type_ = GET →
      (((kv.applierCommand rf1 msg1).kv.applierRun later).applierCommand rf2 msg2).commandReply
        = some
          { Err := (((kv.applierCommand rf1 msg1).kv.applierRun later).stateMachine.get
              command2.Shard command2.Key).1
            Value := (((kv.applierCommand rf1 msg1).kv.applierRun later).stateMachine.get
              command2.Shard command2.Key).2 })) ∧
    ((ShardKV.start 0 (-1) 100).applierRun
      [(sampleRaft, ApplyMsg.ofOp 1 1 (sampleAppend 1 7)),
       (sampleRaft, ApplyMsg.ofOp 2 1 (sampleAppend 1 7)),
       (sampleRaft, ApplyMsg.ofOp 3 1 (sampleAppend 1 7))]).read 3 "s" = some "hello" := by
  refine ⟨?_, by decide⟩
  have hne : command1.Type_ ≠ GET := by
    rcases htype1 with h | h <;> rw [h] <;> decide
  -- the first message was applied, so its reply is that of `applyOp`
  have hidx1 : kv.lastApplied < msg1.CommandIndex := by
    by_contra hstale
    obtain ⟨reply, hr, _⟩ := hok
    rw [applierCommand_stale kv rf1 msg1 (not_lt.mp hstale)] at hr
    exact Option.noConfusion hr
  obtain ⟨h1, _, h3, _⟩ := applierCommand_op kv rf1 msg1 command1 hmsg1 hidx1
  have hcached1 : (kv.applierCommand rf1 msg1).kv.hasCache command1.ClientId command1.CommandId
      = true := by
    obtain ⟨reply, hr, herr⟩ := hok
    rw [h1] at hr
    have hok2 : (kv.applyOp command1).2.Err = OK := by
      rw [Option.some.inj hr]
      exact herr
    have := applyOp_ok_caches kv command1 hne hok2
    unfold ShardKV.hasCache at this ⊢
    rw [h3]
    exact this
  -- the entry survives every later message
  have hcached2 := applierRun_keeps_cache later _ _ _ hcached1
  rw [← hclient, ← hid] at hcached2
  obtain ⟨g1, g2, _, _⟩ := applierCommand_op _ rf2 msg2 command2 hmsg2 hidx2
  obtain ⟨c1, c2⟩ := applyOp_cached _ command2 hcached2
  refine ⟨g2.trans c1, fun hw => by rw [g1, c2 hw], fun hget => ?_⟩
  rw [g1, applyOp_get _ command2 hget, applyToStateMachine_get _ command2 hget]

theorem exactly_once_writes_witness :
    (((((ShardKV.start 0 (-1) 100).applierCommand sampleRaft
        (ApplyMsg.ofOp 1 1 (sampleAppend 1 7))).kv.applierRun
        [(sampleRaft, ApplyMsg.ofOp 2 1 (sampleAppend 1 7))]).applierCommand sampleRaft
        (ApplyMsg.ofOp 3 1 (sampleAppend 1 7))).kv.stateMachine
      = (((ShardKV.start 0 (-1) 100).applierCommand sampleRaft
        (ApplyMsg.ofOp 1 1 (sampleAppend 1 7))).kv.applierRun
        [(sampleRaft, ApplyMsg.ofOp 2 1 (sampleAppend 1 7))]).stateMachine) ∧
    ((((ShardKV.start 0 (-1) 100).applierCommand sampleRaft
        (ApplyMsg.ofOp 1 1 (sampleAppend 1 7))).kv.applierRun
        [(sampleRaft, ApplyMsg.ofOp 2 1 (sampleAppend 1 7))]).applierCommand sampleRaft
        (ApplyMsg.ofOp 3 1 (sampleAppend 1 7))).commandReply
      = some { Err := OK, Value := "" } :=
  have h := (exactly_once_writes (ShardKV.start 0 (-1) 100) sampleRaft
    (ApplyMsg.ofOp 1 1 (sampleAppend 1 7)) (sampleAppend 1 7)
    [(sampleRaft, ApplyMsg.ofOp 2 1 (sampleAppend 1 7))] sampleRaft
    (ApplyMsg.ofOp 3 1 (sampleAppend 1 7)) (sampleAppend 1 7) rfl (Or.inr rfl)
    ⟨{ Err := OK, Value := "" }, by decide, rfl⟩ rfl rfl rfl (by decide)).1
  ⟨h.1, h.2.1 (by decide)⟩

/-- C9, as stated, fails: on the sample server of group 100, whose config
assigns shard 3 to group 0, an Append that is not a cached duplicate is
answered `OK`, not `ErrWrongGroup`, and both the shard db and the duplicate
table change. -/
theorem apply_wrong_group_counterexample :
    sampleKV.config.Shards.getD 3 0 ≠ sampleKV.gid ∧
    sampleKV.hasCache 2 1 = false ∧
    (sampleKV.applierCommand sampleRaft (ApplyMsg.ofOp 1 1 (sampleAppend 2 1))).commandReply
      = some { Err := OK, Value := "" } ∧
    sampleKV.read 3 "s" = some "hello" ∧
    (sampleKV.applierCommand sampleRaft (ApplyMsg.ofOp 1 1 (sampleAppend 2 1))).kv.read 3 "s"
      = some "hellohello" ∧
    sampleKV.cacheMap.lookup 2 = none ∧
    (sampleKV.applierCommand sampleRaft (ApplyMsg.ofOp 1 1 (sampleAppend 2 1))).kv.cacheMap.lookup 2
      = some 1 := by
  decide

/-- C9, amended: the apply loop does not consult `config` or `gid` when it
applies a client Op. The reply, the state machine and the duplicate table it
produces are the same whatever `config` (so whatever `config.Shards[op.Shard]`)
and `gid` are; the reply to a Get, Put or Append is `OK`, `ErrNoKey` or
`ErrNotReady`, and no reply is `ErrWrongGroup`. The ownership check is made at
RPC entry, before the Op is proposed: when `checkKey` finds that
`config.Shards[key2shard(key)]` is not `gid`, `PutAppend` and `Get` reply
`ErrWrongGroup`, propose nothing and do not wait; when it finds them equal,
they set the reply to `OK` or `ErrWrongLeader` or leave it as it came. -/
theorem apply_ignores_ownership (kv : ShardKV) (rf : Raft) (msg : ApplyMsg) (command : Op)
    (config : Config) (gid : Int) (hmsg : msg.Command = .op command)
    (hidx : kv.lastApplied < msg.CommandIndex) :
    (ShardKV.applierCommand { kv with config := config, gid := gid } rf msg).commandReply
      = (kv.applierCommand rf msg).commandReply ∧
    (ShardKV.applierCommand { kv with config := config, gid := gid } rf msg).kv.stateMachine
      = (kv.applierCommand rf msg).kv.stateMachine ∧
    (ShardKV.applierCommand { kv with config := config, gid := gid } rf msg).kv.cacheMap
      = (kv.applierCommand rf msg).kv.cacheMap ∧
    (command.Type_ = GET ∨ command.Type_ = PUT ∨ command.Type_ = APPEND →
      ∃ reply, (kv.applierCommand rf msg).commandReply = some reply ∧
        (reply.Err = OK ∨ reply.Err = ErrNoKey ∨ reply.Err = ErrNotReady)) ∧
    (∀ reply, (kv.applierCommand rf msg).commandReply = some reply →
      reply.Err ≠ ErrWrongGroup) ∧
    (∀ (key2shard : String → Nat) (start : Started),
      (∀ (args : PutAppendArgs) (reply : PutAppendReply),
        ((kv.checkKey key2shard args.Key).2.2 = false →
          kv.PutAppend key2shard start args reply
            = (kv, { proposed := [], reply := { Err := ErrWrongGroup }, waiting := none })) ∧
        ((kv.checkKey key2shard args.Key).2.2 = true →
          (kv.PutAppend key2shard start args reply).2.reply.Err = OK ∨
          (kv.PutAppend key2shard start args reply).2.reply.Err = ErrWrongLeader ∨
          (kv.PutAppend key2shard start args reply).2.reply = reply)) ∧
      (∀ (args : GetArgs) (reply : GetReply),
        ((kv.checkKey key2shard args.Key).2.2 = false →
          kv.Get key2shard start args reply
            = (kv, { proposed := [], reply := { reply with Err := ErrWrongGroup }
                     waiting := none })) ∧
        ((kv.checkKey key2shard args.Key).2.2 = true →
          (kv.Get key2shard start args reply).2.reply.Err = ErrWrongLeader ∨
          (kv.Get key2shard start args reply).2.reply = reply))) := by
  obtain ⟨a1, a2, a3, _⟩ := applierCommand_op kv rf msg command hmsg hidx
  obtain ⟨b1, b2, b3, _⟩ :=
    applierCommand_op { kv with config := config, gid := gid } rf msg command hmsg hidx
  obtain ⟨c1, c2, c3⟩ := applyOp_congr kv command { kv with config := config, gid := gid } rfl rfl
  refine ⟨by rw [a1, b1, c1], by rw [a2, b2, c2], by rw [a3, b3, c3],
    fun htype => ⟨(kv.applyOp command).2, a1, applyOp_err_typed kv command htype⟩,
    fun reply hr => ?_, fun key2shard start => ⟨fun args reply => ⟨fun hno => ?_, fun hyes => ?_⟩,
      fun args reply => ⟨fun hno => ?_, fun hyes => ?_⟩⟩⟩
  · rw [a1] at hr
    rw [← Option.some.inj hr]
    rcases applyOp_err kv command with h | h | h | h <;> rw [h] <;> decide
  · unfold ShardKV.PutAppend
    dsimp only
    rw [if_pos (by rw [hno]; decide)]
  · unfold ShardKV.PutAppend
    dsimp only
    rw [if_neg (not_not_intro hyes)]
    split_ifs <;>
      first | exact Or.inl rfl | exact Or.inr (Or.inl rfl) | exact Or.inr (Or.inr rfl)
  · unfold ShardKV.Get
    dsimp only
    rw [if_pos (by rw [hno]; decide)]
  · unfold ShardKV.Get
    dsimp only
    rw [if_neg (not_not_intro hyes)]
    split_ifs <;> first | exact Or.inl rfl | exact Or.inr rfl

theorem apply_ignores_ownership_witness :
    (ShardKV.applierCommand
        { sampleKV with config := (sampleUpdateConfig 1).NewConfig, gid := 100 } sampleRaft
        (ApplyMsg.ofOp 1 1 (sampleAppend 2 1))).commandReply
      = (sampleKV.applierCommand sampleRaft (ApplyMsg.ofOp 1 1 (sampleAppend 2 1))).commandReply ∧
    (∀ reply,
      (sampleKV.applierCommand sampleRaft (ApplyMsg.ofOp 1 1 (sampleAppend 2 1))).commandReply
        = some reply → reply.Err ≠ ErrWrongGroup) ∧
    sampleKV.Get sampleKey2shard { index := 1, term := 1, isLeader := true }
        { Key := "s", ClientId := 2, CommandId := 1 } { Err := "", Value := "" }
      = (sampleKV, { proposed := [], reply := { Err := ErrWrongGroup, Value := "" }
                     waiting := none }) :=
  have h := apply_ignores_ownership sampleKV sampleRaft (ApplyMsg.ofOp 1 1 (sampleAppend 2 1))
    (sampleAppend 2 1) (sampleUpdateConfig 1).NewConfig 100 rfl (by decide)
  ⟨h.1, h.2.2.2.2.1,
    ((h.2.2.2.2.2 sampleKey2shard { index := 1, term := 1, isLeader := true }).2
      { Key := "s", ClientId := 2, CommandId := 1 } { Err := "", Value := "" }).1 (by decide)⟩

/-- C10, as stated, fails: on a fresh server (`config.Num = 0`) an applied
`UpdateConfig` whose configuration is numbered 5, which is not `config.Num + 1`,
is not discarded: afterwards `config.Num = 5`, neither unchanged nor one
larger. -/
theorem update_config_counterexample :
    (sampleUpdateConfig 5).NewConfig.Num ≠ (ShardKV.start 0 (-1) 100).config.Num + 1 ∧
    (ShardKV.start 0 (-1) 100).config.Num = 0 ∧
    ((ShardKV.start 0 (-1) 100).applierCommand sampleRaft
      (ApplyMsg.ofShardOp 1 1 (sampleUpdateConfig 5))).kv.config.Num = 5 ∧
    ((ShardKV.start 0 (-1) 100).applierCommand sampleRaft
      (ApplyMsg.ofShardOp 1 1 (sampleUpdateConfig 5))).kv.config
      ≠ (ShardKV.start 0 (-1) 100).config := by
  decide

/-- C10, amended: an applied `UpdateConfig(newConfig)` sets `config` to
`newConfig` whatever `newConfig.Num` is; the apply loop compares no numbers.
So `config.Num` afterwards is `newConfig.Num`, which is exactly one larger
than before if and only if `newConfig.Num = config.Num + 1`. -/
theorem update_config_is_unconditional (kv : ShardKV) (rf : Raft) (msg : ApplyMsg)
    (command : ShardOp) (hmsg : msg.Command = .shardOp command)
    (hidx : kv.lastApplied < msg.CommandIndex) (htype : command.Type_ = UPDATE_CONFIG) :
    (kv.applierCommand rf msg).kv.config = command.NewConfig ∧
    ((kv.applierCommand rf msg).kv.config.Num = kv.config.Num + 1 ↔
      command.NewConfig.Num = kv.config.Num + 1) := by
  obtain ⟨_, _, _, h4⟩ := applierCommand_shardOp kv rf msg command hmsg hidx
  have hc : (kv.applierCommand rf msg).kv.config = command.NewConfig := by
    rw [h4]
    unfold ShardKV.applyShardOp
    rw [if_pos htype]
  exact ⟨hc, by rw [hc]⟩

theorem update_config_is_unconditional_witness :
    ((ShardKV.start 0 (-1) 100).applierCommand sampleRaft
      (ApplyMsg.ofShardOp 1 1 (sampleUpdateConfig 1))).kv.config
      = (sampleUpdateConfig 1).NewConfig ∧
    ((ShardKV.start 0 (-1) 100).applierCommand sampleRaft
      (ApplyMsg.ofShardOp 1 1 (sampleUpdateConfig 1))).kv.config.Num
      = (ShardKV.start 0 (-1) 100).config.Num + 1 :=
  have h := update_config_is_unconditional (ShardKV.start 0 (-1) 100) sampleRaft
    (ApplyMsg.ofShardOp 1 1 (sampleUpdateConfig 1)) (sampleUpdateConfig 1) rfl (by decide) rfl
  ⟨h.1, h.2.mpr (by decide)⟩

/-! ## Range loops over a map -/

section ranges

variable {K V : Type} [DecidableEq K]

/-- Writing the entries of a map one by one into `acc`: a key of the map reads
its value there, any other key reads what `acc` had. -/
theorem foldl_insert_lookup (entries : List (Sigma fun _ : K => V)) :
    entries.NodupKeys → ∀ (acc : GoMap K V) (k : K),
      (entries.foldl (fun c e => c.insert e.1 e.2) acc).lookup k
        = (List.dlookup k entries).or (acc.lookup k) := by
  induction entries with
  | nil =>
    intro _ acc k
    simp
  | cons e rest ih =>
    intro hnd acc k
    obtain ⟨hnot, hrest⟩ := List.nodupKeys_cons.mp hnd
    rw [List.foldl_cons, ih hrest]
    obtain ⟨a, b⟩ := e
    by_cases hk : k = a
    · subst hk
      rw [List.dlookup_cons_eq, List.dlookup_eq_none.mpr hnot, AList.lookup_insert]
      simp
    · rw [List.dlookup_cons_ne rest (⟨a, b⟩ : Sigma fun _ : K => V) hk]
      dsimp only
      rw [AList.lookup_insert_ne hk]

/-- The overlay loop of `updateShardDBAndCacheMap`: delivered keys read the
delivered value, other keys keep their binding. -/
theorem mergeDB_lookup (DB shardDB : GoMap String String) (key : String) :
    (mergeDB DB shardDB).lookup key = (shardDB.lookup key).or (DB.lookup key) :=
  foldl_insert_lookup shardDB.entries shardDB.nodupKeys DB key

/-- A map copied entry by entry into a fresh map reads the same everywhere. -/
theorem copy_lookup (m : GoMap K V) (k : K) :
    (AList.foldl (fun c k v => c.insert k v) (∅ : GoMap K V) m).lookup k = m.lookup k := by
  have h := foldl_insert_lookup m.entries m.nodupKeys (∅ : GoMap K V) k
  rw [AList.lookup_empty] at h
  simpa [AList.foldl, AList.lookup] using h

/-- The merge loop of `updateShardDBAndCacheMap`, client by client. -/
theorem mergeCache_entries_lookup (entries : List (Sigma fun _ : Int => Int)) :
    entries.NodupKeys → ∀ (cacheMap : GoMap Int Int) (clientId : Int),
      (entries.foldl (fun cm e => cm.insert e.1 (max ((cm.lookup e.1).getD 0) e.2))
        cacheMap).lookup clientId
        = match List.dlookup clientId entries with
          | some v => some (max ((cacheMap.lookup clientId).getD 0) v)
          | none => cacheMap.lookup clientId := by
  induction entries with
  | nil =>
    intro _ cacheMap clientId
    simp
  | cons e rest ih =>
    intro hnd cacheMap clientId
    obtain ⟨hnot, hrest⟩ := List.nodupKeys_cons.mp hnd
    rw [List.foldl_cons, ih hrest]
    obtain ⟨a, b⟩ := e
    by_cases hk : clientId = a
    · subst hk
      rw [List.dlookup_cons_eq, List.dlookup_eq_none.mpr hnot]
      simp [AList.lookup_insert]
    · rw [List.dlookup_cons_ne rest (⟨a, b⟩ : Sigma fun _ : Int => Int) hk]
      dsimp only
      rw [AList.lookup_insert_ne hk]

theorem mergeCache_lookup (cacheMap cache : GoMap Int Int) (clientId : Int) :
    (mergeCache cacheMap cache).lookup clientId
      = match cache.lookup clientId with
        | some v => some (max ((cacheMap.lookup clientId).getD 0) v)
        | none => cacheMap.lookup clientId :=
  mergeCache_entries_lookup cache.entries cache.nodupKeys cacheMap clientId

end ranges

/-! ## More frame lemmas -/

section frame2

variable (kv : ShardKV) (rf : Raft) (msg : ApplyMsg)

theorem trigger_pull :
    (kv.trigger rf).1.pullGid = kv.pullGid ∧ (kv.trigger rf).1.pullGroups = kv.pullGroups ∧
    (kv.trigger rf).1.waitChMap = kv.waitChMap := by
  unfold ShardKV.trigger ShardKV.sendSnapshot
  split_ifs <;> exact ⟨rfl, rfl, rfl⟩

theorem deliver_pull (commandReply : CommandReply) :
    (kv.deliver rf msg commandReply).1.pullGid = kv.pullGid ∧
    (kv.deliver rf msg commandReply).1.pullGroups = kv.pullGroups := by
  unfold ShardKV.deliver ShardKV.getWaitCh
  cases kv.waitChMap.lookup msg.CommandIndex <;> dsimp only <;> split_ifs <;> exact ⟨rfl, rfl⟩

/-- An applied `ShardOp`: the pull tables are those of `applyShardOp`, and the
wait table is untouched. -/
theorem applierCommand_shardOp_pull (sop : ShardOp) (hmsg : msg.Command = .shardOp sop)
    (hidx : kv.lastApplied < msg.CommandIndex) :
    (kv.applierCommand rf msg).kv.pullGid = (kv.applyShardOp sop).pullGid ∧
    (kv.applierCommand rf msg).kv.pullGroups = (kv.applyShardOp sop).pullGroups ∧
    (kv.applierCommand rf msg).kv.waitChMap = kv.waitChMap := by
  rw [applierCommand_fresh kv rf msg hidx, dispatch_shardOp _ rf msg sop hmsg]
  simp only [Bool.false_eq_true, if_false, trigger_pull]
  unfold ShardKV.applyShardOp ShardKV.updateShardState ShardKV.updateShardDBAndCacheMap
  split_ifs <;> simp

end frame2

/-! ## Shard operations, case by case -/

section shardOps

variable (kv : ShardKV) (command : ShardOp)

theorem applyShardOp_updateConfig (h : command.Type_ = UPDATE_CONFIG) :
    kv.applyShardOp command = { kv with config := command.NewConfig } := by
  unfold ShardKV.applyShardOp
  rw [if_pos h]

theorem applyShardOp_updateShardState (h : command.Type_ = UPDATE_SHARD_STATE) :
    kv.applyShardOp command =
      kv.updateShardState command.Shard command.NewState command.TargetGid command.Groups := by
  have h1 : ¬ (UPDATE_SHARD_STATE = UPDATE_CONFIG) := by decide
  unfold ShardKV.applyShardOp
  rw [h, if_neg h1, if_pos rfl]

theorem applyShardOp_updateShardDB (h : command.Type_ = UPDATE_SHARD_DB) :
    kv.applyShardOp command =
      kv.updateShardDBAndCacheMap command.Shard command.DB command.CacheMap
        command.TargetGid := by
  have h1 : ¬ (UPDATE_SHARD_DB = UPDATE_CONFIG) := by decide
  have h2 : ¬ (UPDATE_SHARD_DB = UPDATE_SHARD_STATE) := by decide
  unfold ShardKV.applyShardOp
  rw [h, if_neg h1, if_neg h2, if_pos rfl]

/-- The state machine after `updateShardState`: the shard holds the new state
over the db it had, or over an empty db when it was not held. -/
theorem updateShardState_stateMachine (shard : Int) (newState : ShardState) (targetGid : Int)
    (groups : List String) :
    (kv.updateShardState shard newState targetGid groups).stateMachine =
      { KVData := kv.stateMachine.KVData.insert shard
          { State := newState, DB := (kv.db shard).getD ∅ } } := by
  unfold ShardKV.updateShardState ShardKV.db
  cases h : kv.stateMachine.KVData.lookup shard with
  | none =>
    rw [allocate_absent _ _ h]
    dsimp only
    split_ifs <;> simp
  | some shardData =>
    rw [allocate_held _ _ shardData h]
    dsimp only
    split_ifs <;> simp

theorem updateShardState_rest (shard : Int) (newState : ShardState) (targetGid : Int)
    (groups : List String) :
    (kv.updateShardState shard newState targetGid groups).cacheMap = kv.cacheMap ∧
    (kv.updateShardState shard newState targetGid groups).config = kv.config ∧
    (newState = WAITING →
      (kv.updateShardState shard newState targetGid groups).pullGid
        = kv.pullGid.insert shard targetGid ∧
      (kv.updateShardState shard newState targetGid groups).pullGroups
        = kv.pullGroups.insert targetGid groups) ∧
    (newState ≠ WAITING →
      (kv.updateShardState shard newState targetGid groups).pullGid = kv.pullGid ∧
      (kv.updateShardState shard newState targetGid groups).pullGroups = kv.pullGroups) := by
  unfold ShardKV.updateShardState
  dsimp only
  split_ifs with h
  · exact ⟨rfl, rfl, fun _ => ⟨rfl, rfl⟩, fun hn => absurd h hn⟩
  · exact ⟨rfl, rfl, fun hw => absurd hw h, fun _ => ⟨rfl, rfl⟩⟩

/-- The state machine after `updateShardDBAndCacheMap`: the shard is `Ready`
and reads a delivered key from the delivery and any other key as before. -/
theorem updateShardDB_stateMachine (shard : Int) (shardDB : GoMap String String)
    (cache : GoMap Int Int) (targetGid : Int) :
    ∃ DB, (kv.updateShardDBAndCacheMap shard shardDB cache targetGid).stateMachine =
        { KVData := kv.stateMachine.KVData.insert shard { State := READY, DB := DB } } ∧
      ∀ key, DB.lookup key = (shardDB.lookup key).or (kv.read shard key) := by
  unfold ShardKV.updateShardDBAndCacheMap ShardKV.read
  cases h : kv.stateMachine.KVData.lookup shard with
  | none => exact ⟨shardDB, rfl, fun key => by simp⟩
  | some shardData =>
    exact ⟨mergeDB shardData.DB shardDB, rfl, fun key => by
      rw [mergeDB_lookup]
      rfl⟩

end shardOps

/-! ## Properties of the shard operations -/

/-- C11: applying `UpdateConfig(newConfig)` with `newConfig.Num = config.Num + 1`
sets `config` to `newConfig` and leaves the state machine (every shard's state
and db), the duplicate table, `pullGid` and `pullGroups` unchanged. -/
theorem update_config_touches_only_config (kv : ShardKV) (rf : Raft) (msg : ApplyMsg)
    (command : ShardOp) (hmsg : msg.Command = .shardOp command)
    (hidx : kv.lastApplied < msg.CommandIndex) (htype : command.Type_ = UPDATE_CONFIG)
    (_hnum : command.NewConfig.Num = kv.config.Num + 1) :
    (kv.applierCommand rf msg).kv.config = command.NewConfig ∧
    (kv.applierCommand rf msg).kv.stateMachine = kv.stateMachine ∧
    (kv.applierCommand rf msg).kv.cacheMap = kv.cacheMap ∧
    (kv.applierCommand rf msg).kv.pullGid = kv.pullGid ∧
    (kv.applierCommand rf msg).kv.pullGroups = kv.pullGroups := by
  obtain ⟨_, h2, h3, h4⟩ := applierCommand_shardOp kv rf msg command hmsg hidx
  obtain ⟨h5, h6, _⟩ := applierCommand_shardOp_pull kv rf msg command hmsg hidx
  rw [applyShardOp_updateConfig kv command htype] at h2 h3 h4 h5 h6
  exact ⟨h4, h2, h3, h5, h6⟩

theorem update_config_touches_only_config_witness :
    (sampleKV.applierCommand sampleRaft (ApplyMsg.ofShardOp 1 1 (sampleUpdateConfig 1))).kv.config
      = (sampleUpdateConfig 1).NewConfig ∧
    (sampleKV.applierCommand sampleRaft
      (ApplyMsg.ofShardOp 1 1 (sampleUpdateConfig 1))).kv.stateMachine = sampleKV.stateMachine ∧
    (sampleKV.applierCommand sampleRaft
      (ApplyMsg.ofShardOp 1 1 (sampleUpdateConfig 1))).kv.cacheMap = sampleKV.cacheMap ∧
    (sampleKV.applierCommand sampleRaft
      (ApplyMsg.ofShardOp 1 1 (sampleUpdateConfig 1))).kv.pullGid = sampleKV.pullGid ∧
    (sampleKV.applierCommand sampleRaft
      (ApplyMsg.ofShardOp 1 1 (sampleUpdateConfig 1))).kv.pullGroups = sampleKV.pullGroups :=
  update_config_touches_only_config sampleKV sampleRaft
    (ApplyMsg.ofShardOp 1 1 (sampleUpdateConfig 1)) (sampleUpdateConfig 1) rfl (by decide) rfl
    (by decide)

/-- C12: applying `UpdateShardState(shard, newState, targetGid, targetServers)`:
afterwards the shard is held in state `newState` over its previous db, or over
the empty map when it was not held; when `newState` is Waiting,
`pullGid[shard] = targetGid` and `pullGroups[targetGid] = targetServers`, and
otherwise `pullGid` and `pullGroups` are unchanged; every other shard, the
duplicate table and `config` are unchanged. -/
theorem update_shard_state_effect (kv : ShardKV) (rf : Raft) (msg : ApplyMsg)
    (command : ShardOp) (hmsg : msg.Command = .shardOp command)
    (hidx : kv.lastApplied < msg.CommandIndex) (htype : command.Type_ = UPDATE_SHARD_STATE) :
    (kv.applierCommand rf msg).kv.shardState command.Shard = some command.NewState ∧
    (kv.applierCommand rf msg).kv.db command.Shard = some ((kv.db command.Shard).getD ∅) ∧
    (command.NewState = WAITING →
      (kv.applierCommand rf msg).kv.pullGid.lookup command.Shard = some command.TargetGid ∧
      (kv.applierCommand rf msg).kv.pullGroups.lookup command.TargetGid
        = some command.Groups) ∧
    (command.NewState ≠ WAITING →
      (kv.applierCommand rf msg).kv.pullGid = kv.pullGid ∧
      (kv.applierCommand rf msg).kv.pullGroups = kv.pullGroups) ∧
    (∀ shard, shard ≠ command.Shard →
      (kv.applierCommand rf msg).kv.stateMachine.KVData.lookup shard
        = kv.stateMachine.KVData.lookup shard) ∧
    (kv.applierCommand rf msg).kv.cacheMap = kv.cacheMap ∧
    (kv.applierCommand rf msg).kv.config = kv.config := by
  obtain ⟨_, h2, h3, h4⟩ := applierCommand_shardOp kv rf msg command hmsg hidx
  obtain ⟨h5, h6, _⟩ := applierCommand_shardOp_pull kv rf msg command hmsg hidx
  rw [applyShardOp_updateShardState kv command htype] at h2 h3 h4 h5 h6
  rw [updateShardState_stateMachine] at h2
  obtain ⟨r1, r2, r3, r4⟩ :=
    updateShardState_rest kv command.Shard command.NewState command.TargetGid command.Groups
  refine ⟨?_, ?_, fun hw => ?_, fun hn => ?_, fun shard hs => ?_, h3.trans r1, h4.trans r2⟩
  · unfold ShardKV.shardState
    rw [h2]
    simp [AList.lookup_insert]
  · unfold ShardKV.db
    rw [h2]
    simp [AList.lookup_insert, ShardKV.db]
  · rw [h5, h6, (r3 hw).1, (r3 hw).2]
    exact ⟨AList.lookup_insert _, AList.lookup_insert _⟩
  · rw [h5, h6]
    exact r4 hn
  · rw [h2]
    exact AList.lookup_insert_ne hs

theorem update_shard_state_effect_witness :
    (sampleKV.applierCommand sampleRaft
      (ApplyMsg.ofShardOp 1 1 (sampleUpdateShardState 3 WAITING))).kv.shardState 3
      = some WAITING ∧
    (sampleKV.applierCommand sampleRaft
      (ApplyMsg.ofShardOp 1 1 (sampleUpdateShardState 3 WAITING))).kv.read 3 "s"
      = some "hello" ∧
    (sampleKV.applierCommand sampleRaft
      (ApplyMsg.ofShardOp 1 1 (sampleUpdateShardState 3 WAITING))).kv.pullGid.lookup 3
      = some 200 ∧
    (sampleKV.applierCommand sampleRaft
      (ApplyMsg.ofShardOp 1 1 (sampleUpdateShardState 3 WAITING))).kv.pullGroups.lookup 200
      = some ["server-200-0"] :=
  have h := update_shard_state_effect sampleKV sampleRaft
    (ApplyMsg.ofShardOp 1 1 (sampleUpdateShardState 3 WAITING))
    (sampleUpdateShardState 3 WAITING) rfl (by decide) rfl
  ⟨h.1, by decide, (h.2.2.1 rfl).1, (h.2.2.1 rfl).2⟩

/-- C13: applying `UpdateShardDB(shard, delivered, cacheMap, targetGid)`:
afterwards the shard is held in state Ready; it binds each key of `delivered`
to the delivered value and every other key as before (to nothing when the
shard was not held); `pullGid` has no entry for `shard` and `pullGroups` none
for `targetGid`, their other entries are unchanged, and so are every other
shard and `config`. -/
theorem update_shard_db_effect (kv : ShardKV) (rf : Raft) (msg : ApplyMsg)
    (command : ShardOp) (hmsg : msg.Command = .shardOp command)
    (hidx : kv.lastApplied < msg.CommandIndex) (htype : command.Type_ = UPDATE_SHARD_DB) :
    (kv.applierCommand rf msg).kv.shardState command.Shard = some READY ∧
    (∀ key, (kv.applierCommand rf msg).kv.read command.Shard key
      = (command.DB.lookup key).or (kv.read command.Shard key)) ∧
    (kv.applierCommand rf msg).kv.pullGid.lookup command.Shard = none ∧
    (kv.applierCommand rf msg).kv.pullGroups.lookup command.TargetGid = none ∧
    (∀ shard, shard ≠ command.Shard →
      (kv.applierCommand rf msg).kv.pullGid.lookup shard = kv.pullGid.lookup shard) ∧
    (∀ gid, gid ≠ command.TargetGid →
      (kv.applierCommand rf msg).kv.pullGroups.lookup gid = kv.pullGroups.lookup gid) ∧
    (∀ shard, shard ≠ command.Shard →
      (kv.applierCommand rf msg).kv.stateMachine.KVData.lookup shard
        = kv.stateMachine.KVData.lookup shard) ∧
    (kv.applierCommand rf msg).kv.config = kv.config := by
  obtain ⟨_, h2, _, h4⟩ := applierCommand_shardOp kv rf msg command hmsg hidx
  obtain ⟨h5, h6, _⟩ := applierCommand_shardOp_pull kv rf msg command hmsg hidx
  rw [applyShardOp_updateShardDB kv command htype] at h2 h4 h5 h6
  obtain ⟨DB, hsm, hDB⟩ :=
    updateShardDB_stateMachine kv command.Shard command.DB command.CacheMap command.TargetGid
  rw [hsm] at h2
  refine ⟨?_, fun key => ?_, ?_, ?_, fun shard hs => ?_, fun gid hg => ?_, fun shard hs => ?_,
    h4⟩
  · unfold ShardKV.shardState
    rw [h2]
    simp [AList.lookup_insert]
  · rw [← hDB key]
    unfold ShardKV.read
    rw [h2]
    simp [AList.lookup_insert]
  · rw [h5]
    exact AList.lookup_erase _ _
  · rw [h6]
    exact AList.lookup_erase _ _
  · rw [h5]
    exact AList.lookup_erase_ne hs
  · rw [h6]
    exact AList.lookup_erase_ne hg
  · rw [h2]
    exact AList.lookup_insert_ne hs

theorem update_shard_db_effect_witness :
    (sampleKV.applierCommand sampleRaft
      (ApplyMsg.ofShardOp 1 1 (sampleUpdateShardDB 3 ∅))).kv.shardState 3 = some READY ∧
    (sampleKV.applierCommand sampleRaft
      (ApplyMsg.ofShardOp 1 1 (sampleUpdateShardDB 3 ∅))).kv.read 3 "s" = some "bye" ∧
    (sampleKV.applierCommand sampleRaft
      (ApplyMsg.ofShardOp 1 1 (sampleUpdateShardDB 3 ∅))).kv.read 3 "t" = some "new" ∧
    (sampleKV.applierCommand sampleRaft
      (ApplyMsg.ofShardOp 1 1 (sampleUpdateShardDB 3 ∅))).kv.pullGid.lookup 3 = none :=
  have h := update_shard_db_effect sampleKV sampleRaft
    (ApplyMsg.ofShardOp 1 1 (sampleUpdateShardDB 3 ∅)) (sampleUpdateShardDB 3 ∅) rfl
    (by decide) rfl
  ⟨h.1, (h.2.1 "s").trans (by decide), (h.2.1 "t").trans (by decide), h.2.2.1⟩

/-- The `max` of server.go is the larger of its two arguments. -/
theorem max_eq (a b : Int) : max a b = Max.max a b := by
  unfold max
  split_ifs <;> omega

/-- C14, as stated, fails: a fresh server has no entry for client 5; after
`UpdateShardDB` delivers the entry `5 ↦ -1`, the duplicate table holds 0 for
client 5, not the delivered -1. -/
theorem merge_cache_counterexample :
    (ShardKV.start 0 (-1) 100).cacheMap.lookup 5 = none ∧
    (sampleUpdateShardDB 3 ((∅ : GoMap Int Int).insert 5 (-1))).CacheMap.lookup 5
      = some (-1) ∧
    ((ShardKV.start 0 (-1) 100).applierCommand sampleRaft
      (ApplyMsg.ofShardOp 1 1
        (sampleUpdateShardDB 3 ((∅ : GoMap Int Int).insert 5 (-1))))).kv.cacheMap.lookup 5
      = some 0 := by
  decide

/-- C14, amended: after `UpdateShardDB` with delivered duplicate table `D`, a
client `c` of `D` that had an entry holds the larger of that entry and `D[c]`;
a client of `D` that had no entry holds the larger of 0 and `D[c]`, which is
`D[c]` when `D[c]` is not negative; and a client that is not in `D` keeps its
entry or stays absent. -/
theorem merge_cache_is_max (kv : ShardKV) (rf : Raft) (msg : ApplyMsg) (command : ShardOp)
    (hmsg : msg.Command = .shardOp command) (hidx : kv.lastApplied < msg.CommandIndex)
    (htype : command.Type_ = UPDATE_SHARD_DB) :
    (∀ clientId delivered item, command.CacheMap.lookup clientId = some delivered →
      kv.cacheMap.lookup clientId = some item →
      (kv.applierCommand rf msg).kv.cacheMap.lookup clientId
        = some (Max.max item delivered)) ∧
    (∀ clientId delivered, command.CacheMap.lookup clientId = some delivered →
      kv.cacheMap.lookup clientId = none →
      (kv.applierCommand rf msg).kv.cacheMap.lookup clientId = some (Max.max 0 delivered) ∧
      (0 ≤ delivered →
        (kv.applierCommand rf msg).kv.cacheMap.lookup clientId = some delivered)) ∧
    (∀ clientId, command.CacheMap.lookup clientId = none →
      (kv.applierCommand rf msg).kv.cacheMap.lookup clientId
        = kv.cacheMap.lookup clientId) := by
  obtain ⟨_, _, h3, _⟩ := applierCommand_shardOp kv rf msg command hmsg hidx
  rw [applyShardOp_updateShardDB kv command htype] at h3
  have hm : (kv.applierCommand rf msg).kv.cacheMap = mergeCache kv.cacheMap command.CacheMap :=
    h3
  refine ⟨fun clientId delivered item hd hi => ?_, fun clientId delivered hd hi => ?_,
    fun clientId hd => ?_⟩
  · rw [hm, mergeCache_lookup, hd, hi, ← max_eq]
    rfl
  · have h0 : (kv.applierCommand rf msg).kv.cacheMap.lookup clientId
        = some (Max.max 0 delivered) := by
      rw [hm, mergeCache_lookup, hd, hi, ← max_eq]
      rfl
    exact ⟨h0, fun hpos => by rw [h0, max_eq_right hpos]⟩
  · rw [hm, mergeCache_lookup, hd]

theorem merge_cache_is_max_witness :
    (sampleKV.applierCommand sampleRaft
      (ApplyMsg.ofShardOp 1 1
        (sampleUpdateShardDB 3 (((∅ : GoMap Int Int).insert 1 9).insert 2 4)))).kv.cacheMap.lookup 1
      = some 9 ∧
    (sampleKV.applierCommand sampleRaft
      (ApplyMsg.ofShardOp 1 1
        (sampleUpdateShardDB 3 (((∅ : GoMap Int Int).insert 1 9).insert 2 4)))).kv.cacheMap.lookup 2
      = some 4 :=
  have h := merge_cache_is_max sampleKV sampleRaft
    (ApplyMsg.ofShardOp 1 1
      (sampleUpdateShardDB 3 (((∅ : GoMap Int Int).insert 1 9).insert 2 4)))
    (sampleUpdateShardDB 3 (((∅ : GoMap Int Int).insert 1 9).insert 2 4)) rfl (by decide) rfl
  ⟨(h.1 1 9 7 (by decide) (by decide)).trans (by decide),
   (h.2.1 2 4 (by decide) (by decide)).2 (by decide)⟩

/-! ## The configuration poller and the migration handler -/

/-- C15, the code at the failing input: group 100 is at configuration 2, in
which every shard is unassigned (group 0), and fetches configuration 3, which
gives it all ten shards. `checkConfig` proposes `UpdateConfig` and then, for
every shard, `UpdateShardState(i, Waiting, 0, nil)`: a Waiting transition for
shards that were previously unassigned. -/
theorem checkConfig_waits_on_unassigned :
    sampleUnassigned.config.Num ≠ 0 ∧
    (sampleUpdateConfig 3).NewConfig.Num = sampleUnassigned.config.Num + 1 ∧
    (sampleUnassigned.checkConfig (sampleUpdateConfig 3).NewConfig).2
      = sampleUpdateConfig 3 ::
        [waitOnNobody 0, waitOnNobody 1, waitOnNobody 2, waitOnNobody 3, waitOnNobody 4,
         waitOnNobody 5, waitOnNobody 6, waitOnNobody 7, waitOnNobody 8, waitOnNobody 9] := by
  decide

/-- C16: `ShardMigrationHandler`. A server that is not leader replies
`ErrWrongLeader`. A leader replies `ErrNotReady`, setting nothing else, when
`args.ConfigNum > config.Num`; otherwise it replies `OK` with the requested
shard number, its own `config.Num`, `Data` reading as the db of the requested
shard (as the empty map when the shard is not held) and `CacheMap` reading as
the whole duplicate table. The server state is the same afterwards in every
case. -/
theorem migration_handler_reply (kv : ShardKV) (rf : Raft) (args : ShardMigrationArgs)
    (reply : ShardMigrationReply) :
    (rf.isLeader = false →
      (kv.ShardMigrationHandler rf args reply).2 = { reply with Err := ErrWrongLeader }) ∧
    (rf.isLeader = true → args.ConfigNum > kv.config.Num →
      (kv.ShardMigrationHandler rf args reply).2 = { reply with Err := ErrNotReady }) ∧
    (rf.isLeader = true → args.ConfigNum ≤ kv.config.Num →
      (kv.ShardMigrationHandler rf args reply).2.Err = OK ∧
      (kv.ShardMigrationHandler rf args reply).2.Shard = args.Shard ∧
      (kv.ShardMigrationHandler rf args reply).2.ConfigNum = kv.config.Num ∧
      (∀ key, (kv.ShardMigrationHandler rf args reply).2.Data.lookup key
        = ((kv.db args.Shard).getD ∅).lookup key) ∧
      (∀ clientId, (kv.ShardMigrationHandler rf args reply).2.CacheMap.lookup clientId
        = kv.cacheMap.lookup clientId)) ∧
    (kv.ShardMigrationHandler rf args reply).1 = kv := by
  refine ⟨fun hl => ?_, fun hl hgt => ?_, fun hl hle => ?_, ?_⟩
  · unfold ShardKV.ShardMigrationHandler
    simp [hl]
  · unfold ShardKV.ShardMigrationHandler
    simp [hl, hgt]
  · have hng : ¬ (args.ConfigNum > kv.config.Num) := not_lt.mpr hle
    unfold ShardKV.ShardMigrationHandler
    rw [if_neg (not_not_intro hl), if_neg hng]
    dsimp only
    refine ⟨rfl, rfl, rfl, fun key => ?_, fun clientId => ?_⟩
    · unfold ShardKV.deepCopyShardDataAndCacheMap ShardKV.db
      cases kv.stateMachine.KVData.lookup args.Shard with
      | none => rfl
      | some shardData => exact copy_lookup shardData.DB key
    · unfold ShardKV.deepCopyShardDataAndCacheMap
      exact copy_lookup kv.cacheMap clientId
  · unfold ShardKV.ShardMigrationHandler
    split_ifs <;> rfl

theorem migration_handler_reply_witness :
    (sampleKV.ShardMigrationHandler sampleRaft { Shard := 3, ConfigNum := 0 }
      ShardMigrationReply.zero).2.Err = OK ∧
    (sampleKV.ShardMigrationHandler sampleRaft { Shard := 3, ConfigNum := 0 }
      ShardMigrationReply.zero).2.Data.lookup "s" = some "hello" ∧
    (sampleKV.ShardMigrationHandler sampleRaft { Shard := 3, ConfigNum := 0 }
      ShardMigrationReply.zero).2.CacheMap.lookup 1 = some 7 :=
  have h := (migration_handler_reply sampleKV sampleRaft { Shard := 3, ConfigNum := 0 }
    ShardMigrationReply.zero).2.2.1 rfl (by decide)
  ⟨h.1, (h.2.2.2.1 "s").trans (by decide), (h.2.2.2.2 1).trans (by decide)⟩

/-! ## Progress of the apply loop -/

section waitTable

variable (kv : ShardKV) (rf : Raft) (msg : ApplyMsg)

/-- What `deliver` does: on a leader in the message's term the reply goes into
the channel of the message's index, made when missing, if that channel holds
no reply, and the send blocks with nothing changed if it holds one; on any
other server nothing is sent. -/
theorem deliver_spec (commandReply : CommandReply) :
    kv.deliver rf msg commandReply =
      if rf.isLeader = true ∧ rf.currentTerm = msg.CommandTerm then
        if (kv.waitChMap.lookup msg.CommandIndex).getD [] = [] then
          ({ kv with waitChMap := kv.waitChMap.insert msg.CommandIndex [commandReply] }, false)
        else (kv, true)
      else (kv, false) := by
  unfold ShardKV.deliver ShardKV.getWaitCh
  by_cases hl : rf.isLeader = true ∧ rf.currentTerm = msg.CommandTerm
  · rw [if_pos hl, if_pos hl]
    cases h : kv.waitChMap.lookup msg.CommandIndex with
    | none => simp
    | some ch =>
      cases ch with
      | nil => simp
      | cons a l => simp
  · rw [if_neg hl, if_neg hl]

/-- Whether an iteration is blocked is decided by the dispatch. -/
theorem applierCommand_fresh_blocked (hidx : kv.lastApplied < msg.CommandIndex) :
    (kv.applierCommand rf msg).blocked
      = (ShardKV.dispatch { kv with lastApplied := msg.CommandIndex } rf msg).2.2 := by
  rw [applierCommand_fresh kv rf msg hidx]
  split_ifs with h
  · exact h.symm
  · exact (Bool.eq_false_iff.mpr h).symm

/-- An iteration on a command message is blocked exactly when the message is
applied, carries a client `Op`, this server is leader in the message's term,
and the wait channel of the message's index holds a reply. -/
theorem applierCommand_blocked_iff :
    (kv.applierCommand rf msg).blocked = true ↔
      kv.lastApplied < msg.CommandIndex ∧ (∃ command, msg.Command = .op command) ∧
      (rf.isLeader = true ∧ rf.currentTerm = msg.CommandTerm) ∧
      (kv.waitChMap.lookup msg.CommandIndex).getD [] ≠ [] := by
  by_cases hidx : msg.CommandIndex ≤ kv.lastApplied
  · rw [applierCommand_stale kv rf msg hidx]
    exact ⟨fun h => Bool.noConfusion h, fun h => absurd h.1 (not_lt.mpr hidx)⟩
  · have hlt : kv.lastApplied < msg.CommandIndex := not_le.mp hidx
    rw [applierCommand_fresh_blocked kv rf msg hlt]
    cases hcmd : msg.Command with
    | op command =>
      have hw : (ShardKV.applyOp { kv with lastApplied := msg.CommandIndex } command).1.waitChMap
          = kv.waitChMap :=
        (applyOp_rest { kv with lastApplied := msg.CommandIndex } command).2.2.2.2.1
      rw [dispatch_op _ rf msg command hcmd, deliver_spec, hw]
      by_cases hl : rf.isLeader = true ∧ rf.currentTerm = msg.CommandTerm
      · rw [if_pos hl]
        by_cases hfull : (kv.waitChMap.lookup msg.CommandIndex).getD [] = []
        · rw [if_pos hfull]
          exact ⟨fun h => Bool.noConfusion h, fun h => absurd hfull h.2.2.2⟩
        · rw [if_neg hfull]
          exact ⟨fun _ => ⟨hlt, ⟨command, rfl⟩, hl, hfull⟩, fun _ => rfl⟩
      · rw [if_neg hl]
        exact ⟨fun h => Bool.noConfusion h, fun h => absurd h.2.2.1 hl⟩
    | shardOp command =>
      rw [dispatch_shardOp _ rf msg command hcmd]
      exact ⟨fun h => Bool.noConfusion h, fun h => by
        obtain ⟨_, ⟨c, hc⟩, _⟩ := h
        exact Command.noConfusion hc⟩
    | other =>
      rw [dispatch_other _ rf msg hcmd]
      exact ⟨fun h => Bool.noConfusion h, fun h => by
        obtain ⟨_, ⟨c, hc⟩, _⟩ := h
        exact Command.noConfusion hc⟩

/-- A blocked iteration has sent no snapshot. -/
theorem applierCommand_blocked_snapshot (hb : (kv.applierCommand rf msg).blocked = true) :
    (kv.applierCommand rf msg).snapshot = none := by
  have hlt := ((applierCommand_blocked_iff kv rf msg).mp hb).1
  rw [applierCommand_fresh_blocked kv rf msg hlt] at hb
  rw [applierCommand_fresh kv rf msg hlt, if_pos hb]

end waitTable

section kvraftProgress

variable (kv : kvraft.KVServer) (rf : Raft) (msg : kvraft.ApplyMsg)

theorem kvraft_applyOp_lastApplied (command : kvraft.Op) :
    (kv.applyOp command).1.lastApplied = kv.lastApplied := by
  unfold kvraft.KVServer.applyOp kvraft.KVServer.applyToStateMachine
  dsimp only
  split_ifs <;> rfl

theorem kvraft_deliver_lastApplied (commandReply : kvraft.CommandReply) :
    (kv.deliver rf msg commandReply).1.lastApplied = kv.lastApplied := by
  unfold kvraft.KVServer.deliver kvraft.KVServer.getWaitCh
  cases kv.waitChMap.lookup msg.CommandIndex <;> dsimp only <;> split_ifs <;> rfl

theorem kvraft_trigger_lastApplied : (kv.trigger rf).1.lastApplied = kv.lastApplied := by
  unfold kvraft.KVServer.trigger kvraft.KVServer.sendSnapshot
  split_ifs <;> rfl

end kvraftProgress

/-- C17: a command message whose index is at or below `lastApplied` is
discarded: the whole server state is returned as it was (state machine,
duplicate table, `config`, `pullGid`, `pullGroups`, `lastApplied`,
`lastSnapshot` and the wait table), no reply is computed, no snapshot is sent
and nothing blocks; a command message above `lastApplied` sets `lastApplied`
to its index. The kvraft apply loop does the same. -/
theorem stale_message_is_discarded (kv : ShardKV) (rf : Raft) (msg : ApplyMsg)
    (kvr : kvraft.KVServer) (msgr : kvraft.ApplyMsg) :
    (msg.CommandIndex ≤ kv.lastApplied →
      kv.applierCommand rf msg = { kv := kv, commandReply := none, snapshot := none, blocked := false }) ∧
    (kv.lastApplied < msg.CommandIndex →
      (kv.applierCommand rf msg).kv.lastApplied = msg.CommandIndex) ∧
    (msgr.CommandIndex ≤ kvr.lastApplied →
      kvr.applierCommand rf msgr
        = some { kv := kvr, commandReply := none, snapshot := none, blocked := false }) ∧
    (kvr.lastApplied < msgr.CommandIndex → ∀ command, msgr.Command = some command →
      ∃ applied, kvr.applierCommand rf msgr = some applied ∧
        applied.kv.lastApplied = msgr.CommandIndex) := by
  refine ⟨applierCommand_stale kv rf msg, applierCommand_lastApplied kv rf msg,
    fun hstale => ?_, fun hfresh command hcmd => ?_⟩
  · unfold kvraft.KVServer.applierCommand
    rw [if_pos hstale]
  · unfold kvraft.KVServer.applierCommand
    rw [if_neg (not_le.mpr hfresh), hcmd]
    dsimp only
    split_ifs
    · refine ⟨_, rfl, ?_⟩
      dsimp only
      rw [kvraft_deliver_lastApplied, kvraft_applyOp_lastApplied]
    · refine ⟨_, rfl, ?_⟩
      dsimp only
      rw [kvraft_trigger_lastApplied, kvraft_deliver_lastApplied, kvraft_applyOp_lastApplied]

theorem stale_message_is_discarded_witness :
    sampleKV.applierCommand sampleRaft (ApplyMsg.ofOp 0 1 (sampleAppend 2 1))
      = { kv := sampleKV, commandReply := none, snapshot := none, blocked := false } ∧
    (sampleKV.applierCommand sampleRaft
      (ApplyMsg.ofOp 4 1 (sampleAppend 2 1))).kv.lastApplied = 4 :=
  have h := stale_message_is_discarded sampleKV sampleRaft
    (ApplyMsg.ofOp 0 1 (sampleAppend 2 1))
    { me := 0, maxraftstate := -1, stateMachine := { KVData := ∅ }, waitChMap := ∅
      cacheMap := ∅, lastApplied := 0, lastSnapshot := 0 }
    { CommandValid := true, Command := none, CommandIndex := 0, CommandTerm := 0
      SnapshotValid := false, Snapshot := [], SnapshotTerm := 0, SnapshotIndex := 0 }
  ⟨h.1 (by decide), by decide⟩

/-- C18, as stated, fails: the sample server with `lastApplied = 5` receives a
snapshot message with index 3 that Raft agrees to install; afterwards
`lastApplied = 3`. -/
theorem lastApplied_counterexample :
    (ShardKV.applier natGob { sampleKV with lastApplied := 5 } sampleRaft
      (ApplyMsg.ofSnapshot 3 1 [])).kv.lastApplied = 3 ∧
    ¬ ((5 : Int) ≤ (ShardKV.applier natGob { sampleKV with lastApplied := 5 } sampleRaft
      (ApplyMsg.ofSnapshot 3 1 [])).kv.lastApplied) := by
  decide

/-- C18, amended: `lastApplied` does not decrease on a command message, nor on
a snapshot message that Raft refuses (the state is then unchanged); on a
snapshot message that Raft accepts it becomes the snapshot index, so it does
not decrease on a snapshot message whose index is at least `lastApplied`. -/
theorem lastApplied_step (gob : Labgob) (kv : ShardKV) (rf : Raft) (msg : ApplyMsg) :
    (msg.SnapshotValid = false → kv.lastApplied ≤ (kv.applier gob rf msg).kv.lastApplied) ∧
    (msg.SnapshotValid = true → rf.CondInstallSnapshot = false →
      (kv.applier gob rf msg).kv = kv) ∧
    (msg.SnapshotValid = true → rf.CondInstallSnapshot = true →
      (kv.applier gob rf msg).kv.lastApplied = msg.SnapshotIndex) ∧
    (msg.SnapshotValid = true → kv.lastApplied ≤ msg.SnapshotIndex →
      kv.lastApplied ≤ (kv.applier gob rf msg).kv.lastApplied) := by
  refine ⟨fun hs => ?_, fun hs hc => ?_, fun hs hc => ?_, fun hs hle => ?_⟩
  · unfold ShardKV.applier
    simp only [hs, Bool.false_eq_true, if_false]
    split_ifs
    · by_cases hidx : msg.CommandIndex ≤ kv.lastApplied
      · rw [applierCommand_stale kv rf msg hidx]
      · rw [applierCommand_lastApplied kv rf msg (not_le.mp hidx)]
        exact le_of_lt (not_le.mp hidx)
    · exact le_refl _
  · unfold ShardKV.applier
    simp [hs, hc]
  · unfold ShardKV.applier
    simp [hs, hc]
  · unfold ShardKV.applier
    rw [if_pos hs]
    split_ifs
    · exact hle
    · exact le_refl _

theorem decodeHead_encode {T : Type} [Encodable T] (v : T) (rest : List Nat) :
    decodeHead ([Encodable.encode v] ++ rest) = some (v, rest) := by
  simp [decodeHead, Encodable.encodek]

theorem natGob_lawful : natGob.Lawful where
  stateMachine := decodeHead_encode
  mapIntInt := decodeHead_encode
  mapIntStrings := decodeHead_encode
  config := decodeHead_encode
  nonempty := fun _ => List.cons_ne_nil _ _

/-- Restoring from the bytes encoded for five fields assigns those five
fields and nothing else. -/
theorem setSnapshot_encode (gob : Labgob) (hgob : gob.Lawful) (kv : ShardKV)
    (fields : SnapshotFields) :
    kv.setSnapshot gob (gob.encode fields) =
      { kv with stateMachine := fields.stateMachine
                cacheMap := fields.cacheMap
                pullGid := fields.pullGid
                pullGroups := fields.pullGroups
                config := fields.config } := by
  have hlen : ¬ ((gob.encode fields).length < 1) := by
    have hne : gob.encode fields ≠ [] := by
      unfold Labgob.encode
      intro h
      exact hgob.nonempty _ (List.append_eq_nil.mp h).1
    cases hcases : gob.encode fields with
    | nil => exact absurd hcases hne
    | cons a l => simp
  unfold ShardKV.setSnapshot
  rw [if_neg hlen]
  unfold Labgob.encode
  rw [hgob.stateMachine]
  dsimp only
  rw [hgob.mapIntInt]
  dsimp only
  rw [hgob.mapIntInt]
  dsimp only
  rw [hgob.mapIntStrings]
  dsimp only
  have hc := hgob.config fields.config []
  rw [List.append_nil] at hc
  rw [hc]

/-- C20: snapshot round-trip. With a codec that round-trips each value, a
server that restores (`setSnapshot`) from the bytes `sendSnapshot` encodes for
a state `S` ends with the state machine, duplicate table, `pullGid`,
`pullGroups` and `config` of `S`; `sendSnapshot` hands the encoder exactly
these five fields, in the order `setSnapshot` decodes them. -/
theorem snapshot_round_trip (gob : Labgob) (hgob : gob.Lawful) (S kv : ShardKV)
    (index : Int) :
    (kv.setSnapshot gob (gob.encode (S.sendSnapshot index).2.2)).stateMachine
      = S.stateMachine ∧
    (kv.setSnapshot gob (gob.encode (S.sendSnapshot index).2.2)).cacheMap = S.cacheMap ∧
    (kv.setSnapshot gob (gob.encode (S.sendSnapshot index).2.2)).pullGid = S.pullGid ∧
    (kv.setSnapshot gob (gob.encode (S.sendSnapshot index).2.2)).pullGroups = S.pullGroups ∧
    (kv.setSnapshot gob (gob.encode (S.sendSnapshot index).2.2)).config = S.config ∧
    (S.sendSnapshot index).2 =
      (index, { stateMachine := S.stateMachine, cacheMap := S.cacheMap, pullGid := S.pullGid
                pullGroups := S.pullGroups, config := S.config }) := by
  rw [setSnapshot_encode gob hgob]
  exact ⟨rfl, rfl, rfl, rfl, rfl, rfl⟩

theorem snapshot_round_trip_witness :
    ((ShardKV.start 0 (-1) 100).setSnapshot natGob
      (natGob.encode (sampleKV.sendSnapshot 7).2.2)).stateMachine = sampleKV.stateMachine ∧
    ((ShardKV.start 0 (-1) 100).setSnapshot natGob
      (natGob.encode (sampleKV.sendSnapshot 7).2.2)).cacheMap = sampleKV.cacheMap :=
  have h := snapshot_round_trip natGob natGob_lawful sampleKV (ShardKV.start 0 (-1) 100) 7
  ⟨h.1, h.2.1⟩

/-- C21: restore is atomic on failure. `setSnapshot` returns the state it was
given when the snapshot is empty and when any of the five decodes fails; in
every case it either leaves the state as it was or assigns all five of
`stateMachine`, the duplicate table, `pullGid`, `pullGroups` and `config`, so
no field is restored alone. -/
theorem setSnapshot_atomic (gob : Labgob) (kv : ShardKV) (snapshot : List Nat) :
    (snapshot = [] → kv.setSnapshot gob snapshot = kv) ∧
    (gob.decStateMachine snapshot = none → kv.setSnapshot gob snapshot = kv) ∧
    (∀ stateMachine r1, gob.decStateMachine snapshot = some (stateMachine, r1) →
      (gob.decMapIntInt r1 = none → kv.setSnapshot gob snapshot = kv) ∧
      ∀ cacheMap r2, gob.decMapIntInt r1 = some (cacheMap, r2) →
        (gob.decMapIntInt r2 = none → kv.setSnapshot gob snapshot = kv) ∧
        ∀ pullGid r3, gob.decMapIntInt r2 = some (pullGid, r3) →
          (gob.decMapIntStrings r3 = none → kv.setSnapshot gob snapshot = kv) ∧
          ∀ pullGroups r4, gob.decMapIntStrings r3 = some (pullGroups, r4) →
            (gob.decConfig r4 = none → kv.setSnapshot gob snapshot = kv)) ∧
    (kv.setSnapshot gob snapshot = kv ∨
      ∃ fields : SnapshotFields, kv.setSnapshot gob snapshot =
        { kv with stateMachine := fields.stateMachine
                  cacheMap := fields.cacheMap
                  pullGid := fields.pullGid
                  pullGroups := fields.pullGroups
                  config := fields.config }) := by
  refine ⟨fun h => ?_, fun h => ?_, fun stateMachine r1 h1 => ⟨fun h => ?_,
    fun cacheMap r2 h2 => ⟨fun h => ?_, fun pullGid r3 h3 => ⟨fun h => ?_,
      fun pullGroups r4 h4 h => ?_⟩⟩⟩, ?_⟩
  · unfold ShardKV.setSnapshot
    rw [h]
    rfl
  · unfold ShardKV.setSnapshot
    rw [h]
    split_ifs <;> rfl
  · unfold ShardKV.setSnapshot
    rw [h1]
    dsimp only
    rw [h]
    split_ifs <;> rfl
  · unfold ShardKV.setSnapshot
    rw [h1]
    dsimp only
    rw [h2]
    dsimp only
    rw [h]
    split_ifs <;> rfl
  · unfold ShardKV.setSnapshot
    rw [h1]
    dsimp only
    rw [h2]
    dsimp only
    rw [h3]
    dsimp only
    rw [h]
    split_ifs <;> rfl
  · unfold ShardKV.setSnapshot
    rw [h1]
    dsimp only
    rw [h2]
    dsimp only
    rw [h3]
    dsimp only
    rw [h4]
    dsimp only
    rw [h]
    split_ifs <;> rfl
  · unfold ShardKV.setSnapshot
    split_ifs
    · exact Or.inl rfl
    · cases h1 : gob.decStateMachine snapshot with
      | none => exact Or.inl rfl
      | some p1 =>
        obtain ⟨stateMachine, r1⟩ := p1
        dsimp only
        cases h2 : gob.decMapIntInt r1 with
        | none => exact Or.inl rfl
        | some p2 =>
          obtain ⟨cacheMap, r2⟩ := p2
          dsimp only
          cases h3 : gob.decMapIntInt r2 with
          | none => exact Or.inl rfl
          | some p3 =>
            obtain ⟨pullGid, r3⟩ := p3
            dsimp only
            cases h4 : gob.decMapIntStrings r3 with
            | none => exact Or.inl rfl
            | some p4 =>
              obtain ⟨pullGroups, r4⟩ := p4
              dsimp only
              cases h5 : gob.decConfig r4 with
              | none => exact Or.inl rfl
              | some p5 =>
                exact Or.inr ⟨{ stateMachine := stateMachine, cacheMap := cacheMap
                                pullGid := pullGid, pullGroups := pullGroups
                                config := p5.1 }, rfl⟩

theorem setSnapshot_atomic_witness :
    sampleKV.setSnapshot natGob [] = sampleKV ∧
    sampleKV.setSnapshot natGob
      (natGob.encStateMachine { KVData := ∅ } ++ []) = sampleKV :=
  have h := setSnapshot_atomic natGob sampleKV
    (natGob.encStateMachine { KVData := ∅ } ++ [])
  ⟨(setSnapshot_atomic natGob sampleKV []).1 rfl,
   (h.2.2.1 { KVData := ∅ } [] (natGob_lawful.stateMachine _ _)).1 rfl⟩

section snapshotTrigger

variable (kv : ShardKV) (rf : Raft) (msg : ApplyMsg)

theorem deliver_snapshotFields (commandReply : CommandReply) :
    (kv.deliver rf msg commandReply).1.maxraftstate = kv.maxraftstate ∧
    (kv.deliver rf msg commandReply).1.lastSnapshot = kv.lastSnapshot := by
  unfold ShardKV.deliver ShardKV.getWaitCh
  cases kv.waitChMap.lookup msg.CommandIndex <;> dsimp only <;> split_ifs <;> exact ⟨rfl, rfl⟩

theorem applyShardOp_snapshotFields (command : ShardOp) :
    (kv.applyShardOp command).maxraftstate = kv.maxraftstate ∧
    (kv.applyShardOp command).lastSnapshot = kv.lastSnapshot := by
  unfold ShardKV.applyShardOp ShardKV.updateShardState ShardKV.updateShardDBAndCacheMap
  dsimp only
  split_ifs <;> exact ⟨rfl, rfl⟩

/-- The dispatch leaves `maxraftstate`, `lastApplied` and `lastSnapshot` as
they were. -/
theorem dispatch_snapshotFields :
    (kv.dispatch rf msg).1.maxraftstate = kv.maxraftstate ∧
    (kv.dispatch rf msg).1.lastApplied = kv.lastApplied ∧
    (kv.dispatch rf msg).1.lastSnapshot = kv.lastSnapshot := by
  unfold ShardKV.dispatch
  cases msg.Command with
  | op command =>
    dsimp only
    obtain ⟨_, _, _, h4, _, _, _, h8, h9⟩ := applyOp_rest kv command
    rw [(deliver_snapshotFields _ rf msg _).1, (deliver_snapshotFields _ rf msg _).2,
      deliver_lastApplied, h4, h8, h9]
    exact ⟨rfl, rfl, rfl⟩
  | shardOp command =>
    dsimp only
    rw [(applyShardOp_snapshotFields kv command).1, (applyShardOp_snapshotFields kv command).2,
      applyShardOp_lastApplied]
    exact ⟨rfl, rfl, rfl⟩
  | other => exact ⟨rfl, rfl, rfl⟩

/-- The snapshot trigger: when and what it sends, and what it does to
`lastSnapshot`. -/
theorem trigger_spec :
    ((kv.trigger rf).2.isSome = true ↔
      kv.maxraftstate ≠ -1 ∧ rf.RaftStateSize > kv.maxraftstate ∧
        kv.lastApplied > kv.lastSnapshot) ∧
    (∀ sent, (kv.trigger rf).2 = some sent →
      sent = (kv.lastApplied,
        { stateMachine := kv.stateMachine, cacheMap := kv.cacheMap, pullGid := kv.pullGid
          pullGroups := kv.pullGroups, config := kv.config }) ∧
      (kv.trigger rf).1.lastSnapshot = kv.lastApplied) ∧
    ((kv.trigger rf).2 = none → (kv.trigger rf).1.lastSnapshot = kv.lastSnapshot) := by
  unfold ShardKV.trigger ShardKV.isNeedSnapshot ShardKV.sendSnapshot
  by_cases h1 : kv.maxraftstate ≠ -1 ∧ rf.RaftStateSize > kv.maxraftstate
  · by_cases h2 : kv.lastApplied > kv.lastSnapshot
    · simp [h1, h2]
    · simp [h1, h2]
  · simp [h1]
    intro h3 h4
    exact absurd ⟨h3, h4⟩ h1

end snapshotTrigger

/-- C22, as stated, fails: a server with `maxraftstate = 10` and
`lastSnapshot = 0` whose wait channel of index 2 holds a reply and whose
`lastApplied` is 1 applies a Get at index 2 as leader in the message's term
while Raft's state size is 11. The size limit is set, the state size is above
it and `lastApplied`, now 2, is above `lastSnapshot`, yet no snapshot is sent:
the iteration is blocked in the send of the reply and does not reach the
trigger. -/
theorem blocked_trigger_counterexample :
    (sampleRewound 10).maxraftstate ≠ -1 ∧
    ({ sampleRaft with RaftStateSize := 11 } : Raft).RaftStateSize
      > (sampleRewound 10).maxraftstate ∧
    (sampleRewound 10).lastApplied < (ApplyMsg.ofOp 2 1 (sampleGet "s" 2 2)).CommandIndex ∧
    ((sampleRewound 10).applier natGob { sampleRaft with RaftStateSize := 11 }
      (ApplyMsg.ofOp 2 1 (sampleGet "s" 2 2))).kv.lastApplied
      > ((sampleRewound 10).applier natGob { sampleRaft with RaftStateSize := 11 }
        (ApplyMsg.ofOp 2 1 (sampleGet "s" 2 2))).kv.lastSnapshot ∧
    ((sampleRewound 10).applier natGob { sampleRaft with RaftStateSize := 11 }
      (ApplyMsg.ofOp 2 1 (sampleGet "s" 2 2))).snapshot = none ∧
    ((sampleRewound 10).applier natGob { sampleRaft with RaftStateSize := 11 }
      (ApplyMsg.ofOp 2 1 (sampleGet "s" 2 2))).blocked = true := by
  decide

/-- C22, amended: an iteration on an applied command message is blocked, in
the send of the reply, exactly when the message carries a client Op, Raft
reports leader in the message's term, and the wait channel of the message's
index holds a reply. The apply loop sends a snapshot to Raft if and only if
the iteration is not blocked, `maxraftstate != -1`, Raft's state size is above
`maxraftstate`, and `lastApplied`, which is now the message index, is above
`lastSnapshot`. When it does, the snapshot index is `lastApplied`, the fields
encoded are those of the state just reached, and `lastSnapshot` becomes
`lastApplied`; when it does not, `lastSnapshot` is unchanged. -/
theorem snapshot_trigger (kv : ShardKV) (rf : Raft) (msg : ApplyMsg)
    (hidx : kv.lastApplied < msg.CommandIndex) :
    ((kv.applierCommand rf msg).blocked = true ↔
      (∃ command, msg.Command = .op command) ∧
      (rf.isLeader = true ∧ rf.currentTerm = msg.CommandTerm) ∧
      (kv.waitChMap.lookup msg.CommandIndex).getD [] ≠ []) ∧
    ((kv.applierCommand rf msg).snapshot.isSome = true ↔
      (kv.applierCommand rf msg).blocked = false ∧
      kv.maxraftstate ≠ -1 ∧ rf.RaftStateSize > kv.maxraftstate ∧
        msg.CommandIndex > kv.lastSnapshot) ∧
    (kv.applierCommand rf msg).kv.lastApplied = msg.CommandIndex ∧
    (∀ index fields, (kv.applierCommand rf msg).snapshot = some (index, fields) →
      index = (kv.applierCommand rf msg).kv.lastApplied ∧
      fields =
        { stateMachine := (kv.applierCommand rf msg).kv.stateMachine
          cacheMap := (kv.applierCommand rf msg).kv.cacheMap
          pullGid := (kv.applierCommand rf msg).kv.pullGid
          pullGroups := (kv.applierCommand rf msg).kv.pullGroups
          config := (kv.applierCommand rf msg).kv.config } ∧
      (kv.applierCommand rf msg).kv.lastSnapshot
        = (kv.applierCommand rf msg).kv.lastApplied) ∧
    ((kv.applierCommand rf msg).snapshot = none →
      (kv.applierCommand rf msg).kv.lastSnapshot = kv.lastSnapshot) := by
  have hl := applierCommand_lastApplied kv rf msg hidx
  have hiff := applierCommand_blocked_iff kv rf msg
  obtain ⟨d1, d2, d3⟩ := dispatch_snapshotFields { kv with lastApplied := msg.CommandIndex } rf msg
  obtain ⟨t1, t2, t3⟩ :=
    trigger_spec (ShardKV.dispatch { kv with lastApplied := msg.CommandIndex } rf msg).1 rf
  rw [d1, d2, d3] at t1
  have hfb := applierCommand_fresh_blocked kv rf msg hidx
  refine ⟨⟨fun hb => (hiff.mp hb).2, fun h => hiff.mpr ⟨hidx, h⟩⟩, ?_, hl, ?_, ?_⟩
  · cases hb : (kv.applierCommand rf msg).blocked with
    | true =>
      rw [applierCommand_blocked_snapshot kv rf msg hb]
      exact ⟨fun h => Bool.noConfusion h, fun h => Bool.noConfusion h.1⟩
    | false =>
      have hd : ¬ ((ShardKV.dispatch { kv with lastApplied := msg.CommandIndex } rf msg).2.2
          = true) := by
        rw [← hfb, hb]
        exact Bool.false_ne_true
      have hs : (kv.applierCommand rf msg).snapshot
          = ((ShardKV.dispatch { kv with lastApplied := msg.CommandIndex } rf msg).1.trigger
            rf).2 := by
        rw [applierCommand_fresh kv rf msg hidx, if_neg hd]
      rw [hs]
      exact ⟨fun h => ⟨rfl, t1.mp h⟩, fun h => t1.mpr h.2⟩
  · intro index fields hsent
    have hnb : ¬ ((ShardKV.dispatch { kv with lastApplied := msg.CommandIndex } rf msg).2.2
        = true) := by
      intro hd
      rw [applierCommand_fresh kv rf msg hidx, if_pos hd] at hsent
      exact Option.noConfusion hsent
    have hk : (kv.applierCommand rf msg).kv
        = ((ShardKV.dispatch { kv with lastApplied := msg.CommandIndex } rf msg).1.trigger
          rf).1 := by
      rw [applierCommand_fresh kv rf msg hidx, if_neg hnb]
    have hs : (kv.applierCommand rf msg).snapshot
        = ((ShardKV.dispatch { kv with lastApplied := msg.CommandIndex } rf msg).1.trigger
          rf).2 := by
      rw [applierCommand_fresh kv rf msg hidx, if_neg hnb]
    rw [hs] at hsent
    obtain ⟨e1, e2⟩ := t2 _ hsent
    rw [d2] at e1 e2
    have hfields := (Prod.mk.inj e1).2
    have hindex := (Prod.mk.inj e1).1
    refine ⟨by rw [hl]; exact hindex, ?_, by rw [hl, hk]; exact e2⟩
    rw [hfields, hk, trigger_stateMachine, trigger_cacheMap, trigger_config,
      (trigger_pull _ rf).1, (trigger_pull _ rf).2.1]
  · intro hnone
    by_cases hd : (ShardKV.dispatch { kv with lastApplied := msg.CommandIndex } rf msg).2.2
        = true
    · have hk : (kv.applierCommand rf msg).kv
          = (ShardKV.dispatch { kv with lastApplied := msg.CommandIndex } rf msg).1 := by
        rw [applierCommand_fresh kv rf msg hidx, if_pos hd]
      rw [hk, d3]
    · have hk : (kv.applierCommand rf msg).kv
          = ((ShardKV.dispatch { kv with lastApplied := msg.CommandIndex } rf msg).1.trigger
            rf).1 := by
        rw [applierCommand_fresh kv rf msg hidx, if_neg hd]
      have hs : (kv.applierCommand rf msg).snapshot
          = ((ShardKV.dispatch { kv with lastApplied := msg.CommandIndex } rf msg).1.trigger
            rf).2 := by
        rw [applierCommand_fresh kv rf msg hidx, if_neg hd]
      rw [hs] at hnone
      rw [hk, t3 hnone, d3]

theorem snapshot_trigger_witness :
    (ShardKV.applierCommand { sampleKV with maxraftstate := 10 }
      { sampleRaft with RaftStateSize := 11 } (ApplyMsg.ofOp 4 1 (sampleAppend 2 1))).snapshot.isSome
      = true ∧
    (ShardKV.applierCommand { sampleKV with maxraftstate := 10 }
      { sampleRaft with RaftStateSize := 11 }
      (ApplyMsg.ofOp 4 1 (sampleAppend 2 1))).kv.lastSnapshot = 4 :=
  have h := snapshot_trigger { sampleKV with maxraftstate := 10 }
    { sampleRaft with RaftStateSize := 11 } (ApplyMsg.ofOp 4 1 (sampleAppend 2 1)) (by decide)
  ⟨h.2.1.mpr (by decide), by decide⟩

/-- C24: when the configuration the shard controller returned is not numbered
`config.Num + 1`, `checkConfig` hands nothing to Raft, neither `UpdateConfig`
nor any `UpdateShardState`, and returns the server state it was given. The
code compares with Go's `int` sum, which is `config.Num + 1` for every
`config.Num` below the largest `int`. -/
theorem checkConfig_other_number (kv : ShardKV) (newConfig : Config) :
    (newConfig.Num ≠ addInt kv.config.Num 1 → kv.checkConfig newConfig = (kv, [])) ∧
    (-9223372036854775808 ≤ kv.config.Num → kv.config.Num < 9223372036854775807 →
      newConfig.Num ≠ kv.config.Num + 1 → kv.checkConfig newConfig = (kv, [])) := by
  have key : newConfig.Num ≠ addInt kv.config.Num 1 → kv.checkConfig newConfig = (kv, []) := by
    intro hnum
    unfold ShardKV.checkConfig
    dsimp only
    rw [if_pos hnum]
  refine ⟨key, fun hlo hhi hnum => key ?_⟩
  have hadd : addInt kv.config.Num 1 = kv.config.Num + 1 := by
    unfold addInt
    omega
  rw [hadd]
  exact hnum

theorem checkConfig_other_number_witness :
    sampleKV.checkConfig (sampleUpdateConfig 5).NewConfig = (sampleKV, []) :=
  (checkConfig_other_number sampleKV (sampleUpdateConfig 5).NewConfig).2
    (by decide) (by decide) (by decide)

/-! ## The RPC entry and the migration puller -/

/-- C23: `PutAppend` on a key whose shard this group owns. `hasCache` holds
exactly when the client has a duplicate-table entry at or above the command
id. When it holds the handler replies `OK` at once and hands nothing to Raft;
when it does not, the handler hands Raft one `Op` carrying the request's key,
value, op type, shard, client id and command id. So nothing is proposed if
and only if the request is a cached duplicate. The server state is returned
as given. -/
theorem putAppend_entry (key2shard : String → Nat) (kv : ShardKV) (start : Started)
    (args : PutAppendArgs) (reply : PutAppendReply)
    (hown : (kv.checkKey key2shard args.Key).2.2 = true) :
    (kv.hasCache args.ClientId args.CommandId = true ↔
      ∃ item, kv.cacheMap.lookup args.ClientId = some item ∧ item ≥ args.CommandId) ∧
    (kv.hasCache args.ClientId args.CommandId = true →
      kv.PutAppend key2shard start args reply
        = (kv, { proposed := [], reply := { Err := OK }, waiting := none })) ∧
    (kv.hasCache args.ClientId args.CommandId = false →
      (kv.PutAppend key2shard start args reply).2.proposed
        = [{ Key := args.Key, Value := args.Value, Shard := key2shard args.Key
             Type_ := args.Op, ClientId := args.ClientId, CommandId := args.CommandId }]) ∧
    ((kv.PutAppend key2shard start args reply).2.proposed = [] ↔
      kv.hasCache args.ClientId args.CommandId = true) ∧
    (kv.PutAppend key2shard start args reply).1 = kv := by
  have hprop : kv.hasCache args.ClientId args.CommandId = false →
      (kv.PutAppend key2shard start args reply).2.proposed
        = [{ Key := args.Key, Value := args.Value, Shard := key2shard args.Key
             Type_ := args.Op, ClientId := args.ClientId, CommandId := args.CommandId }] := by
    intro hc
    unfold ShardKV.PutAppend
    dsimp only
    rw [if_neg (not_not_intro hown), if_neg (by rw [hc]; decide)]
    split_ifs <;> rfl
  have hdup : kv.hasCache args.ClientId args.CommandId = true →
      kv.PutAppend key2shard start args reply
        = (kv, { proposed := [], reply := { Err := OK }, waiting := none }) := by
    intro hc
    unfold ShardKV.PutAppend
    dsimp only
    rw [if_neg (not_not_intro hown), if_pos hc]
  refine ⟨hasCache_iff kv _ _, hdup, hprop, ⟨fun hnil => ?_, fun hc => ?_⟩, ?_⟩
  · cases hc : kv.hasCache args.ClientId args.CommandId with
    | true => rfl
    | false =>
      rw [hprop hc] at hnil
      exact absurd hnil (List.cons_ne_nil _ _)
  · rw [hdup hc]
  · unfold ShardKV.PutAppend
    dsimp only
    split_ifs <;> rfl

theorem putAppend_entry_witness :
    ((ShardKV.applierCommand sampleKV sampleRaft
        (ApplyMsg.ofShardOp 1 1 (sampleUpdateConfig 1))).kv.PutAppend sampleKey2shard
      { index := 2, term := 1, isLeader := true }
      { Key := "s", Value := "hello", Op := "Append", ClientId := 1, CommandId := 7 }
      { Err := "" }).2 = { proposed := [], reply := { Err := OK }, waiting := none } ∧
    ((ShardKV.applierCommand sampleKV sampleRaft
        (ApplyMsg.ofShardOp 1 1 (sampleUpdateConfig 1))).kv.PutAppend sampleKey2shard
      { index := 2, term := 1, isLeader := true }
      { Key := "s", Value := "hello", Op := "Append", ClientId := 1, CommandId := 8 }
      { Err := "" }).2.proposed
      = [{ Key := "s", Value := "hello", Shard := 5, Type_ := APPEND
           ClientId := 1, CommandId := 8 }] :=
  ⟨congrArg Prod.snd ((putAppend_entry sampleKey2shard
      (ShardKV.applierCommand sampleKV sampleRaft
        (ApplyMsg.ofShardOp 1 1 (sampleUpdateConfig 1))).kv
      { index := 2, term := 1, isLeader := true }
      { Key := "s", Value := "hello", Op := "Append", ClientId := 1, CommandId := 7 }
      { Err := "" } (by decide)).2.1 (by decide)),
   (putAppend_entry sampleKey2shard
      (ShardKV.applierCommand sampleKV sampleRaft
        (ApplyMsg.ofShardOp 1 1 (sampleUpdateConfig 1))).kv
      { index := 2, term := 1, isLeader := true }
      { Key := "s", Value := "hello", Op := "Append", ClientId := 1, CommandId := 8 }
      { Err := "" } (by decide)).2.2.1 (by decide)⟩

/-- C26, the code at the failing input: shard 4 is Waiting on group 200, whose
servers are recorded in `pullGroups[200]`, and the peer answers `OK`. The
worker is started with `targetGid = 200` but the `UpdateShardDB` it proposes
carries `TargetGid = 0`; applying that command removes `pullGid[4]` and
leaves `pullGroups[200]` in place. -/
theorem puller_omits_targetGid :
    samplePulling.pullTasks = [(4, 0, 200, ["server-200-0"])] ∧
    (pullShard 4 0 200 ["server-200-0"] sampleCall).map (fun command =>
      (command.Type_, command.Shard, command.TargetGid)) = [(UPDATE_SHARD_DB, 4, 0)] ∧
    samplePulling.pullGroups.lookup 200 = some ["server-200-0"] ∧
    (samplePulling.applierRun
      ((pullShard 4 0 200 ["server-200-0"] sampleCall).map (fun command =>
        (sampleRaft, ApplyMsg.ofShardOp 2 1 command)))).pullGid.lookup 4 = none ∧
    (samplePulling.applierRun
      ((pullShard 4 0 200 ["server-200-0"] sampleCall).map (fun command =>
        (sampleRaft, ApplyMsg.ofShardOp 2 1 command)))).pullGroups.lookup 200
      = some ["server-200-0"] := by
  decide

section pulls

theorem put_shardState (stateMachine : KVStateMachine) (shard : Int) (key value : String)
    (s : Int) :
    ((stateMachine.put shard key value).1.KVData.lookup s).map (fun d => d.State)
      = (stateMachine.KVData.lookup s).map (fun d => d.State) ∨
    ((stateMachine.put shard key value).1.KVData.lookup s).map (fun d => d.State)
      = some READY := by
  have hrw : ¬ (READY = WAITING) := by decide
  cases h : stateMachine.KVData.lookup shard with
  | none =>
    rw [put_absent _ _ _ _ h]
    by_cases hs : s = shard
    · right
      rw [hs]
      simp [AList.lookup_insert]
    · left
      simp [AList.lookup_insert_ne hs]
  | some shardData =>
    by_cases hw : shardData.State = WAITING
    · rw [put_waiting _ _ _ _ shardData h hw]
      exact Or.inl rfl
    · rw [put_serving _ _ _ _ shardData h hw]
      left
      by_cases hs : s = shard
      · rw [hs, h]
        simp [AList.lookup_insert]
      · simp [AList.lookup_insert_ne hs]

theorem append_shardState (stateMachine : KVStateMachine) (shard : Int) (key value : String)
    (s : Int) :
    ((stateMachine.append shard key value).1.KVData.lookup s).map (fun d => d.State)
      = (stateMachine.KVData.lookup s).map (fun d => d.State) ∨
    ((stateMachine.append shard key value).1.KVData.lookup s).map (fun d => d.State)
      = some READY := by
  cases h : stateMachine.KVData.lookup shard with
  | none =>
    rw [append_absent _ _ _ _ h]
    by_cases hs : s = shard
    · right
      rw [hs]
      simp [AList.lookup_insert]
    · left
      simp [AList.lookup_insert_ne hs]
  | some shardData =>
    by_cases hw : shardData.State = WAITING
    · rw [append_waiting _ _ _ _ shardData h hw]
      exact Or.inl rfl
    · rw [append_serving _ _ _ _ shardData h hw]
      left
      by_cases hs : s = shard
      · rw [hs, h]
        simp [AList.lookup_insert]
      · simp [AList.lookup_insert_ne hs]

/-- A client Op makes no shard Waiting: a shard that is Waiting afterwards was
Waiting before. -/
theorem applyOp_waiting (kv : ShardKV) (command : Op) (s : Int)
    (h : (kv.applyOp command).1.shardState s = some WAITING) :
    kv.shardState s = some WAITING := by
  have hrw : ¬ (READY = WAITING) := by decide
  have key : (kv.applyToStateMachine command).1.shardState s = kv.shardState s ∨
      (kv.applyToStateMachine command).1.shardState s = some READY := by
    unfold ShardKV.applyToStateMachine ShardKV.shardState
    split_ifs
    · exact Or.inl rfl
    · exact put_shardState kv.stateMachine command.Shard command.Key command.Value s
    · exact append_shardState kv.stateMachine command.Shard command.Key command.Value s
    · exact Or.inl rfl
  have hsame : (kv.applyOp command).1.shardState s = kv.shardState s ∨
      (kv.applyOp command).1.shardState s = some READY := by
    unfold ShardKV.applyOp
    dsimp only
    split_ifs
    · exact Or.inl rfl
    · exact key
    · exact key
  rcases hsame with h1 | h1
  · rw [← h1]
    exact h
  · rw [h1] at h
    exact absurd (Option.some.inj h) hrw

/-- The two invariants read the state machine and the pull tables only. -/
theorem pendingPulls_congr (kv kv2 : ShardKV) (hs : kv2.stateMachine = kv.stateMachine)
    (hg : kv2.pullGid = kv.pullGid) (hp : kv2.pullGroups = kv.pullGroups) :
    (kv.PendingPulls → kv2.PendingPulls) ∧ (kv.HasPullGid → kv2.HasPullGid) := by
  unfold ShardKV.PendingPulls ShardKV.HasPullGid ShardKV.shardState
  rw [hs, hg, hp]
  exact ⟨id, id⟩

theorem applyOp_pendingPulls (kv : ShardKV) (command : Op) :
    (kv.PendingPulls → (kv.applyOp command).1.PendingPulls) ∧
    (kv.HasPullGid → (kv.applyOp command).1.HasPullGid) := by
  obtain ⟨_, _, _, _, _, h6, h7, _, _⟩ := applyOp_rest kv command
  refine ⟨fun hinv shard hw => ?_, fun hinv shard hw => ?_⟩
  · rw [h6, h7]
    exact hinv shard (applyOp_waiting kv command shard hw)
  · rw [h6]
    exact hinv shard (applyOp_waiting kv command shard hw)

theorem updateShardState_pendingPulls (kv : ShardKV) (shard : Int) (newState : ShardState)
    (targetGid : Int) (groups : List String) :
    (kv.PendingPulls → (kv.updateShardState shard newState targetGid groups).PendingPulls) ∧
    (kv.HasPullGid → (kv.updateShardState shard newState targetGid groups).HasPullGid) := by
  have hsm := updateShardState_stateMachine kv shard newState targetGid groups
  obtain ⟨_, _, r3, r4⟩ := updateShardState_rest kv shard newState targetGid groups
  have hstate : ∀ s, (kv.updateShardState shard newState targetGid groups).shardState s
      = if s = shard then some newState else kv.shardState s := by
    intro s
    unfold ShardKV.shardState
    rw [hsm]
    by_cases hs : s = shard
    · rw [if_pos hs, hs]
      simp [AList.lookup_insert]
    · rw [if_neg hs]
      simp [AList.lookup_insert_ne hs]
  by_cases hn : newState = WAITING
  · obtain ⟨g1, g2⟩ := r3 hn
    refine ⟨fun hinv s hw => ?_, fun hinv s hw => ?_⟩
    · rw [g1, g2]
      by_cases hs : s = shard
      · rw [hs]
        exact ⟨targetGid, AList.lookup_insert _, groups, AList.lookup_insert _⟩
      · rw [hstate, if_neg hs] at hw
        obtain ⟨gid, hg, servers, hsv⟩ := hinv s hw
        refine ⟨gid, by rw [AList.lookup_insert_ne hs]; exact hg, ?_⟩
        by_cases hgt : gid = targetGid
        · exact ⟨groups, by rw [hgt]; exact AList.lookup_insert _⟩
        · exact ⟨servers, by rw [AList.lookup_insert_ne hgt]; exact hsv⟩
    · rw [g1]
      by_cases hs : s = shard
      · rw [hs]
        exact ⟨targetGid, AList.lookup_insert _⟩
      · rw [hstate, if_neg hs] at hw
        obtain ⟨gid, hg⟩ := hinv s hw
        exact ⟨gid, by rw [AList.lookup_insert_ne hs]; exact hg⟩
  · obtain ⟨g1, g2⟩ := r4 hn
    refine ⟨fun hinv s hw => ?_, fun hinv s hw => ?_⟩
    · rw [g1, g2]
      rw [hstate] at hw
      by_cases hs : s = shard
      · rw [if_pos hs] at hw
        exact absurd (Option.some.inj hw) hn
      · rw [if_neg hs] at hw
        exact hinv s hw
    · rw [g1]
      rw [hstate] at hw
      by_cases hs : s = shard
      · rw [if_pos hs] at hw
        exact absurd (Option.some.inj hw) hn
      · rw [if_neg hs] at hw
        exact hinv s hw

theorem updateShardDB_pendingPulls (kv : ShardKV) (shard : Int) (shardDB : GoMap String String)
    (cache : GoMap Int Int) (targetGid : Int) :
    (kv.PendingPulls →
      (∀ s, s ≠ shard → kv.shardState s = some WAITING →
        kv.pullGid.lookup s ≠ some targetGid) →
      (kv.updateShardDBAndCacheMap shard shardDB cache targetGid).PendingPulls) ∧
    (kv.HasPullGid → (kv.updateShardDBAndCacheMap shard shardDB cache targetGid).HasPullGid) := by
  have hrw : ¬ (READY = WAITING) := by decide
  obtain ⟨DB, hsm, _⟩ := updateShardDB_stateMachine kv shard shardDB cache targetGid
  have hstate : ∀ s, (kv.updateShardDBAndCacheMap shard shardDB cache targetGid).shardState s
      = if s = shard then some READY else kv.shardState s := by
    intro s
    unfold ShardKV.shardState
    rw [hsm]
    by_cases hs : s = shard
    · rw [if_pos hs, hs]
      simp [AList.lookup_insert]
    · rw [if_neg hs]
      simp [AList.lookup_insert_ne hs]
  have hg : (kv.updateShardDBAndCacheMap shard shardDB cache targetGid).pullGid
      = kv.pullGid.erase shard := rfl
  have hp : (kv.updateShardDBAndCacheMap shard shardDB cache targetGid).pullGroups
      = kv.pullGroups.erase targetGid := rfl
  refine ⟨fun hinv hkeep s hw => ?_, fun hinv s hw => ?_⟩
  · rw [hstate] at hw
    by_cases hs : s = shard
    · rw [if_pos hs] at hw
      exact absurd (Option.some.inj hw) hrw
    · rw [if_neg hs] at hw
      obtain ⟨gid, hgid, servers, hsv⟩ := hinv s hw
      have hne : gid ≠ targetGid := by
        intro heq
        exact hkeep s hs hw (by rw [hgid, heq])
      rw [hg, hp]
      exact ⟨gid, by rw [AList.lookup_erase_ne hs]; exact hgid, servers,
        by rw [AList.lookup_erase_ne hne]; exact hsv⟩
  · rw [hstate] at hw
    by_cases hs : s = shard
    · rw [if_pos hs] at hw
      exact absurd (Option.some.inj hw) hrw
    · rw [if_neg hs] at hw
      obtain ⟨gid, hgid⟩ := hinv s hw
      rw [hg]
      exact ⟨gid, by rw [AList.lookup_erase_ne hs]; exact hgid⟩

end pulls

section pullSteps

variable (kv : ShardKV) (rf : Raft) (msg : ApplyMsg)

theorem applierCommand_op_pull (command : Op) (hmsg : msg.Command = .op command)
    (hidx : kv.lastApplied < msg.CommandIndex) :
    (kv.applierCommand rf msg).kv.pullGid = kv.pullGid ∧
    (kv.applierCommand rf msg).kv.pullGroups = kv.pullGroups := by
  have hr := applyOp_rest { kv with lastApplied := msg.CommandIndex } command
  rw [applierCommand_fresh kv rf msg hidx, dispatch_op _ rf msg command hmsg]
  split_ifs <;>
  · simp only [trigger_pull, deliver_pull]
    exact ⟨hr.2.2.2.2.2.1, hr.2.2.2.2.2.2.1⟩

theorem applyShardOp_pendingPulls (command : ShardOp) :
    (kv.PendingPulls →
      (command.Type_ = UPDATE_SHARD_DB → ∀ s, s ≠ command.Shard →
        kv.shardState s = some WAITING → kv.pullGid.lookup s ≠ some command.TargetGid) →
      (kv.applyShardOp command).PendingPulls) ∧
    (kv.HasPullGid → (kv.applyShardOp command).HasPullGid) := by
  by_cases h1 : command.Type_ = UPDATE_CONFIG
  · rw [applyShardOp_updateConfig kv command h1]
    exact ⟨fun h _ => h, fun h => h⟩
  · by_cases h2 : command.Type_ = UPDATE_SHARD_STATE
    · rw [applyShardOp_updateShardState kv command h2]
      exact ⟨fun h _ => (updateShardState_pendingPulls kv _ _ _ _).1 h,
        (updateShardState_pendingPulls kv _ _ _ _).2⟩
    · by_cases h3 : command.Type_ = UPDATE_SHARD_DB
      · rw [applyShardOp_updateShardDB kv command h3]
        exact ⟨fun h hk => (updateShardDB_pendingPulls kv _ _ _ _).1 h (hk h3),
          (updateShardDB_pendingPulls kv _ _ _ _).2⟩
      · have : kv.applyShardOp command = kv := by
          unfold ShardKV.applyShardOp
          rw [if_neg h1, if_neg h2, if_neg h3]
        rw [this]
        exact ⟨fun h _ => h, fun h => h⟩

/-- One iteration of the apply loop on a command message keeps "every Waiting
shard has a `pullGid` entry", and keeps the whole pending-pull invariant when
the message keeps the pulls. -/
theorem applierCommand_pendingPulls :
    (kv.PendingPulls → kv.keepsPulls msg → (kv.applierCommand rf msg).kv.PendingPulls) ∧
    (kv.HasPullGid → (kv.applierCommand rf msg).kv.HasPullGid) := by
  by_cases hidx : msg.CommandIndex ≤ kv.lastApplied
  · rw [applierCommand_stale kv rf msg hidx]
    exact ⟨fun h _ => h, fun h => h⟩
  · have hlt : kv.lastApplied < msg.CommandIndex := not_le.mp hidx
    cases hcmd : msg.Command with
    | op command =>
      obtain ⟨_, a2, _, _⟩ := applierCommand_op kv rf msg command hcmd hlt
      obtain ⟨a5, a6⟩ := applierCommand_op_pull kv rf msg command hcmd hlt
      obtain ⟨r6, r7⟩ : (kv.applyOp command).1.pullGid = kv.pullGid ∧
          (kv.applyOp command).1.pullGroups = kv.pullGroups :=
        ⟨(applyOp_rest kv command).2.2.2.2.2.1, (applyOp_rest kv command).2.2.2.2.2.2.1⟩
      obtain ⟨c1, c2⟩ := pendingPulls_congr (kv.applyOp command).1 (kv.applierCommand rf msg).kv
        a2 (a5.trans r6.symm) (a6.trans r7.symm)
      exact ⟨fun h _ => c1 ((applyOp_pendingPulls kv command).1 h),
        fun h => c2 ((applyOp_pendingPulls kv command).2 h)⟩
    | shardOp command =>
      obtain ⟨_, a2, _, _⟩ := applierCommand_shardOp kv rf msg command hcmd hlt
      obtain ⟨a5, a6, _⟩ := applierCommand_shardOp_pull kv rf msg command hcmd hlt
      obtain ⟨c1, c2⟩ := pendingPulls_congr (kv.applyShardOp command)
        (kv.applierCommand rf msg).kv a2 a5 a6
      exact ⟨fun h hk => c1 ((applyShardOp_pendingPulls kv command).1 h (hk command hcmd)),
        fun h => c2 ((applyShardOp_pendingPulls kv command).2 h)⟩
    | other =>
      have hk : (kv.applierCommand rf msg).kv.stateMachine = kv.stateMachine ∧
          (kv.applierCommand rf msg).kv.pullGid = kv.pullGid ∧
          (kv.applierCommand rf msg).kv.pullGroups = kv.pullGroups := by
        rw [applierCommand_fresh kv rf msg hlt, dispatch_other _ rf msg hcmd]
        simp [trigger_pull, trigger_stateMachine]
      obtain ⟨c1, c2⟩ := pendingPulls_congr kv (kv.applierCommand rf msg).kv hk.1 hk.2.1 hk.2.2
      exact ⟨fun h _ => c1 h, c2⟩

theorem applierRun_pendingPulls (msgs : List (Raft × ApplyMsg)) :
    ∀ kv : ShardKV,
      (kv.PendingPulls → kv.keepsPullsRun msgs → (kv.applierRun msgs).PendingPulls) ∧
      (kv.HasPullGid → (kv.applierRun msgs).HasPullGid) := by
  induction msgs with
  | nil =>
    intro kv
    exact ⟨fun h _ => h, fun h => h⟩
  | cons m rest ih =>
    intro kv
    obtain ⟨s1, s2⟩ := applierCommand_pendingPulls kv m.1 m.2
    obtain ⟨i1, i2⟩ := ih (kv.applierCommand m.1 m.2).kv
    have hstep : kv.PendingPulls → (kv.lastApplied < m.2.CommandIndex → kv.keepsPulls m.2) →
        (kv.applierCommand m.1 m.2).kv.PendingPulls := by
      intro h hk
      by_cases hidx : m.2.CommandIndex ≤ kv.lastApplied
      · rw [applierCommand_stale kv m.1 m.2 hidx]
        exact h
      · exact s1 h (hk (not_le.mp hidx))
    refine ⟨fun h hk => ?_, fun h => ?_⟩
    · unfold ShardKV.applierRun
      split_ifs with hb
      · exact hstep h hk.1
      · exact i1 (hstep h hk.1) (hk.2 (Bool.eq_false_iff.mpr hb))
    · unfold ShardKV.applierRun
      split_ifs
      · exact s2 h
      · exact i2 (s2 h)

theorem start_pendingPulls (me maxraftstate gid : Int) :
    (ShardKV.start me maxraftstate gid).PendingPulls ∧
    (ShardKV.start me maxraftstate gid).HasPullGid := by
  refine ⟨fun shard hw => ?_, fun shard hw => ?_⟩ <;>
  · unfold ShardKV.shardState ShardKV.start at hw
    simp at hw

end pullSteps

/-- C25, as stated, fails, on commands the server itself hands to Raft. A
fresh server of group 100 fetches configuration 1 (no group, every shard
unassigned), configuration 2 (shards 0 to 4 for group 100, shards 5 to 9 for
group 200) and configuration 3 (group 200 has left, every shard for group
100); each time what `checkConfig` proposes is applied. Shards 0 to 4 are then
Waiting on group 0 and shards 5 to 9 on group 200. The puller's worker for
shard 5 gets the shard from group 200 and proposes `UpdateShardDB` with
`TargetGid = 0`; once that is applied, shard 0 is still Waiting with
`pullGid[0] = 0`, and `pullGroups` has no entry for group 0. -/
theorem pending_pulls_counterexample :
    sampleLog.map (fun command =>
        (command.Type_, command.NewConfig.Num, command.Shard, command.NewState,
          command.TargetGid))
      = [(UPDATE_CONFIG, 1, 0, "", 0),
         (UPDATE_CONFIG, 2, 0, "", 0),
         (UPDATE_SHARD_STATE, 0, 0, WAITING, 0), (UPDATE_SHARD_STATE, 0, 1, WAITING, 0),
         (UPDATE_SHARD_STATE, 0, 2, WAITING, 0), (UPDATE_SHARD_STATE, 0, 3, WAITING, 0),
         (UPDATE_SHARD_STATE, 0, 4, WAITING, 0),
         (UPDATE_CONFIG, 3, 0, "", 0),
         (UPDATE_SHARD_STATE, 0, 5, WAITING, 200), (UPDATE_SHARD_STATE, 0, 6, WAITING, 200),
         (UPDATE_SHARD_STATE, 0, 7, WAITING, 200), (UPDATE_SHARD_STATE, 0, 8, WAITING, 200),
         (UPDATE_SHARD_STATE, 0, 9, WAITING, 200),
         (UPDATE_SHARD_DB, 0, 5, "", 0)] ∧
    (5, 3, 200, ["server-200-0"]) ∈ sampleJoined.pullTasks ∧
    (ShardKV.start 0 (-1) 100).applierRun (committed 1 sampleLog) = sampleOrphaned ∧
    sampleOrphaned.shardState 0 = some WAITING ∧
    sampleOrphaned.pullGid.lookup 0 = some 0 ∧
    sampleOrphaned.pullGroups.lookup 0 = none ∧
    ¬ sampleOrphaned.PendingPulls := by
  have h1 : sampleOrphaned.shardState 0 = some WAITING := by decide
  have h2 : sampleOrphaned.pullGid.lookup 0 = some 0 := by decide
  have h3 : sampleOrphaned.pullGroups.lookup 0 = none := by decide
  refine ⟨by decide, by decide, by decide, h1, h2, h3, fun hinv => ?_⟩
  obtain ⟨gid, hg, servers, hs⟩ := hinv 0 h1
  rw [h2] at hg
  rw [← Option.some.inj hg, h3] at hs
  exact Option.noConfusion hs

/-- C25, amended: in every state the apply loop reaches from the initial state
over command messages (client Ops and ShardOps), each shard in state Waiting
has an entry `pullGid[shard]`; and `pullGroups` has an entry for that group
too when no `UpdateShardDB` that the loop applied named, as its `TargetGid`,
the pull group of another shard that was Waiting then. An applied
`UpdateShardDB` that does name the pull group of another Waiting shard leaves
that shard Waiting on a group for which `pullGroups` has no entry. -/
theorem pending_pulls_invariant (me maxraftstate gid : Int) (msgs : List (Raft × ApplyMsg)) :
    ((ShardKV.start me maxraftstate gid).applierRun msgs).HasPullGid ∧
    ((ShardKV.start me maxraftstate gid).keepsPullsRun msgs →
      ((ShardKV.start me maxraftstate gid).applierRun msgs).PendingPulls) ∧
    (∀ (kv : ShardKV) (rf : Raft) (msg : ApplyMsg) (command : ShardOp) (shard : Int),
      msg.Command = .shardOp command → kv.lastApplied < msg.CommandIndex →
      command.Type_ = UPDATE_SHARD_DB → shard ≠ command.Shard →
      kv.shardState shard = some WAITING →
      kv.pullGid.lookup shard = some command.TargetGid →
      (kv.applierCommand rf msg).kv.shardState shard = some WAITING ∧
      (kv.applierCommand rf msg).kv.pullGid.lookup shard = some command.TargetGid ∧
      (kv.applierCommand rf msg).kv.pullGroups.lookup command.TargetGid = none) := by
  obtain ⟨r1, r2⟩ := applierRun_pendingPulls msgs (ShardKV.start me maxraftstate gid)
  obtain ⟨s1, s2⟩ := start_pendingPulls me maxraftstate gid
  refine ⟨r2 s2, r1 s1, fun kv rf msg command shard hmsg hidx htype hs hw hg => ?_⟩
  obtain ⟨_, a2, _, _⟩ := applierCommand_shardOp kv rf msg command hmsg hidx
  obtain ⟨a5, a6, _⟩ := applierCommand_shardOp_pull kv rf msg command hmsg hidx
  rw [applyShardOp_updateShardDB kv command htype] at a2 a5 a6
  obtain ⟨DB, hsm, _⟩ :=
    updateShardDB_stateMachine kv command.Shard command.DB command.CacheMap command.TargetGid
  rw [hsm] at a2
  refine ⟨?_, ?_, ?_⟩
  · unfold ShardKV.shardState at hw ⊢
    rw [a2]
    show Option.map _ (AList.lookup shard (AList.insert command.Shard _ kv.stateMachine.KVData))
      = some WAITING
    rw [AList.lookup_insert_ne hs]
    exact hw
  · rw [a5]
    show AList.lookup shard (AList.erase command.Shard kv.pullGid) = some command.TargetGid
    rw [AList.lookup_erase_ne hs]
    exact hg
  · rw [a6]
    exact AList.lookup_erase _ _

theorem pending_pulls_invariant_witness :
    ((ShardKV.start 0 (-1) 100).applierRun
      [(sampleRaft, ApplyMsg.ofShardOp 1 1 (sampleUpdateShardState 1 WAITING)),
       (sampleRaft, ApplyMsg.ofShardOp 2 1 (sampleUpdateShardState 2 WAITING)),
       (sampleRaft, ApplyMsg.ofShardOp 2 1 (sampleDelivery 1 200))]).PendingPulls :=
  (pending_pulls_invariant 0 (-1) 100
    [(sampleRaft, ApplyMsg.ofShardOp 1 1 (sampleUpdateShardState 1 WAITING)),
     (sampleRaft, ApplyMsg.ofShardOp 2 1 (sampleUpdateShardState 2 WAITING)),
     (sampleRaft, ApplyMsg.ofShardOp 2 1 (sampleDelivery 1 200))]).2.1
    ⟨fun _ command hc ht => by
        have hcmd : sampleUpdateShardState 1 WAITING = command := Command.shardOp.inj hc
        rw [← hcmd] at ht
        exact absurd ht (by decide),
     fun _ =>
      ⟨fun _ command hc ht => by
          have hcmd : sampleUpdateShardState 2 WAITING = command := Command.shardOp.inj hc
          rw [← hcmd] at ht
          exact absurd ht (by decide),
       fun _ => ⟨fun hstale => absurd hstale (by decide), fun _ => trivial⟩⟩⟩

/-! ## The sharded server refines the unsharded one -/

section refinement

/-- One shard of the sharded server, seen as a kvraft server: the shard is
Ready or not held, the kvraft map is the shard's db (empty when not held), and
the duplicate tables agree. -/
theorem applyOp_refines (kv : ShardKV) (kvr : kvraft.KVServer) (command : Op)
    (htype : command.Type_ = GET ∨ command.Type_ = PUT ∨ command.Type_ = APPEND)
    (hstate : kv.shardState command.Shard = none ∨ kv.shardState command.Shard = some READY)
    (hdb : kvr.stateMachine.KVData = (kv.db command.Shard).getD ∅)
    (hcache : kvr.cacheMap = kv.cacheMap) :
    (kv.applyOp command).2 = (kvr.applyOp command.unsharded).2 ∧
    ((kv.applyOp command).1.shardState command.Shard = none ∨
      (kv.applyOp command).1.shardState command.Shard = some READY) ∧
    (kvr.applyOp command.unsharded).1.stateMachine.KVData
      = ((kv.applyOp command).1.db command.Shard).getD ∅ ∧
    (kvr.applyOp command.unsharded).1.cacheMap = (kv.applyOp command).1.cacheMap := by
  have hrw : READY ≠ WAITING := by decide
  have hcacheEq : kvr.hasCache command.ClientId command.CommandId
      = kv.hasCache command.ClientId command.CommandId := by
    unfold kvraft.KVServer.hasCache ShardKV.hasCache
    rw [hcache]
  by_cases hget : command.Type_ = GET
  · -- a Get reads and changes nothing
    have hk : kvr.applyOp command.unsharded
        = (kvr, { Err := (kvr.stateMachine.Get command.Key).1
                  Value := (kvr.stateMachine.Get command.Key).2 }) := by
      unfold kvraft.KVServer.applyOp kvraft.KVServer.applyToStateMachine Op.unsharded
      simp [hget]
    rw [applyOp_get kv command hget, applyToStateMachine_get kv command hget, hk]
    refine ⟨?_, hstate, hdb, hcache⟩
    unfold kvraft.KVStateMachine.Get
    rw [hdb]
    rcases serving_cases kv command.Shard hstate with ⟨h, hd⟩ | ⟨shardData, h, hst, hd⟩
    · rw [get_absent _ _ _ h, hd]
      rfl
    · rw [get_serving _ _ _ shardData h (by rw [hst]; exact hrw), hd]
  · cases hdup : kv.hasCache command.ClientId command.CommandId with
    | true =>
      -- a cached duplicate write
      have hk : kvr.applyOp command.unsharded = (kvr, { Err := OK, Value := "" }) := by
        unfold kvraft.KVServer.applyOp
        rw [if_pos ⟨hget, by rw [← hdup, ← hcacheEq]; rfl⟩]
      rw [applyOp_duplicate kv command hget hdup, hk]
      exact ⟨rfl, hstate, hdb, hcache⟩
    | false =>
      have hkdup : ¬ (command.unsharded.Type_ ≠ kvraft.GET ∧
          kvr.hasCache command.unsharded.ClientId command.unsharded.CommandId = true) := by
        intro h
        have h2 : kvr.hasCache command.ClientId command.CommandId = true := h.2
        rw [hcacheEq, hdup] at h2
        exact Bool.noConfusion h2
      rcases htype with h | h | h
      · exact absurd h hget
      · -- a Put
        obtain ⟨p1, p2, p3⟩ := applyOp_put_serving kv command h hdup hstate
        have hk : (kvr.applyOp command.unsharded).2 = { Err := OK, Value := "" } ∧
            (kvr.applyOp command.unsharded).1.stateMachine.KVData
              = kvr.stateMachine.KVData.insert command.Key command.Value ∧
            (kvr.applyOp command.unsharded).1.cacheMap
              = kvr.cacheMap.insert command.ClientId command.CommandId := by
          have hne : ¬ (PUT = GET) := by decide
          unfold kvraft.KVServer.applyOp
          rw [if_neg hkdup]
          unfold kvraft.KVServer.applyToStateMachine kvraft.KVStateMachine.Put Op.unsharded
          simp [h, hne]
        refine ⟨by rw [p1, hk.1], Or.inr ?_, ?_, by rw [p3, hk.2.2, hcache]⟩
        · unfold ShardKV.shardState
          rw [p2]
          simp [AList.lookup_insert]
        · unfold ShardKV.db
          rw [p2, hk.2.1, hdb]
          simp [AList.lookup_insert, ShardKV.db]
      · -- an Append
        obtain ⟨p1, p2, p3⟩ := applyOp_append_serving kv command h hdup hstate
        have hk : (kvr.applyOp command.unsharded).2 = { Err := OK, Value := "" } ∧
            (kvr.applyOp command.unsharded).1.stateMachine.KVData
              = kvr.stateMachine.KVData.insert command.Key
                ((kvr.stateMachine.KVData.lookup command.Key).getD "" ++ command.Value) ∧
            (kvr.applyOp command.unsharded).1.cacheMap
              = kvr.cacheMap.insert command.ClientId command.CommandId := by
          have hne : ¬ (APPEND = GET) := by decide
          have hne2 : ¬ (APPEND = PUT) := by decide
          unfold kvraft.KVServer.applyOp
          rw [if_neg hkdup]
          unfold kvraft.KVServer.applyToStateMachine kvraft.KVStateMachine.Append Op.unsharded
          simp [h, hne, hne2]
        refine ⟨by rw [p1, hk.1], Or.inr ?_, ?_, by rw [p3, hk.2.2, hcache]⟩
        · unfold ShardKV.shardState
          rw [p2]
          simp [AList.lookup_insert]
        · unfold ShardKV.db
          rw [p2, hk.2.1, hdb, read_eq]
          simp [AList.lookup_insert, ShardKV.db]

end refinement

/-- C28: refinement between the two servers. For every sequence of Get, Put
and Append Ops all addressed to one shard that is Ready or not yet held,
applying the sequence with the shardkv apply logic gives the same replies,
the same key/value map for that shard and the same duplicate table as
applying the same Ops, without their shard, with the kvraft apply logic to a
server whose map is the shard's db (empty when the shard is not held) and
whose duplicate table is the same. -/
theorem shard_refines_kvraft (ops : List Op) (shard : Int) :
    ∀ (kv : ShardKV) (kvr : kvraft.KVServer),
      (∀ command ∈ ops, command.Shard = shard ∧
        (command.Type_ = GET ∨ command.Type_ = PUT ∨ command.Type_ = APPEND)) →
      (kv.shardState shard = none ∨ kv.shardState shard = some READY) →
      kvr.stateMachine.KVData = (kv.db shard).getD ∅ →
      kvr.cacheMap = kv.cacheMap →
      (kv.applyOps ops).2 = (kvr.applyOps (ops.map Op.unsharded)).2 ∧
      ((kv.applyOps ops).1.db shard).getD ∅
        = (kvr.applyOps (ops.map Op.unsharded)).1.stateMachine.KVData ∧
      (kv.applyOps ops).1.cacheMap = (kvr.applyOps (ops.map Op.unsharded)).1.cacheMap := by
  induction ops with
  | nil =>
    intro kv kvr _ _ hdb hcache
    exact ⟨rfl, hdb.symm, hcache.symm⟩
  | cons command rest ih =>
    intro kv kvr hops hstate hdb hcache
    obtain ⟨hshard, htype⟩ := hops command (List.mem_cons_self _ _)
    subst hshard
    obtain ⟨s1, s2, s3, s4⟩ := applyOp_refines kv kvr command htype hstate hdb hcache
    obtain ⟨i1, i2, i3⟩ := ih (kv.applyOp command).1 (kvr.applyOp command.unsharded).1
      (fun c hc => hops c (List.mem_cons_of_mem _ hc)) s2 s3 s4
    rw [List.map_cons]
    unfold ShardKV.applyOps kvraft.KVServer.applyOps
    exact ⟨by rw [s1, i1], i2, i3⟩

theorem shard_refines_kvraft_witness :
    ((ShardKV.start 0 (-1) 100).applyOps
      [{ Key := "a", Value := "1", Shard := 7, Type_ := PUT, ClientId := 1, CommandId := 1 },
       { Key := "a", Value := "2", Shard := 7, Type_ := APPEND, ClientId := 1, CommandId := 2 },
       { Key := "a", Value := "", Shard := 7, Type_ := GET, ClientId := 1, CommandId := 3 }]).2
      = [{ Err := OK, Value := "" }, { Err := OK, Value := "" }, { Err := OK, Value := "12" }] ∧
    (((ShardKV.start 0 (-1) 100).unsharded 7).applyOps
      [{ Key := "a", Value := "1", Type_ := PUT, ClientId := 1, CommandId := 1 },
       { Key := "a", Value := "2", Type_ := APPEND, ClientId := 1, CommandId := 2 },
       { Key := "a", Value := "", Type_ := GET, ClientId := 1, CommandId := 3 }]).2
      = [{ Err := OK, Value := "" }, { Err := OK, Value := "" }, { Err := OK, Value := "12" }] :=
  have h := shard_refines_kvraft
    [{ Key := "a", Value := "1", Shard := 7, Type_ := PUT, ClientId := 1, CommandId := 1 },
     { Key := "a", Value := "2", Shard := 7, Type_ := APPEND, ClientId := 1, CommandId := 2 },
     { Key := "a", Value := "", Shard := 7, Type_ := GET, ClientId := 1, CommandId := 3 }]
    7 (ShardKV.start 0 (-1) 100) ((ShardKV.start 0 (-1) 100).unsharded 7)
    (by decide) (Or.inl (by decide)) rfl rfl
  ⟨by decide, h.1.symm.trans (by decide)⟩

end shardkv
